import Mathlib

/-!
# nvgpu falcon control layer

A shallow embedding of `drivers/gpu/nvgpu/common/falcon/falcon.c`, of
`drivers/gpu/nvgpu/common/gr/gr_falcon.c`, of the private command queue of
`drivers/gpu/nvgpu/common/fifo/priv_cmdbuf.c` and of the profiling statistics of
`drivers/gpu/nvgpu/os/linux/debug_fifo.c`.

* Machine integers are natural numbers; `u32` truncates where the C code can wrap.
* The hardware behind the operation table `g->ops.falcon` is an abstract state `σ`;
  every entry of the table is a function on `σ`.
* A `World` pairs the hardware state with a chronological trace of every
  operation-table invocation, mutex operation and delay the code performs, so that
  "is invoked", "exactly once" and "before" are statements about the trace.
* Diagnostic logging (`nvgpu_err`, `nvgpu_warn`, `nvgpu_info`) has no effect on the
  falcon or on the hardware and is not part of the state.
-/

namespace Nvgpu

/-! ## Constants and machine arithmetic -/

/-- Linux errno `EINVAL`. -/
def EINVAL : Int := 22

/-- Linux errno `ETIMEDOUT`. -/
def ETIMEDOUT : Int := 110

/-- Truncation of an unbounded value to the C type `u32`. -/
def u32 (n : Nat) : Nat := n % 4294967296

/-- Subtraction `a - b` in the C type `u32` (operands below `2^32`). -/
def u32_sub (a b : Nat) : Nat := (a + 4294967296 - b) % 4294967296

/-! ## Data model -/

/-- The C `enum falcon_mem_type`. -/
inductive falcon_mem_type
  | MEM_DMEM
  | MEM_IMEM
  deriving DecidableEq, Repr

/-- The three mutexes of `struct nvgpu_falcon`. -/
inductive falcon_lock
  | imem_lock
  | dmem_lock
  | emem_lock
  deriving DecidableEq, Repr

/-- One observable step of the driver: a mutex operation, a delay, or the invocation
of one entry of an operation table together with the arguments it was given. -/
inductive Event
  | mutex_init (l : falcon_lock)
  | mutex_destroy (l : falcon_lock)
  | mutex_acquire (l : falcon_lock)
  | mutex_release (l : falcon_lock)
  | udelay (usecs : Nat)
  | usleep_range (min_us max_us : Nat)
  | is_falcon_idle
  | is_falcon_scrubbing_done
  | is_falcon_cpu_halted
  | clear_halt_interrupt_status
  | reset
  | reset_eng
  | set_irq (enable : Bool) (intr_mask intr_dest : Nat)
  | get_ports_count (mem_type : falcon_mem_type)
  | get_mem_size (mem_type : falcon_mem_type)
  | copy_from_dmem (src : Nat) (size : Nat) (port : Nat)
  | copy_to_dmem (dst : Nat) (src : List Nat) (size : Nat) (port : Nat)
  | copy_from_imem (src : Nat) (size : Nat) (port : Nat)
  | copy_to_imem (dst : Nat) (src : List Nat) (size : Nat) (port : Nat) (sec : Bool) (tag : Nat)
  | copy_from_emem (src : Nat) (size : Nat) (port : Nat)
  | copy_to_emem (dst : Nat) (src : List Nat) (size : Nat) (port : Nat)
  | bootstrap (boot_vector : Nat)
  | mailbox_read (mailbox_index : Nat)
  | mailbox_write (mailbox_index : Nat) (data : Nat)
  | dump_falcon_stats
  | get_falcon_ctls
  deriving DecidableEq, Repr

/-- The hardware state together with the trace of what the driver did so far
(oldest event first). -/
structure World (σ : Type) where
  hw : σ
  trace : List Event
  deriving DecidableEq, Repr

/-- Append one event to the trace. -/
def World.emit {σ : Type} (w : World σ) (e : Event) : World σ :=
  { w with trace := w.trace ++ [e] }

/-- The chip operation table `g->ops.falcon`. The table is declared outside the
translated file, so it is a parameter. Each entry acts on the hardware state; host
buffers are lists of bytes. The two size queries read configuration registers and
leave the hardware state as it is. A `copy_from_*` entry receives the caller's
destination buffer and returns it updated. -/
structure gops_falcon (σ : Type) where
  is_falcon_idle : σ → Bool × σ
  is_falcon_scrubbing_done : σ → Bool × σ
  is_falcon_cpu_halted : σ → Bool × σ
  clear_halt_interrupt_status : σ → Bool × σ
  reset : σ → σ
  set_irq : Bool → Nat → Nat → σ → σ
  get_ports_count : falcon_mem_type → σ → Nat
  get_mem_size : falcon_mem_type → σ → Nat
  copy_from_dmem : (src : Nat) → (dst : List Nat) → (size : Nat) → (port : Nat) → σ → Int × List Nat × σ
  copy_to_dmem : (dst : Nat) → (src : List Nat) → (size : Nat) → (port : Nat) → σ → Int × σ
  copy_from_imem : (src : Nat) → (dst : List Nat) → (size : Nat) → (port : Nat) → σ → Int × List Nat × σ
  copy_to_imem : (dst : Nat) → (src : List Nat) → (size : Nat) → (port : Nat) → (sec : Bool) →
    (tag : Nat) → σ → Int × σ
  bootstrap : (boot_vector : Nat) → σ → Int × σ
  mailbox_read : (mailbox_index : Nat) → σ → Nat × σ
  mailbox_write : (mailbox_index : Nat) → (data : Nat) → σ → σ
  dump_falcon_stats : σ → σ
  get_falcon_ctls : σ → (Nat × Nat) × σ

/-- The C `struct nvgpu_falcon_engine_dependency_ops`: function pointers that may be
`NULL` (`none`). -/
structure nvgpu_falcon_engine_dependency_ops (σ : Type) where
  reset_eng : Option (σ → Int × σ)
  copy_from_emem : Option ((src : Nat) → (dst : List Nat) → (size : Nat) → (port : Nat) → σ →
    Int × List Nat × σ)
  copy_to_emem : Option ((dst : Nat) → (src : List Nat) → (size : Nat) → (port : Nat) → σ → Int × σ)

/-- The C `struct nvgpu_falcon`. Its three mutexes appear as `falcon_lock` names in
the trace; the back pointer `g` is replaced by passing `g->ops.falcon` along. -/
structure nvgpu_falcon (σ : Type) where
  flcn_id : Nat
  is_falcon_supported : Bool
  is_interrupt_enabled : Bool
  emem_supported : Bool
  flcn_engine_dep_ops : nvgpu_falcon_engine_dependency_ops σ

/-- The C `struct nvgpu_falcon_bl_info`. -/
structure nvgpu_falcon_bl_info where
  bl_src : List Nat
  bl_desc : List Nat
  bl_desc_size : Nat
  bl_size : Nat
  bl_start_tag : Nat

/-! ## Timers -/

/-- Modelled from the spec: `struct nvgpu_timeout` initialised with
`NVGPU_TIMER_RETRY_TIMER`, which lives in the timer library outside the translated
files. The spec calls the wait primitives "bounded-retry": the timer is a retry
counter with a configured maximum. -/
structure nvgpu_timeout_retry where
  max_attempts : Nat
  attempted : Nat
  deriving DecidableEq, Repr

/-- Modelled from the spec: `nvgpu_timeout_init` with `NVGPU_TIMER_RETRY_TIMER`:
the budget is `duration` retries, none attempted yet, and the call succeeds. -/
def nvgpu_timeout_init_retry (duration : Nat) : Int × nvgpu_timeout_retry :=
  (0, { max_attempts := duration, attempted := 0 })

/-- Modelled from the spec: `nvgpu_timeout_expired` (and `nvgpu_timeout_expired_msg`)
on a retry timer: once the attempts reach the maximum it reports `-ETIMEDOUT`,
otherwise it counts one more attempt and reports 0. -/
def nvgpu_timeout_expired_retry (timeout : nvgpu_timeout_retry) : Int × nvgpu_timeout_retry :=
  if timeout.attempted ≥ timeout.max_attempts then (-ETIMEDOUT, timeout)
  else (0, { timeout with attempted := timeout.attempted + 1 })

/-- Modelled from the spec: `nvgpu_timeout_peek_expired` on a retry timer: whether the
attempts have reached the maximum, without counting an attempt. -/
def nvgpu_timeout_peek_expired_retry (timeout : nvgpu_timeout_retry) : Bool :=
  decide (timeout.attempted ≥ timeout.max_attempts)

/-- Modelled from the spec: `struct nvgpu_timeout` initialised with
`NVGPU_TIMER_CPU_TIMER`: a deadline on the system clock, in nanoseconds. -/
structure nvgpu_timeout_cpu where
  time : Nat
  deriving DecidableEq, Repr

/-- Modelled from the spec: the system clock the CPU timer reads, which lives outside
the translated files. A reading may be any value and may change the state the clock
lives in. -/
structure nvgpu_os (σ : Type) where
  ktime_get : σ → Nat × σ

/-- Modelled from the spec: `nvgpu_timeout_init` with `NVGPU_TIMER_CPU_TIMER`: the
deadline is the current time plus `duration` milliseconds, and the call succeeds. -/
def nvgpu_timeout_init_cpu {σ : Type} (os : nvgpu_os σ) (duration : Nat) (w : World σ) :
    Int × nvgpu_timeout_cpu × World σ :=
  let now := os.ktime_get w.hw
  (0, { time := now.1 + 1000000 * duration }, { w with hw := now.2 })

/-- Modelled from the spec: `nvgpu_timeout_expired` on a CPU timer: `-ETIMEDOUT` once
the clock reads later than the deadline, 0 otherwise. -/
def nvgpu_timeout_expired_cpu {σ : Type} (os : nvgpu_os σ) (timeout : nvgpu_timeout_cpu)
    (w : World σ) : Int × World σ :=
  let now := os.ktime_get w.hw
  if now.1 > timeout.time then (-ETIMEDOUT, { w with hw := now.2 })
  else (0, { w with hw := now.2 })

/-- Modelled from the spec: `nvgpu_timeout_peek_expired` on a CPU timer: whether the
clock reads later than the deadline. -/
def nvgpu_timeout_peek_expired_cpu {σ : Type} (os : nvgpu_os σ) (timeout : nvgpu_timeout_cpu)
    (w : World σ) : Bool × World σ :=
  let now := os.ktime_get w.hw
  (decide (now.1 > timeout.time), { w with hw := now.2 })

/-! ## `falcon.c` -/

/-- `is_falcon_valid`: a `NULL` instance and an instance whose supported flag is clear
are both invalid. -/
def is_falcon_valid {σ : Type} (flcn : Option (nvgpu_falcon σ)) : Bool :=
  match flcn with
  | none => false
  | some f => f.is_falcon_supported

/-- `nvgpu_falcon_get_mem_size`; the out-parameter `*size` is passed in and returned. -/
def nvgpu_falcon_get_mem_size {σ : Type} (ops : gops_falcon σ) (flcn : Option (nvgpu_falcon σ))
    (type : falcon_mem_type) (size : Nat) (w : World σ) : Int × Nat × World σ :=
  if ¬ is_falcon_valid flcn then (-EINVAL, size, w)
  else (0, ops.get_mem_size type w.hw, w.emit (.get_mem_size type))

/-- `falcon_memcpy_params_check`. -/
def falcon_memcpy_params_check {σ : Type} (ops : gops_falcon σ) (flcn : nvgpu_falcon σ)
    (offset size : Nat) (mem_type : falcon_mem_type) (port : Nat) (w : World σ) : Int × World σ :=
  if size = 0 then (-EINVAL, w)
  else if offset &&& 3 ≠ 0 then (-EINVAL, w)
  else
    let w1 := w.emit (.get_ports_count mem_type)
    if port ≥ ops.get_ports_count mem_type w.hw then (-EINVAL, w1)
    else
      let r := nvgpu_falcon_get_mem_size ops (some flcn) mem_type 0 w1
      if r.1 ≠ 0 then (r.1, r.2.2)
      else if ¬ (offset ≤ r.2.1 ∧ u32 (offset + size) ≤ r.2.1) then (-EINVAL, r.2.2)
      else (0, r.2.2)

/-- `nvgpu_falcon_copy_from_dmem`; returns the status and the caller's buffer `dst`. -/
def nvgpu_falcon_copy_from_dmem {σ : Type} (ops : gops_falcon σ) (flcn : Option (nvgpu_falcon σ))
    (src : Nat) (dst : List Nat) (size port : Nat) (w : World σ) : Int × List Nat × World σ :=
  if ¬ is_falcon_valid flcn then (-EINVAL, dst, w)
  else
    match flcn with
    | none => (-EINVAL, dst, w)
    | some f =>
      let c := falcon_memcpy_params_check ops f src size .MEM_DMEM port w
      if c.1 ≠ 0 then (-EINVAL, dst, c.2)
      else
        let w1 := c.2.emit (.mutex_acquire .dmem_lock)
        let r := ops.copy_from_dmem src dst size port w1.hw
        let w2 : World σ := { hw := r.2.2, trace := w1.trace ++ [.copy_from_dmem src size port] }
        (r.1, r.2.1, w2.emit (.mutex_release .dmem_lock))

/-- `nvgpu_falcon_copy_to_dmem`. -/
def nvgpu_falcon_copy_to_dmem {σ : Type} (ops : gops_falcon σ) (flcn : Option (nvgpu_falcon σ))
    (dst : Nat) (src : List Nat) (size port : Nat) (w : World σ) : Int × World σ :=
  if ¬ is_falcon_valid flcn then (-EINVAL, w)
  else
    match flcn with
    | none => (-EINVAL, w)
    | some f =>
      let c := falcon_memcpy_params_check ops f dst size .MEM_DMEM port w
      if c.1 ≠ 0 then (-EINVAL, c.2)
      else
        let w1 := c.2.emit (.mutex_acquire .dmem_lock)
        let r := ops.copy_to_dmem dst src size port w1.hw
        let w2 : World σ := { hw := r.2, trace := w1.trace ++ [.copy_to_dmem dst src size port] }
        (r.1, w2.emit (.mutex_release .dmem_lock))

/-- `nvgpu_falcon_copy_from_imem`; returns the status and the caller's buffer `dst`. -/
def nvgpu_falcon_copy_from_imem {σ : Type} (ops : gops_falcon σ) (flcn : Option (nvgpu_falcon σ))
    (src : Nat) (dst : List Nat) (size port : Nat) (w : World σ) : Int × List Nat × World σ :=
  if ¬ is_falcon_valid flcn then (-EINVAL, dst, w)
  else
    match flcn with
    | none => (-EINVAL, dst, w)
    | some f =>
      let c := falcon_memcpy_params_check ops f src size .MEM_IMEM port w
      if c.1 ≠ 0 then (-EINVAL, dst, c.2)
      else
        let w1 := c.2.emit (.mutex_acquire .imem_lock)
        let r := ops.copy_from_imem src dst size port w1.hw
        let w2 : World σ := { hw := r.2.2, trace := w1.trace ++ [.copy_from_imem src size port] }
        (r.1, r.2.1, w2.emit (.mutex_release .imem_lock))

/-- `nvgpu_falcon_copy_to_imem`. -/
def nvgpu_falcon_copy_to_imem {σ : Type} (ops : gops_falcon σ) (flcn : Option (nvgpu_falcon σ))
    (dst : Nat) (src : List Nat) (size port : Nat) (sec : Bool) (tag : Nat) (w : World σ) :
    Int × World σ :=
  if ¬ is_falcon_valid flcn then (-EINVAL, w)
  else
    match flcn with
    | none => (-EINVAL, w)
    | some f =>
      let c := falcon_memcpy_params_check ops f dst size .MEM_IMEM port w
      if c.1 ≠ 0 then (-EINVAL, c.2)
      else
        let w1 := c.2.emit (.mutex_acquire .imem_lock)
        let r := ops.copy_to_imem dst src size port sec tag w1.hw
        let w2 : World σ :=
          { hw := r.2, trace := w1.trace ++ [.copy_to_imem dst src size port sec tag] }
        (r.1, w2.emit (.mutex_release .imem_lock))

/-- `nvgpu_falcon_copy_from_emem`; returns the status and the caller's buffer `dst`. -/
def nvgpu_falcon_copy_from_emem {σ : Type} (flcn : Option (nvgpu_falcon σ))
    (src : Nat) (dst : List Nat) (size port : Nat) (w : World σ) : Int × List Nat × World σ :=
  if ¬ is_falcon_valid flcn then (-EINVAL, dst, w)
  else
    match flcn with
    | none => (-EINVAL, dst, w)
    | some f =>
      match f.flcn_engine_dep_ops.copy_from_emem with
      | some op =>
        let w1 := w.emit (.mutex_acquire .emem_lock)
        let r := op src dst size port w1.hw
        let w2 : World σ := { hw := r.2.2, trace := w1.trace ++ [.copy_from_emem src size port] }
        (r.1, r.2.1, w2.emit (.mutex_release .emem_lock))
      | none => (-EINVAL, dst, w)

/-- `nvgpu_falcon_copy_to_emem`. -/
def nvgpu_falcon_copy_to_emem {σ : Type} (flcn : Option (nvgpu_falcon σ))
    (dst : Nat) (src : List Nat) (size port : Nat) (w : World σ) : Int × World σ :=
  if ¬ is_falcon_valid flcn then (-EINVAL, w)
  else
    match flcn with
    | none => (-EINVAL, w)
    | some f =>
      match f.flcn_engine_dep_ops.copy_to_emem with
      | some op =>
        let w1 := w.emit (.mutex_acquire .emem_lock)
        let r := op dst src size port w1.hw
        let w2 : World σ := { hw := r.2, trace := w1.trace ++ [.copy_to_emem dst src size port] }
        (r.1, w2.emit (.mutex_release .emem_lock))
      | none => (-EINVAL, w)

/-- The `do ... while (true)` loop of `nvgpu_falcon_wait_idle`: status, timer and world
when the loop is left (by `break` with status 0, or by `return -ETIMEDOUT`). -/
def wait_idle_loop {σ : Type} (ops : gops_falcon σ) (timeout : nvgpu_timeout_retry)
    (w : World σ) : Int × nvgpu_timeout_retry × World σ :=
  let p := ops.is_falcon_idle w.hw
  let w1 : World σ := { hw := p.2, trace := w.trace ++ [.is_falcon_idle] }
  if p.1 then (0, timeout, w1)
  else if (nvgpu_timeout_expired_retry timeout).1 ≠ 0 then
    (-ETIMEDOUT, (nvgpu_timeout_expired_retry timeout).2, w1)
  else
    wait_idle_loop ops (nvgpu_timeout_expired_retry timeout).2 (w1.emit (.usleep_range 100 200))
termination_by timeout.max_attempts - timeout.attempted
decreasing_by
  rename_i h
  simp only [nvgpu_timeout_expired_retry] at h ⊢
  split at h
  · simp [ETIMEDOUT] at h
  · rename_i hlt
    simp only [if_neg hlt]
    omega

/-- `nvgpu_falcon_wait_idle`, returning also the timer as it is left. -/
def nvgpu_falcon_wait_idle_timer {σ : Type} (ops : gops_falcon σ)
    (flcn : Option (nvgpu_falcon σ)) (w : World σ) : Int × Option nvgpu_timeout_retry × World σ :=
  if ¬ is_falcon_valid flcn then (-EINVAL, none, w)
  else
    let t := nvgpu_timeout_init_retry 2000
    if t.1 ≠ 0 then (t.1, some t.2, w)
    else
      let r := wait_idle_loop ops t.2 w
      (r.1, some r.2.1, r.2.2)

/-- `nvgpu_falcon_wait_idle`. -/
def nvgpu_falcon_wait_idle {σ : Type} (ops : gops_falcon σ) (flcn : Option (nvgpu_falcon σ))
    (w : World σ) : Int × World σ :=
  let r := nvgpu_falcon_wait_idle_timer ops flcn w
  (r.1, r.2.2)

/-- `MEM_SCRUBBING_TIMEOUT_MAX`. -/
def MEM_SCRUBBING_TIMEOUT_MAX : Nat := 1000

/-- `MEM_SCRUBBING_TIMEOUT_DEFAULT`. -/
def MEM_SCRUBBING_TIMEOUT_DEFAULT : Nat := 10

/-- The `do ... while (nvgpu_timeout_expired(&timeout) == 0)` loop of
`nvgpu_falcon_mem_scrub_wait`: whether it was left by `goto exit`, the timer and the
world. -/
def mem_scrub_loop {σ : Type} (ops : gops_falcon σ) (timeout : nvgpu_timeout_retry)
    (w : World σ) : Bool × nvgpu_timeout_retry × World σ :=
  let p := ops.is_falcon_scrubbing_done w.hw
  let w1 : World σ := { hw := p.2, trace := w.trace ++ [.is_falcon_scrubbing_done] }
  if p.1 then (true, timeout, w1)
  else
    let w2 := w1.emit (.udelay MEM_SCRUBBING_TIMEOUT_DEFAULT)
    if (nvgpu_timeout_expired_retry timeout).1 = 0 then
      mem_scrub_loop ops (nvgpu_timeout_expired_retry timeout).2 w2
    else (false, (nvgpu_timeout_expired_retry timeout).2, w2)
termination_by timeout.max_attempts - timeout.attempted
decreasing_by
  rename_i h
  simp only [nvgpu_timeout_expired_retry] at h ⊢
  split at h
  · simp [ETIMEDOUT] at h
  · rename_i hlt
    simp only [if_neg hlt]
    omega

/-- `nvgpu_falcon_mem_scrub_wait`, returning also the timer as it is left. -/
def nvgpu_falcon_mem_scrub_wait_timer {σ : Type} (ops : gops_falcon σ)
    (flcn : Option (nvgpu_falcon σ)) (w : World σ) : Int × Option nvgpu_timeout_retry × World σ :=
  if ¬ is_falcon_valid flcn then (-EINVAL, none, w)
  else
    let t := nvgpu_timeout_init_retry (MEM_SCRUBBING_TIMEOUT_MAX / MEM_SCRUBBING_TIMEOUT_DEFAULT)
    if t.1 ≠ 0 then (t.1, some t.2, w)
    else
      let r := mem_scrub_loop ops t.2 w
      if r.1 then (t.1, some r.2.1, r.2.2)
      else if nvgpu_timeout_peek_expired_retry r.2.1 then (-ETIMEDOUT, some r.2.1, r.2.2)
      else (t.1, some r.2.1, r.2.2)

/-- `nvgpu_falcon_mem_scrub_wait`. -/
def nvgpu_falcon_mem_scrub_wait {σ : Type} (ops : gops_falcon σ) (flcn : Option (nvgpu_falcon σ))
    (w : World σ) : Int × World σ :=
  let r := nvgpu_falcon_mem_scrub_wait_timer ops flcn w
  (r.1, r.2.2)

/-- `nvgpu_falcon_reset`. -/
def nvgpu_falcon_reset {σ : Type} (ops : gops_falcon σ) (flcn : Option (nvgpu_falcon σ))
    (w : World σ) : Int × World σ :=
  if ¬ is_falcon_valid flcn then (-EINVAL, w)
  else
    match flcn with
    | none => (-EINVAL, w)
    | some f =>
      let s : Int × World σ :=
        match f.flcn_engine_dep_ops.reset_eng with
        | some reset_eng =>
          let r := reset_eng w.hw
          (r.1, { hw := r.2, trace := w.trace ++ [.reset_eng] })
        | none => (0, { hw := ops.reset w.hw, trace := w.trace ++ [.reset] })
      if s.1 = 0 then nvgpu_falcon_mem_scrub_wait ops flcn s.2
      else s

/-- `nvgpu_falcon_set_irq`. -/
def nvgpu_falcon_set_irq {σ : Type} (ops : gops_falcon σ) (flcn : Option (nvgpu_falcon σ))
    (enable : Bool) (intr_mask intr_dest : Nat) (w : World σ) : World σ :=
  if ¬ is_falcon_valid flcn then w
  else
    match flcn with
    | none => w
    | some f =>
      let enable1 := if ¬ f.is_interrupt_enabled then false else enable
      { hw := ops.set_irq enable1 intr_mask intr_dest w.hw,
        trace := w.trace ++ [.set_irq enable1 intr_mask intr_dest] }

/-- The `do ... while (nvgpu_timeout_expired(&to) == 0)` loop of
`nvgpu_falcon_wait_for_halt`. The clock decides when it ends, so the loop is run with
a bound on the number of iterations and yields `none` when the bound is reached. -/
def wait_for_halt_loop {σ : Type} (ops : gops_falcon σ) (os : nvgpu_os σ)
    (to_ : nvgpu_timeout_cpu) : Nat → World σ → Option (World σ)
  | 0, _ => none
  | fuel + 1, w =>
    let p := ops.is_falcon_cpu_halted w.hw
    let w1 : World σ := { hw := p.2, trace := w.trace ++ [.is_falcon_cpu_halted] }
    if p.1 then some w1
    else
      let e := nvgpu_timeout_expired_cpu os to_ (w1.emit (.udelay 10))
      if e.1 = 0 then wait_for_halt_loop ops os to_ fuel e.2
      else some e.2

/-- `nvgpu_falcon_wait_for_halt`; `none` when the loop bound `fuel` is reached. -/
def nvgpu_falcon_wait_for_halt {σ : Type} (ops : gops_falcon σ) (os : nvgpu_os σ)
    (flcn : Option (nvgpu_falcon σ)) (timeout : Nat) (fuel : Nat) (w : World σ) :
    Option (Int × World σ) :=
  if ¬ is_falcon_valid flcn then some (-EINVAL, w)
  else
    let t := nvgpu_timeout_init_cpu os timeout w
    if t.1 ≠ 0 then some (t.1, t.2.2)
    else
      match wait_for_halt_loop ops os t.2.1 fuel t.2.2 with
      | none => none
      | some w1 =>
        let k := nvgpu_timeout_peek_expired_cpu os t.2.1 w1
        if k.1 then some (-ETIMEDOUT, k.2) else some (t.1, k.2)

/-- The `do ... while (nvgpu_timeout_expired(&to) == 0)` loop of
`nvgpu_falcon_clear_halt_intr_status`, bounded like `wait_for_halt_loop`. -/
def clear_halt_intr_status_loop {σ : Type} (ops : gops_falcon σ) (os : nvgpu_os σ)
    (to_ : nvgpu_timeout_cpu) : Nat → World σ → Option (World σ)
  | 0, _ => none
  | fuel + 1, w =>
    let p := ops.clear_halt_interrupt_status w.hw
    let w1 : World σ := { hw := p.2, trace := w.trace ++ [.clear_halt_interrupt_status] }
    if p.1 then some w1
    else
      let e := nvgpu_timeout_expired_cpu os to_ (w1.emit (.udelay 1))
      if e.1 = 0 then clear_halt_intr_status_loop ops os to_ fuel e.2
      else some e.2

/-- `nvgpu_falcon_clear_halt_intr_status`; `none` when the loop bound `fuel` is
reached. -/
def nvgpu_falcon_clear_halt_intr_status {σ : Type} (ops : gops_falcon σ) (os : nvgpu_os σ)
    (flcn : Option (nvgpu_falcon σ)) (timeout : Nat) (fuel : Nat) (w : World σ) :
    Option (Int × World σ) :=
  if ¬ is_falcon_valid flcn then some (-EINVAL, w)
  else
    let t := nvgpu_timeout_init_cpu os timeout w
    if t.1 ≠ 0 then some (t.1, t.2.2)
    else
      match clear_halt_intr_status_loop ops os t.2.1 fuel t.2.2 with
      | none => none
      | some w1 =>
        let k := nvgpu_timeout_peek_expired_cpu os t.2.1 w1
        if k.1 then some (-ETIMEDOUT, k.2) else some (t.1, k.2)

/-- The `do ... while (total_block_read-- != 0U)` loop of `falcon_print_mem`. The
formatted dump lines are diagnostic output and are left out; `buff` is the 256-byte
block buffer. -/
def falcon_print_mem_loop {σ : Type} (ops : gops_falcon σ) (flcn : nvgpu_falcon σ)
    (mem_type : falcon_mem_type) :
    (total_block_read : Nat) → (src size : Nat) → (buff : List Nat) → World σ → World σ
  | 0, src, size, buff, w =>
    let byte_read_count := size
    if byte_read_count = 0 then w
    else
      let r :=
        if mem_type = .MEM_DMEM then
          nvgpu_falcon_copy_from_dmem ops (some flcn) src buff byte_read_count 0 w
        else nvgpu_falcon_copy_from_imem ops (some flcn) src buff byte_read_count 0 w
      r.2.2
  | n + 1, src, size, buff, w =>
    let byte_read_count := 256
    let r :=
      if mem_type = .MEM_DMEM then
        nvgpu_falcon_copy_from_dmem ops (some flcn) src buff byte_read_count 0 w
      else nvgpu_falcon_copy_from_imem ops (some flcn) src buff byte_read_count 0 w
    if r.1 ≠ 0 then r.2.2
    else
      falcon_print_mem_loop ops flcn mem_type n (u32 (src + byte_read_count))
        (u32_sub size byte_read_count) r.2.1 r.2.2

/-- `falcon_print_mem`. -/
def falcon_print_mem {σ : Type} (ops : gops_falcon σ) (flcn : nvgpu_falcon σ)
    (src size : Nat) (mem_type : falcon_mem_type) (w : World σ) : World σ :=
  let c := falcon_memcpy_params_check ops flcn src size mem_type 0 w
  if c.1 ≠ 0 then c.2
  else falcon_print_mem_loop ops flcn mem_type (size >>> 8) src size (List.replicate 256 0) c.2

/-- `nvgpu_falcon_print_dmem`. -/
def nvgpu_falcon_print_dmem {σ : Type} (ops : gops_falcon σ) (flcn : Option (nvgpu_falcon σ))
    (src size : Nat) (w : World σ) : World σ :=
  if ¬ is_falcon_valid flcn then w
  else
    match flcn with
    | none => w
    | some f => falcon_print_mem ops f src size .MEM_DMEM w

/-- `nvgpu_falcon_print_imem`. -/
def nvgpu_falcon_print_imem {σ : Type} (ops : gops_falcon σ) (flcn : Option (nvgpu_falcon σ))
    (src size : Nat) (w : World σ) : World σ :=
  if ¬ is_falcon_valid flcn then w
  else
    match flcn with
    | none => w
    | some f => falcon_print_mem ops f src size .MEM_IMEM w

/-- `nvgpu_falcon_bootstrap`. -/
def nvgpu_falcon_bootstrap {σ : Type} (ops : gops_falcon σ) (flcn : Option (nvgpu_falcon σ))
    (boot_vector : Nat) (w : World σ) : Int × World σ :=
  if ¬ is_falcon_valid flcn then (-EINVAL, w)
  else
    let r := ops.bootstrap boot_vector w.hw
    (r.1, { hw := r.2, trace := w.trace ++ [.bootstrap boot_vector] })

/-- `nvgpu_falcon_mailbox_read`; `FALCON_MAILBOX_COUNT` is declared outside the
translated file and is a parameter. -/
def nvgpu_falcon_mailbox_read {σ : Type} (FALCON_MAILBOX_COUNT : Nat) (ops : gops_falcon σ)
    (flcn : Option (nvgpu_falcon σ)) (mailbox_index : Nat) (w : World σ) : Nat × World σ :=
  if ¬ is_falcon_valid flcn then (0, w)
  else if mailbox_index ≥ FALCON_MAILBOX_COUNT then (0, w)
  else
    let r := ops.mailbox_read mailbox_index w.hw
    (r.1, { hw := r.2, trace := w.trace ++ [.mailbox_read mailbox_index] })

/-- `nvgpu_falcon_mailbox_write`; `FALCON_MAILBOX_COUNT` is a parameter. -/
def nvgpu_falcon_mailbox_write {σ : Type} (FALCON_MAILBOX_COUNT : Nat) (ops : gops_falcon σ)
    (flcn : Option (nvgpu_falcon σ)) (mailbox_index data : Nat) (w : World σ) : World σ :=
  if ¬ is_falcon_valid flcn then w
  else if mailbox_index ≥ FALCON_MAILBOX_COUNT then w
  else
    { hw := ops.mailbox_write mailbox_index data w.hw,
      trace := w.trace ++ [.mailbox_write mailbox_index data] }

/-- `nvgpu_falcon_dump_stats`. -/
def nvgpu_falcon_dump_stats {σ : Type} (ops : gops_falcon σ) (flcn : Option (nvgpu_falcon σ))
    (w : World σ) : World σ :=
  if ¬ is_falcon_valid flcn then w
  else { hw := ops.dump_falcon_stats w.hw, trace := w.trace ++ [.dump_falcon_stats] }

/-- `nvgpu_falcon_bl_bootstrap`. `imem_size` is uninitialised in C before the size
query writes it; 0 stands for that value. -/
def nvgpu_falcon_bl_bootstrap {σ : Type} (ops : gops_falcon σ) (flcn : Option (nvgpu_falcon σ))
    (bl_info : nvgpu_falcon_bl_info) (w : World σ) : Int × World σ :=
  if ¬ is_falcon_valid flcn then (-EINVAL, w)
  else
    let m := nvgpu_falcon_get_mem_size ops flcn .MEM_IMEM 0 w
    let imem_size := m.2.1
    if m.1 ≠ 0 then (m.1, m.2.2)
    else if bl_info.bl_size > imem_size then (m.1, m.2.2)
    else
      let d := nvgpu_falcon_copy_to_dmem ops flcn 0 bl_info.bl_desc bl_info.bl_desc_size 0 m.2.2
      if d.1 ≠ 0 then d
      else
        let dst := u32_sub imem_size bl_info.bl_size
        let i := nvgpu_falcon_copy_to_imem ops flcn dst bl_info.bl_src bl_info.bl_size 0 false
          bl_info.bl_start_tag d.2
        if i.1 ≠ 0 then i
        else
          let virt_addr := u32 (bl_info.bl_start_tag <<< 8)
          nvgpu_falcon_bootstrap ops flcn virt_addr i.2

/-- `nvgpu_falcon_get_ctls`; the out-parameters `*sctl`, `*cpuctl` are passed in and
returned. -/
def nvgpu_falcon_get_ctls {σ : Type} (ops : gops_falcon σ) (flcn : Option (nvgpu_falcon σ))
    (sctl cpuctl : Nat) (w : World σ) : (Nat × Nat) × World σ :=
  if ¬ is_falcon_valid flcn then ((sctl, cpuctl), w)
  else
    let r := ops.get_falcon_ctls w.hw
    (r.1, { hw := r.2, trace := w.trace ++ [.get_falcon_ctls] })

/-- `nvgpu_falcon_get_id`. -/
def nvgpu_falcon_get_id {σ : Type} (flcn : nvgpu_falcon σ) : Nat :=
  flcn.flcn_id

/-! ## The instance registry -/

/-- The falcon instances embedded in `struct gk20a`. -/
inductive falcon_slot
  | pmu_flcn
  | fecs_flcn
  | gpccs_flcn
  | gsp_flcn
  | nvdec_flcn
  | sec2_flcn
  | minion_flcn
  deriving DecidableEq, Repr

/-- The `FALCON_ID_*` constants and the build switch `CONFIG_NVGPU_DGPU`, declared
outside the translated file and taken as parameters. -/
structure falcon_config where
  FALCON_ID_PMU : Nat
  FALCON_ID_FECS : Nat
  FALCON_ID_GPCCS : Nat
  FALCON_ID_GSPLITE : Nat
  FALCON_ID_NVDEC : Nat
  FALCON_ID_SEC2 : Nat
  FALCON_ID_MINION : Nat
  CONFIG_NVGPU_DGPU : Bool

/-- The part of `struct gk20a` the registry touches: the falcon instances, and the
trace of mutex operations on them (which instance, which operation). -/
structure gk20a (σ : Type) where
  flcn : falcon_slot → nvgpu_falcon σ
  trace : List (falcon_slot × Event)

/-- `nvgpu_falcon_get_instance`: the instance an id names, `none` for `NULL`. -/
def nvgpu_falcon_get_instance (c : falcon_config) (flcn_id : Nat) : Option falcon_slot :=
  if flcn_id = c.FALCON_ID_PMU then some .pmu_flcn
  else if flcn_id = c.FALCON_ID_FECS then some .fecs_flcn
  else if flcn_id = c.FALCON_ID_GPCCS then some .gpccs_flcn
  else if c.CONFIG_NVGPU_DGPU ∧ flcn_id = c.FALCON_ID_GSPLITE then some .gsp_flcn
  else if c.CONFIG_NVGPU_DGPU ∧ flcn_id = c.FALCON_ID_NVDEC then some .nvdec_flcn
  else if c.CONFIG_NVGPU_DGPU ∧ flcn_id = c.FALCON_ID_SEC2 then some .sec2_flcn
  else if c.CONFIG_NVGPU_DGPU ∧ flcn_id = c.FALCON_ID_MINION then some .minion_flcn
  else none

/-- `nvgpu_falcon_sw_free`. -/
def nvgpu_falcon_sw_free {σ : Type} (c : falcon_config) (g : gk20a σ) (flcn_id : Nat) : gk20a σ :=
  match nvgpu_falcon_get_instance c flcn_id with
  | none => g
  | some s =>
    if (g.flcn s).is_falcon_supported then
      let g1 : gk20a σ :=
        { g with flcn := Function.update g.flcn s { g.flcn s with is_falcon_supported := false } }
      let g2 : gk20a σ :=
        if (g1.flcn s).emem_supported then
          { g1 with trace := g1.trace ++ [(s, .mutex_destroy .emem_lock)] }
        else g1
      let g3 : gk20a σ := { g2 with trace := g2.trace ++ [(s, .mutex_destroy .dmem_lock)] }
      { g3 with trace := g3.trace ++ [(s, .mutex_destroy .imem_lock)] }
    else g

/-! ## A simulated falcon

A concrete hardware state and operation table, used to run the embedding on explicit
inputs. -/

/-- Modelled from the spec: a backend that keeps one byte array per memory region,
two mailbox registers, a status predicate that turns true after a number of polls,
and a clock. -/
structure sim_hw where
  imem : List Nat
  dmem : List Nat
  emem : List Nat
  mailbox0 : Nat
  mailbox1 : Nat
  busy_polls : Nat
  resets : Nat
  clock : Nat
  boot_vector : Option Nat
  deriving DecidableEq, Repr

/-- Bytes `off .. off + size` of a region. -/
def mem_read (mem : List Nat) (off size : Nat) : List Nat :=
  (mem.drop off).take size

/-- The region with `data` stored from byte `off` on; the region keeps its length. -/
def mem_write (mem : List Nat) (off : Nat) (data : List Nat) : List Nat :=
  (mem.take off ++ data ++ mem.drop (off + data.length)).take mem.length

/-- The status predicate of the simulated falcon: true once `busy_polls` polls have
answered false. -/
def sim_poll (s : sim_hw) : Bool × sim_hw :=
  (decide (s.busy_polls = 0), { s with busy_polls := s.busy_polls - 1 })

/-- Modelled from the spec: the operation table of the simulated falcon, with
`ports` ports on each region. A copy stores or fetches `size` bytes of the region's
array and reports 0. -/
def sim_ops (ports : Nat) : gops_falcon sim_hw where
  is_falcon_idle := sim_poll
  is_falcon_scrubbing_done := sim_poll
  is_falcon_cpu_halted := sim_poll
  clear_halt_interrupt_status := sim_poll
  reset := fun s => { s with resets := s.resets + 1 }
  set_irq := fun _ _ _ s => s
  get_ports_count := fun _ _ => ports
  get_mem_size := fun t s =>
    match t with
    | .MEM_DMEM => s.dmem.length
    | .MEM_IMEM => s.imem.length
  copy_from_dmem := fun src dst size _ s => (0, mem_read s.dmem src size ++ dst.drop size, s)
  copy_to_dmem := fun dst src size _ s => (0, { s with dmem := mem_write s.dmem dst (src.take size) })
  copy_from_imem := fun src dst size _ s => (0, mem_read s.imem src size ++ dst.drop size, s)
  copy_to_imem := fun dst src size _ _ _ s =>
    (0, { s with imem := mem_write s.imem dst (src.take size) })
  bootstrap := fun v s => (0, { s with boot_vector := some v })
  mailbox_read := fun i s => (if i = 0 then s.mailbox0 else s.mailbox1, s)
  mailbox_write := fun i d s => if i = 0 then { s with mailbox0 := d } else { s with mailbox1 := d }
  dump_falcon_stats := fun s => s
  get_falcon_ctls := fun s => ((0, 0), s)

/-- The clock of the simulated machine: every reading advances it by one
microsecond. -/
def sim_os : nvgpu_os sim_hw where
  ktime_get := fun s => (s.clock, { s with clock := s.clock + 1000 })

/-- Engine-dependent operations of a simulated falcon that has them all. -/
def sim_dep_ops : nvgpu_falcon_engine_dependency_ops sim_hw where
  reset_eng := some (fun s => (0, { s with resets := s.resets + 1 }))
  copy_from_emem := some (fun src dst size _ s => (0, mem_read s.emem src size ++ dst.drop size, s))
  copy_to_emem := some (fun dst src size _ s =>
    (0, { s with emem := mem_write s.emem dst (src.take size) }))

/-- Engine-dependent operations of a simulated falcon that has none. -/
def sim_no_dep_ops : nvgpu_falcon_engine_dependency_ops sim_hw where
  reset_eng := none
  copy_from_emem := none
  copy_to_emem := none

/-- A supported simulated falcon with external memory. -/
def sim_flcn : nvgpu_falcon sim_hw where
  flcn_id := 7
  is_falcon_supported := true
  is_interrupt_enabled := true
  emem_supported := true
  flcn_engine_dep_ops := sim_dep_ops

/-- A supported simulated falcon without engine-dependent operations. -/
def sim_flcn_plain : nvgpu_falcon sim_hw where
  flcn_id := 2
  is_falcon_supported := true
  is_interrupt_enabled := false
  emem_supported := false
  flcn_engine_dep_ops := sim_no_dep_ops

/-- A simulated falcon that chip-specific init never marked as supported. -/
def sim_flcn_unsupported : nvgpu_falcon sim_hw where
  flcn_id := 3
  is_falcon_supported := false
  is_interrupt_enabled := false
  emem_supported := false
  flcn_engine_dep_ops := sim_no_dep_ops

/-- A simulated machine with 16 bytes in each region, zeroed, whose status predicate
turns true on the third poll, and an empty trace. -/
def sim_world : World sim_hw where
  hw :=
    { imem := List.replicate 16 0
      dmem := List.replicate 16 0
      emem := List.replicate 16 0
      mailbox0 := 0
      mailbox1 := 0
      busy_polls := 2
      resets := 0
      clock := 0
      boot_vector := none }
  trace := []

/-- Whether an event takes one of the falcon memory locks. -/
def Event.is_lock_acquire : Event → Bool
  | .mutex_acquire _ => true
  | _ => false

/-- Whether an event is the invocation of a backend copy operation. -/
def Event.is_copy : Event → Bool
  | .copy_from_dmem _ _ _ => true
  | .copy_to_dmem _ _ _ _ => true
  | .copy_from_imem _ _ _ => true
  | .copy_to_imem _ _ _ _ _ _ => true
  | .copy_from_emem _ _ _ => true
  | .copy_to_emem _ _ _ _ => true
  | _ => false

/-- The `FALCON_ID_*` values of the simulated device, with the discrete-GPU
instances compiled in. -/
def sim_config : falcon_config where
  FALCON_ID_PMU := 0
  FALCON_ID_GSPLITE := 1
  FALCON_ID_FECS := 2
  FALCON_ID_GPCCS := 3
  FALCON_ID_NVDEC := 4
  FALCON_ID_SEC2 := 7
  FALCON_ID_MINION := 8
  CONFIG_NVGPU_DGPU := true

/-- A simulated device: the PMU falcon is supported and has external memory, the FECS
falcon is supported without it, the other instances were never marked supported. -/
def sim_g : gk20a sim_hw where
  flcn := fun s =>
    match s with
    | .pmu_flcn => sim_flcn
    | .fecs_flcn => sim_flcn_plain
    | _ => sim_flcn_unsupported
  trace := []

/-- Whether an event is one of the two reset steps of `nvgpu_falcon_reset`. -/
def Event.is_reset_step : Event → Bool
  | .reset => true
  | .reset_eng => true
  | _ => false

/-- The hardware state after `n` polls of a status predicate. -/
def poll_state {σ : Type} (p : σ → Bool × σ) : Nat → σ → σ
  | 0, s => s
  | n + 1, s => poll_state p n (p s).2

/-- The answer of poll number `n + 1` of a status predicate. -/
def poll_answer {σ : Type} (p : σ → Bool × σ) (n : Nat) (s : σ) : Bool :=
  (p (poll_state p n s)).1

/-- The trace of a polling loop that polls `n + 1` times with a delay after each of
the first `n` polls. -/
def poll_trace (poll delay : Event) : Nat → List Event
  | 0 => [poll]
  | n + 1 => poll :: delay :: poll_trace poll delay n

/-- The trace of a polling loop that polls `n` times with a delay after every poll. -/
def poll_delay_trace (poll delay : Event) : Nat → List Event
  | 0 => []
  | n + 1 => poll :: delay :: poll_delay_trace poll delay n

/-- The operation table of a simulated falcon whose status predicates never turn
true. -/
def sim_ops_stuck : gops_falcon sim_hw :=
  { sim_ops 1 with
    is_falcon_idle := fun s => (false, s)
    is_falcon_scrubbing_done := fun s => (false, s) }

/-- The simulated machine of `sim_world` with the status predicate already true. -/
def sim_world_halted : World sim_hw :=
  { sim_world with hw := { sim_world.hw with busy_polls := 0 } }

/-! ## `gr_falcon.c`: data model

A shallow embedding of `drivers/gpu/nvgpu/common/gr/gr_falcon.c`. The chip operation
table `g->ops.gr.falcon` and the other modules the file calls (firmware loader, DMA
and GMMU allocators, netlist, ACR, PMU and SEC2 loaders) lie outside the translated
files: they are the fields of an environment acting on an abstract state `σ`, and
every call to one of them is recorded in a trace. A trapping overflow check (`BUG()`)
makes a function return `none`. -/

/-- Linux errno `ENOENT`. -/
def ENOENT : Int := 2

/-- Linux errno `ENOMEM`. -/
def ENOMEM : Int := 12

/-- Modelled from the spec: `nvgpu_safe_add_u32`, an "overflow-checked addition" from
the safe-arithmetic header outside the translated files: the sum when it fits in 32
bits, a trap (`none`) otherwise. -/
def nvgpu_safe_add_u32 (a b : Nat) : Option Nat :=
  if a + b < 4294967296 then some (a + b) else none

/-- Modelled from the spec: `nvgpu_safe_mult_u32`, the overflow-checked 32-bit
product. -/
def nvgpu_safe_mult_u32 (a b : Nat) : Option Nat :=
  if a * b < 4294967296 then some (a * b) else none

/-- Modelled from the spec: `nvgpu_safe_add_u64`, the overflow-checked 64-bit sum. -/
def nvgpu_safe_add_u64 (a b : Nat) : Option Nat :=
  if a + b < 18446744073709551616 then some (a + b) else none

/-- The low 32 bits of a 64-bit value (`u64_lo32`). -/
def u64_lo32 (n : Nat) : Nat := n % 4294967296

/-- Modelled from the spec: the macro `ALIGN(x, a)` on a `u32` value `x` with a power
of two `a`, declared outside the translated files. It rounds `x` up to a multiple of
`a` the way the kernel macro does: add `a - 1`, then clear the low bits, both in
32-bit arithmetic (so the addition can wrap). -/
def ALIGN (x a : Nat) : Nat :=
  u32 (x + (a - 1)) &&& (4294967295 - (a - 1))

/-- Rounding up to a multiple of `a` in the words of the spec, on unbounded
integers. -/
def round_up (x a : Nat) : Nat :=
  (x + (a - 1)) / a * a

/-- Modelled from the spec: the macro `BIT8(i)`, bit `i` of a `u8` mask. -/
def BIT8 (i : Nat) : Nat := (1 <<< i) % 256

/-- Modelled from the spec: the macro `BIT32(i)`, bit `i` of a `u32` mask. -/
def BIT32 (i : Nat) : Nat := (1 <<< i) % 4294967296

/-- The C `struct nvgpu_ctxsw_ucode_segment`. -/
structure nvgpu_ctxsw_ucode_segment where
  offset : Nat
  size : Nat
  deriving DecidableEq, Repr

/-- The C `struct nvgpu_ctxsw_ucode_segments`. -/
structure nvgpu_ctxsw_ucode_segments where
  boot_entry : Nat
  boot_imem_offset : Nat
  boot_signature : Nat
  boot : nvgpu_ctxsw_ucode_segment
  code : nvgpu_ctxsw_ucode_segment
  data : nvgpu_ctxsw_ucode_segment
  deriving DecidableEq, Repr

/-- The C `struct nvgpu_ctxsw_bootloader_desc`, the fixed-layout header of a firmware
blob. -/
structure nvgpu_ctxsw_bootloader_desc where
  size : Nat
  imem_offset : Nat
  entry_point : Nat
  deriving DecidableEq, Repr

/-- The fields of the C `struct nvgpu_mem` that `gr_falcon.c` reads or writes. -/
structure nvgpu_mem where
  gpu_va : Nat
  size : Nat
  aperture : Nat
  deriving DecidableEq, Repr

/-- The C `struct nvgpu_ctxsw_ucode_info`. -/
structure nvgpu_ctxsw_ucode_info where
  inst_blk_desc : nvgpu_mem
  surface_desc : nvgpu_mem
  fecs : nvgpu_ctxsw_ucode_segments
  gpccs : nvgpu_ctxsw_ucode_segments
  deriving DecidableEq, Repr

/-- The fields of the C `struct nvgpu_gr_falcon` that the loaders use. -/
structure nvgpu_gr_falcon where
  ctxsw_ucode_info : nvgpu_ctxsw_ucode_info
  skip_ucode_init : Bool
  deriving DecidableEq, Repr

/-- The two firmware files, `NVGPU_FECS_UCODE_IMAGE` and `NVGPU_GPCCS_UCODE_IMAGE`. -/
inductive ucode_image
  | NVGPU_FECS_UCODE_IMAGE
  | NVGPU_GPCCS_UCODE_IMAGE
  deriving DecidableEq, Repr

/-- A loaded firmware blob (`struct nvgpu_firmware`), already split into the
descriptor header and the 32-bit words of the boot image that follow it. -/
structure nvgpu_firmware where
  desc : nvgpu_ctxsw_bootloader_desc
  boot_image : List Nat
  deriving DecidableEq, Repr

/-- The netlist values read through `nvgpu_netlist_get_*`. -/
structure nvgpu_netlist_vars where
  fecs_inst_count : Nat
  fecs_inst_list : List Nat
  fecs_data_count : Nat
  fecs_data_list : List Nat
  gpccs_inst_count : Nat
  gpccs_inst_list : List Nat
  gpccs_data_count : Nat
  gpccs_data_list : List Nat
  deriving DecidableEq, Repr

/-- One call from `gr_falcon.c` into the chip operation table or into another module,
with the arguments it was given. -/
inductive GrEvent
  | configure_fmodel
  | load_gpccs_dmem (ucode_u32_data : List Nat) (ucode_u32_size : Nat)
  | load_fecs_dmem (ucode_u32_data : List Nat) (ucode_u32_size : Nat)
  | load_gpccs_imem (ucode_u32_data : List Nat) (ucode_u32_size : Nat)
  | load_fecs_imem (ucode_u32_data : List Nat) (ucode_u32_size : Nat)
  | start_ucode
  | start_gpccs
  | start_fecs
  | bind_instblk (inst_ptr : Nat)
  | load_ctxsw_ucode_header (reg_offset boot_signature addr_code32 addr_data32 code_size
      data_size : Nat)
  | load_ctxsw_ucode_boot (reg_offset boot_entry addr_load32 blocks dst : Nat)
  | request_firmware (image : ucode_image)
  | release_firmware (image : ucode_image)
  | dma_alloc_sys (size : Nat)
  | dma_free
  | mem_wr_n (offset : Nat) (src : List Nat) (size : Nat)
  | alloc_inst_block
  | init_inst_block
  | gmmu_map (size : Nat)
  | gmmu_unmap (gpu_va : Nat)
  | set_enabled_PMU_FECS_BOOTSTRAP_DONE (value : Bool)
  | sec2_bootstrap_ls_falcons (falcon_id : Nat)
  | pmu_lsfm_bootstrap_ls_falcon (falcon_id_mask : Nat)
  | acr_bootstrap_hs_acr
  deriving DecidableEq, Repr

/-- The part of `struct gk20a` that `gr_falcon.c` reads or writes: the state behind
the environment, the trace of calls so far, the netlist, the `nvgpu_is_enabled` flags
and `support_ls_pmu`. -/
structure gr_gk20a (σ : Type) where
  hw : σ
  trace : List GrEvent
  netlist : nvgpu_netlist_vars
  NVGPU_IS_FMODEL : Bool
  NVGPU_GR_USE_DMA_FOR_FW_BOOTSTRAP : Bool
  NVGPU_PMU_FECS_BOOTSTRAP_DONE : Bool
  NVGPU_SEC_SECUREGPCCS : Bool
  NVGPU_SUPPORT_SEC2_RTOS : Bool
  support_ls_pmu : Bool
  deriving DecidableEq, Repr

/-- Record a call that changes the environment state and returns nothing. -/
def gr_gk20a.step {σ : Type} (g : gr_gk20a σ) (f : σ → σ) (e : GrEvent) : gr_gk20a σ :=
  { g with hw := f g.hw, trace := g.trace ++ [e] }

/-- The build switches of `gr_falcon.c` and the two falcon ids it names, all declared
outside the translated files. -/
structure gr_config where
  CONFIG_NVGPU_SIM : Bool
  CONFIG_NVGPU_DGPU : Bool
  CONFIG_NVGPU_LS_PMU : Bool
  FALCON_ID_FECS : Nat
  FALCON_ID_GPCCS : Nat
  deriving DecidableEq, Repr

/-- Everything `gr_falcon.c` calls: the entries of `g->ops.gr.falcon` and
`g->ops.mm`, and the functions of the firmware, DMA, GMMU, ACR, PMU and SEC2 modules.
A status is an `Int`, a firmware pointer that may be `NULL` an `Option`. -/
structure gr_env (σ : Type) where
  configure_fmodel : σ → σ
  load_gpccs_dmem : List Nat → Nat → σ → σ
  load_fecs_dmem : List Nat → Nat → σ → σ
  load_gpccs_imem : List Nat → Nat → σ → σ
  load_fecs_imem : List Nat → Nat → σ → σ
  start_ucode : σ → σ
  start_gpccs : σ → σ
  start_fecs : σ → σ
  bind_instblk : nvgpu_mem → Nat → σ → σ
  load_ctxsw_ucode_header : Nat → Nat → Nat → Nat → Nat → Nat → σ → σ
  load_ctxsw_ucode_boot : Nat → Nat → Nat → Nat → Nat → σ → σ
  get_gpccs_start_reg_offset : Nat
  init_inst_block : nvgpu_mem → σ → σ
  nvgpu_gr_checksum_u32 : Nat → Nat → Nat
  nvgpu_request_firmware : ucode_image → σ → Option nvgpu_firmware × σ
  nvgpu_release_firmware : ucode_image → σ → σ
  nvgpu_dma_alloc_sys : Nat → nvgpu_mem → σ → Int × nvgpu_mem × σ
  nvgpu_dma_free : nvgpu_mem → σ → nvgpu_mem × σ
  nvgpu_mem_wr_n : nvgpu_mem → Nat → List Nat → Nat → σ → σ
  nvgpu_alloc_inst_block : nvgpu_mem → σ → Int × nvgpu_mem × σ
  nvgpu_gmmu_map : nvgpu_mem → Nat → σ → Nat × σ
  nvgpu_gmmu_unmap : nvgpu_mem → Nat → σ → σ
  nvgpu_inst_block_addr : nvgpu_mem → σ → Nat
  nvgpu_sec2_bootstrap_ls_falcons : Nat → σ → Int × σ
  nvgpu_pmu_lsfm_bootstrap_ls_falcon : Nat → σ → Int × σ
  nvgpu_acr_bootstrap_hs_acr : σ → Int × σ
  nvgpu_acr_is_lsf_lazy_bootstrap : Nat → σ → Bool

/-! ## `gr_falcon.c`: ucode segment builder -/

/-- `nvgpu_gr_falcon_init_ctxsw_ucode_segment`: the segment written to `*p_seg` and
the new value of `*offset`; `none` when the checked addition traps. -/
def nvgpu_gr_falcon_init_ctxsw_ucode_segment (offset size : Nat) :
    Option (nvgpu_ctxsw_ucode_segment × Nat) :=
  match nvgpu_safe_add_u32 offset size with
  | none => none
  | some ucode_offset => some ({ offset := offset, size := size }, ALIGN ucode_offset 256)

/-- `nvgpu_gr_falcon_init_ctxsw_ucode_segments`: the updated `*segments` and the new
value of `*offset`. -/
def nvgpu_gr_falcon_init_ctxsw_ucode_segments (segments : nvgpu_ctxsw_ucode_segments)
    (offset : Nat) (bootdesc : nvgpu_ctxsw_bootloader_desc) (code_size data_size : Nat) :
    Option (nvgpu_ctxsw_ucode_segments × Nat) :=
  let boot_size := ALIGN bootdesc.size 4
  let s1 : nvgpu_ctxsw_ucode_segments :=
    { segments with boot_entry := bootdesc.entry_point, boot_imem_offset := bootdesc.imem_offset }
  match nvgpu_gr_falcon_init_ctxsw_ucode_segment offset boot_size with
  | none => none
  | some b =>
    match nvgpu_gr_falcon_init_ctxsw_ucode_segment b.2 code_size with
    | none => none
    | some c =>
      match nvgpu_gr_falcon_init_ctxsw_ucode_segment c.2 data_size with
      | none => none
      | some d => some ({ s1 with boot := b.1, code := c.1, data := d.1 }, d.2)

/-- The `for` loop of `nvgpu_gr_falcon_copy_ctxsw_ucode_segments`: `remaining`
iterations are left, `i` is the loop index and `sig` the signature so far. -/
def boot_signature_loop (checksum : Nat → Nat → Nat) (bootimage : List Nat) :
    (remaining : Nat) → (i : Nat) → (sig : Nat) → Nat
  | 0, _, sig => sig
  | r + 1, i, sig =>
    boot_signature_loop checksum bootimage r (i + 1) (checksum sig (bootimage.getD i 0))

/-- `nvgpu_gr_falcon_copy_ctxsw_ucode_segments`: status, updated `*segments`, state. -/
def nvgpu_gr_falcon_copy_ctxsw_ucode_segments {σ : Type} (env : gr_env σ) (g : gr_gk20a σ)
    (dst : nvgpu_mem) (segments : nvgpu_ctxsw_ucode_segments) (bootimage code data : List Nat) :
    Int × nvgpu_ctxsw_ucode_segments × gr_gk20a σ :=
  let g1 := g.step (env.nvgpu_mem_wr_n dst segments.boot.offset bootimage segments.boot.size)
    (.mem_wr_n segments.boot.offset bootimage segments.boot.size)
  let g2 := g1.step (env.nvgpu_mem_wr_n dst segments.code.offset code segments.code.size)
    (.mem_wr_n segments.code.offset code segments.code.size)
  let g3 := g2.step (env.nvgpu_mem_wr_n dst segments.data.offset data segments.data.size)
    (.mem_wr_n segments.data.offset data segments.data.size)
  (0,
    { segments with
      boot_signature :=
        boot_signature_loop env.nvgpu_gr_checksum_u32 bootimage (segments.boot.size / 4) 0 0 },
    g3)

/-- Lines 320 to 332 of `nvgpu_gr_falcon_init_ctxsw_ucode`: starting from
`ucode_size = 0`, the segments of FECS and then of GPCCS are laid out. Returns the
updated `*ucode_info` and the final `ucode_size`. -/
def nvgpu_gr_falcon_init_ctxsw_ucode_layout (netlist : nvgpu_netlist_vars)
    (fecs_boot_desc gpccs_boot_desc : nvgpu_ctxsw_bootloader_desc)
    (ucode_info : nvgpu_ctxsw_ucode_info) : Option (nvgpu_ctxsw_ucode_info × Nat) :=
  match nvgpu_safe_mult_u32 netlist.fecs_inst_count 4,
    nvgpu_safe_mult_u32 netlist.fecs_data_count 4 with
  | some fecs_code_size, some fecs_data_size =>
    match nvgpu_gr_falcon_init_ctxsw_ucode_segments ucode_info.fecs 0 fecs_boot_desc
      fecs_code_size fecs_data_size with
    | none => none
    | some f =>
      match nvgpu_safe_mult_u32 netlist.gpccs_inst_count 4,
        nvgpu_safe_mult_u32 netlist.gpccs_data_count 4 with
      | some gpccs_code_size, some gpccs_data_size =>
        match nvgpu_gr_falcon_init_ctxsw_ucode_segments ucode_info.gpccs f.2 gpccs_boot_desc
          gpccs_code_size gpccs_data_size with
        | none => none
        | some p => some ({ ucode_info with fecs := f.1, gpccs := p.1 }, p.2)
      | _, _ => none
  | _, _ => none

/-! ## `gr_falcon.c`: surface set-up and loaders -/

/-- `nvgpu_gr_falcon_init_ctxsw_ucode_vaspace`. -/
def nvgpu_gr_falcon_init_ctxsw_ucode_vaspace {σ : Type} (env : gr_env σ) (g : gr_gk20a σ)
    (falcon : nvgpu_gr_falcon) : Int × gr_gk20a σ × nvgpu_gr_falcon :=
  let a := env.nvgpu_alloc_inst_block falcon.ctxsw_ucode_info.inst_blk_desc g.hw
  let g1 : gr_gk20a σ := { g with hw := a.2.2, trace := g.trace ++ [.alloc_inst_block] }
  let f1 : nvgpu_gr_falcon :=
    { falcon with ctxsw_ucode_info := { falcon.ctxsw_ucode_info with inst_blk_desc := a.2.1 } }
  if a.1 ≠ 0 then (a.1, g1, f1)
  else
    let g2 := g1.step (env.init_inst_block f1.ctxsw_ucode_info.inst_blk_desc) .init_inst_block
    let m := env.nvgpu_gmmu_map f1.ctxsw_ucode_info.surface_desc
      f1.ctxsw_ucode_info.surface_desc.size g2.hw
    let g3 : gr_gk20a σ :=
      { g2 with hw := m.2, trace := g2.trace ++ [.gmmu_map f1.ctxsw_ucode_info.surface_desc.size] }
    let f2 : nvgpu_gr_falcon :=
      { f1 with
        ctxsw_ucode_info :=
          { f1.ctxsw_ucode_info with
            surface_desc := { f1.ctxsw_ucode_info.surface_desc with gpu_va := m.1 } } }
    if m.1 = 0 then (-ENOMEM, g3, f2)
    else (0, g3, f2)

/-- The `clean_up:` block of `nvgpu_gr_falcon_init_ctxsw_ucode`; `gpccs_fw` and
`fecs_fw` tell whether the firmware pointer is still non-`NULL`. -/
def init_ctxsw_ucode_clean_up {σ : Type} (env : gr_env σ) (g : gr_gk20a σ)
    (falcon : nvgpu_gr_falcon) (gpccs_fw fecs_fw : Bool) : gr_gk20a σ × nvgpu_gr_falcon :=
  let g1 :=
    if falcon.ctxsw_ucode_info.surface_desc.gpu_va ≠ 0 then
      g.step (env.nvgpu_gmmu_unmap falcon.ctxsw_ucode_info.surface_desc
          falcon.ctxsw_ucode_info.surface_desc.gpu_va)
        (.gmmu_unmap falcon.ctxsw_ucode_info.surface_desc.gpu_va)
    else g
  let d := env.nvgpu_dma_free falcon.ctxsw_ucode_info.surface_desc g1.hw
  let g2 : gr_gk20a σ := { g1 with hw := d.2, trace := g1.trace ++ [.dma_free] }
  let f1 : nvgpu_gr_falcon :=
    { falcon with ctxsw_ucode_info := { falcon.ctxsw_ucode_info with surface_desc := d.1 } }
  let g3 :=
    if gpccs_fw then
      g2.step (env.nvgpu_release_firmware .NVGPU_GPCCS_UCODE_IMAGE)
        (.release_firmware .NVGPU_GPCCS_UCODE_IMAGE)
    else g2
  let g4 :=
    if fecs_fw then
      g3.step (env.nvgpu_release_firmware .NVGPU_FECS_UCODE_IMAGE)
        (.release_firmware .NVGPU_FECS_UCODE_IMAGE)
    else g3
  (g4, f1)

/-- `nvgpu_gr_falcon_init_ctxsw_ucode`: status, state and updated `*falcon`; `none`
when an overflow check traps. -/
def nvgpu_gr_falcon_init_ctxsw_ucode {σ : Type} (env : gr_env σ) (g : gr_gk20a σ)
    (falcon : nvgpu_gr_falcon) : Option (Int × gr_gk20a σ × nvgpu_gr_falcon) :=
  let r1 := env.nvgpu_request_firmware .NVGPU_FECS_UCODE_IMAGE g.hw
  let g1 : gr_gk20a σ :=
    { g with hw := r1.2, trace := g.trace ++ [.request_firmware .NVGPU_FECS_UCODE_IMAGE] }
  match r1.1 with
  | none => some (-ENOENT, g1, falcon)
  | some fecs_fw =>
    let r2 := env.nvgpu_request_firmware .NVGPU_GPCCS_UCODE_IMAGE g1.hw
    let g2 : gr_gk20a σ :=
      { g1 with hw := r2.2, trace := g1.trace ++ [.request_firmware .NVGPU_GPCCS_UCODE_IMAGE] }
    match r2.1 with
    | none =>
      some (-ENOENT,
        g2.step (env.nvgpu_release_firmware .NVGPU_FECS_UCODE_IMAGE)
          (.release_firmware .NVGPU_FECS_UCODE_IMAGE),
        falcon)
    | some gpccs_fw =>
      match nvgpu_gr_falcon_init_ctxsw_ucode_layout g2.netlist fecs_fw.desc gpccs_fw.desc
        falcon.ctxsw_ucode_info with
      | none => none
      | some l =>
        let a := env.nvgpu_dma_alloc_sys l.2 l.1.surface_desc g2.hw
        let g3 : gr_gk20a σ := { g2 with hw := a.2.2, trace := g2.trace ++ [.dma_alloc_sys l.2] }
        let f3 : nvgpu_gr_falcon :=
          { falcon with ctxsw_ucode_info := { l.1 with surface_desc := a.2.1 } }
        if a.1 ≠ 0 then
          let c := init_ctxsw_ucode_clean_up env g3 f3 true true
          some (a.1, c.1, c.2)
        else
          let cf := nvgpu_gr_falcon_copy_ctxsw_ucode_segments env g3 f3.ctxsw_ucode_info.surface_desc
            f3.ctxsw_ucode_info.fecs fecs_fw.boot_image g3.netlist.fecs_inst_list
            g3.netlist.fecs_data_list
          let f4 : nvgpu_gr_falcon :=
            { f3 with ctxsw_ucode_info := { f3.ctxsw_ucode_info with fecs := cf.2.1 } }
          if cf.1 ≠ 0 then
            let c := init_ctxsw_ucode_clean_up env cf.2.2 f4 true true
            some (cf.1, c.1, c.2)
          else
            let g5 := cf.2.2.step (env.nvgpu_release_firmware .NVGPU_FECS_UCODE_IMAGE)
              (.release_firmware .NVGPU_FECS_UCODE_IMAGE)
            let cg := nvgpu_gr_falcon_copy_ctxsw_ucode_segments env g5
              f4.ctxsw_ucode_info.surface_desc f4.ctxsw_ucode_info.gpccs gpccs_fw.boot_image
              g5.netlist.gpccs_inst_list g5.netlist.gpccs_data_list
            let f6 : nvgpu_gr_falcon :=
              { f4 with ctxsw_ucode_info := { f4.ctxsw_ucode_info with gpccs := cg.2.1 } }
            if cg.1 ≠ 0 then
              let c := init_ctxsw_ucode_clean_up env cg.2.2 f6 true false
              some (cg.1, c.1, c.2)
            else
              let g7 := cg.2.2.step (env.nvgpu_release_firmware .NVGPU_GPCCS_UCODE_IMAGE)
                (.release_firmware .NVGPU_GPCCS_UCODE_IMAGE)
              let v := nvgpu_gr_falcon_init_ctxsw_ucode_vaspace env g7 f6
              if v.1 ≠ 0 then
                let c := init_ctxsw_ucode_clean_up env v.2.1 v.2.2 false false
                some (v.1, c.1, c.2)
              else some (0, v.2.1, v.2.2)

/-- `nvgpu_gr_falcon_load_dmem`. -/
def nvgpu_gr_falcon_load_dmem {σ : Type} (env : gr_env σ) (g : gr_gk20a σ) : gr_gk20a σ :=
  let g1 := g.step (env.load_gpccs_dmem g.netlist.gpccs_data_list g.netlist.gpccs_data_count)
    (.load_gpccs_dmem g.netlist.gpccs_data_list g.netlist.gpccs_data_count)
  g1.step (env.load_fecs_dmem g1.netlist.fecs_data_list g1.netlist.fecs_data_count)
    (.load_fecs_dmem g1.netlist.fecs_data_list g1.netlist.fecs_data_count)

/-- `nvgpu_gr_falcon_load_imem`. -/
def nvgpu_gr_falcon_load_imem {σ : Type} (env : gr_env σ) (g : gr_gk20a σ) : gr_gk20a σ :=
  let g1 := g.step (env.load_gpccs_imem g.netlist.gpccs_inst_list g.netlist.gpccs_inst_count)
    (.load_gpccs_imem g.netlist.gpccs_inst_list g.netlist.gpccs_inst_count)
  g1.step (env.load_fecs_imem g1.netlist.fecs_inst_list g1.netlist.fecs_inst_count)
    (.load_fecs_imem g1.netlist.fecs_inst_list g1.netlist.fecs_inst_count)

/-- `nvgpu_gr_falcon_bind_instblk`. -/
def nvgpu_gr_falcon_bind_instblk {σ : Type} (env : gr_env σ) (g : gr_gk20a σ)
    (falcon : nvgpu_gr_falcon) : gr_gk20a σ :=
  let inst_ptr := env.nvgpu_inst_block_addr falcon.ctxsw_ucode_info.inst_blk_desc g.hw
  g.step (env.bind_instblk falcon.ctxsw_ucode_info.inst_blk_desc inst_ptr) (.bind_instblk inst_ptr)

/-- `nvgpu_gr_falcon_load_ctxsw_ucode_header`; `none` when a checked addition traps. -/
def nvgpu_gr_falcon_load_ctxsw_ucode_header {σ : Type} (env : gr_env σ) (g : gr_gk20a σ)
    (addr_base : Nat) (segments : nvgpu_ctxsw_ucode_segments) (reg_offset : Nat) :
    Option (gr_gk20a σ) :=
  match nvgpu_safe_add_u64 addr_base segments.code.offset,
    nvgpu_safe_add_u64 addr_base segments.data.offset with
  | some c, some d =>
    let addr_code32 := u64_lo32 (c >>> 8)
    let addr_data32 := u64_lo32 (d >>> 8)
    some (g.step
      (env.load_ctxsw_ucode_header reg_offset segments.boot_signature addr_code32 addr_data32
        segments.code.size segments.data.size)
      (.load_ctxsw_ucode_header reg_offset segments.boot_signature addr_code32 addr_data32
        segments.code.size segments.data.size))
  | _, _ => none

/-- `nvgpu_gr_falcon_load_ctxsw_ucode_boot`; `none` when a checked addition traps. -/
def nvgpu_gr_falcon_load_ctxsw_ucode_boot {σ : Type} (env : gr_env σ) (g : gr_gk20a σ)
    (addr_base : Nat) (segments : nvgpu_ctxsw_ucode_segments) (reg_offset : Nat) :
    Option (gr_gk20a σ) :=
  match nvgpu_safe_add_u64 addr_base segments.boot.offset,
    nvgpu_safe_add_u32 segments.boot.size 255 with
  | some l, some s =>
    let addr_load32 := u64_lo32 (l >>> 8)
    let blocks := (s &&& (4294967295 - 255)) >>> 8
    let dst := segments.boot_imem_offset
    some (g.step (env.load_ctxsw_ucode_boot reg_offset segments.boot_entry addr_load32 blocks dst)
      (.load_ctxsw_ucode_boot reg_offset segments.boot_entry addr_load32 blocks dst))
  | _, _ => none

/-- `nvgpu_gr_falcon_load_ctxsw_ucode_segments`. -/
def nvgpu_gr_falcon_load_ctxsw_ucode_segments {σ : Type} (env : gr_env σ) (g : gr_gk20a σ)
    (addr_base : Nat) (segments : nvgpu_ctxsw_ucode_segments) (reg_offset : Nat) :
    Option (gr_gk20a σ) :=
  match nvgpu_gr_falcon_load_ctxsw_ucode_header env g addr_base segments reg_offset with
  | none => none
  | some g1 => nvgpu_gr_falcon_load_ctxsw_ucode_boot env g1 addr_base segments reg_offset

/-- `nvgpu_gr_falcon_load_with_bootloader`. -/
def nvgpu_gr_falcon_load_with_bootloader {σ : Type} (env : gr_env σ) (g : gr_gk20a σ)
    (falcon : nvgpu_gr_falcon) : Option (gr_gk20a σ) :=
  let addr_base := falcon.ctxsw_ucode_info.surface_desc.gpu_va
  let g1 := nvgpu_gr_falcon_bind_instblk env g falcon
  match nvgpu_gr_falcon_load_ctxsw_ucode_segments env g1 addr_base falcon.ctxsw_ucode_info.fecs
    0 with
  | none => none
  | some g2 =>
    nvgpu_gr_falcon_load_ctxsw_ucode_segments env g2 addr_base falcon.ctxsw_ucode_info.gpccs
      env.get_gpccs_start_reg_offset

/-- The `#ifdef CONFIG_NVGPU_SIM` block that opens both load functions: on the
functional model, `configure_fmodel` is called. -/
def gr_falcon_configure_fmodel {σ : Type} (c : gr_config) (env : gr_env σ) (g : gr_gk20a σ) :
    gr_gk20a σ :=
  if c.CONFIG_NVGPU_SIM ∧ g.NVGPU_IS_FMODEL then g.step env.configure_fmodel .configure_fmodel
  else g

/-- `nvgpu_gr_falcon_load_ctxsw_ucode`: status, state and updated `*falcon`. -/
def nvgpu_gr_falcon_load_ctxsw_ucode {σ : Type} (c : gr_config) (env : gr_env σ)
    (g : gr_gk20a σ) (falcon : nvgpu_gr_falcon) :
    Option (Int × gr_gk20a σ × nvgpu_gr_falcon) :=
  let g0 := gr_falcon_configure_fmodel c env g
  if ¬ g0.NVGPU_GR_USE_DMA_FOR_FW_BOOTSTRAP then
    let g1 := nvgpu_gr_falcon_load_dmem env g0
    let g2 := nvgpu_gr_falcon_load_imem env g1
    some (0, g2.step env.start_ucode .start_ucode, falcon)
  else
    let i : Option (Int × gr_gk20a σ × nvgpu_gr_falcon) :=
      if ¬ falcon.skip_ucode_init then nvgpu_gr_falcon_init_ctxsw_ucode env g0 falcon
      else some (0, g0, falcon)
    match i with
    | none => none
    | some r =>
      if r.1 ≠ 0 then some r
      else
        match nvgpu_gr_falcon_load_with_bootloader env r.2.1 r.2.2 with
        | none => none
        | some g3 => some (0, g3, { r.2.2 with skip_ucode_init := true })

/-- `nvgpu_gr_falcon_load_gpccs_with_bootloader`. -/
def nvgpu_gr_falcon_load_gpccs_with_bootloader {σ : Type} (env : gr_env σ) (g : gr_gk20a σ)
    (falcon : nvgpu_gr_falcon) : Option (gr_gk20a σ) :=
  let addr_base := falcon.ctxsw_ucode_info.surface_desc.gpu_va
  let g1 := nvgpu_gr_falcon_bind_instblk env g falcon
  nvgpu_gr_falcon_load_ctxsw_ucode_segments env g1 addr_base falcon.ctxsw_ucode_info.gpccs
    env.get_gpccs_start_reg_offset

/-- A call of `nvgpu_sec2_bootstrap_ls_falcons`: its status and the state after it. -/
def call_sec2_bootstrap_ls_falcons {σ : Type} (env : gr_env σ) (g : gr_gk20a σ)
    (falcon_id : Nat) : Int × gr_gk20a σ :=
  let r := env.nvgpu_sec2_bootstrap_ls_falcons falcon_id g.hw
  (r.1, { g with hw := r.2, trace := g.trace ++ [.sec2_bootstrap_ls_falcons falcon_id] })

/-- A call of `nvgpu_pmu_lsfm_bootstrap_ls_falcon`: its status and the state after it. -/
def call_pmu_lsfm_bootstrap_ls_falcon {σ : Type} (env : gr_env σ) (g : gr_gk20a σ)
    (falcon_id_mask : Nat) : Int × gr_gk20a σ :=
  let r := env.nvgpu_pmu_lsfm_bootstrap_ls_falcon falcon_id_mask g.hw
  (r.1, { g with hw := r.2, trace := g.trace ++ [.pmu_lsfm_bootstrap_ls_falcon falcon_id_mask] })

/-- A call of `nvgpu_acr_bootstrap_hs_acr`: its status and the state after it. -/
def call_acr_bootstrap_hs_acr {σ : Type} (env : gr_env σ) (g : gr_gk20a σ) :
    Int × gr_gk20a σ :=
  let r := env.nvgpu_acr_bootstrap_hs_acr g.hw
  (r.1, { g with hw := r.2, trace := g.trace ++ [.acr_bootstrap_hs_acr] })

/-- The end of `nvgpu_gr_falcon_load_secure_ctxsw_ucode`: both start triggers, then
`return 0`. -/
def load_secure_start {σ : Type} (env : gr_env σ) (g : gr_gk20a σ) : Int × gr_gk20a σ :=
  (0, (g.step env.start_gpccs .start_gpccs).step env.start_fecs .start_fecs)

/-- Lines 612 to 619 of `nvgpu_gr_falcon_load_secure_ctxsw_ucode`: the `u8` variable
`falcon_id_mask`, starting at 0, receives the FECS bit and then the GPCCS bit when
ACR reports lazy bootstrap for that falcon; `s` is the environment state at the two
queries. -/
def lazy_falcon_id_mask {σ : Type} (c : gr_config) (env : gr_env σ) (s : σ) : Nat :=
  let mask0 : Nat := 0
  let mask1 :=
    if env.nvgpu_acr_is_lsf_lazy_bootstrap c.FALCON_ID_FECS s then
      (mask0 ||| BIT8 c.FALCON_ID_FECS) % 256
    else mask0
  if env.nvgpu_acr_is_lsf_lazy_bootstrap c.FALCON_ID_GPCCS s then
    (mask1 ||| BIT8 c.FALCON_ID_GPCCS) % 256
  else mask1

/-- `nvgpu_gr_falcon_load_secure_ctxsw_ucode`: status and state; `none` when an
overflow check traps. -/
def nvgpu_gr_falcon_load_secure_ctxsw_ucode {σ : Type} (c : gr_config) (env : gr_env σ)
    (g : gr_gk20a σ) (falcon : nvgpu_gr_falcon) : Option (Int × gr_gk20a σ) :=
  let g0 := gr_falcon_configure_fmodel c env g
  if g0.NVGPU_PMU_FECS_BOOTSTRAP_DONE then
    if ¬ g0.NVGPU_SEC_SECUREGPCCS then
      match nvgpu_gr_falcon_load_gpccs_with_bootloader env g0 falcon with
      | none => none
      | some g1 =>
        let r : Int × gr_gk20a σ :=
          if c.CONFIG_NVGPU_LS_PMU then
            call_pmu_lsfm_bootstrap_ls_falcon env g1 (BIT32 c.FALCON_ID_FECS)
          else (0, g1)
        if r.1 ≠ 0 then some r else some (load_secure_start env r.2)
    else
      let g1 := nvgpu_gr_falcon_bind_instblk env g0 falcon
      let r : Int × gr_gk20a σ :=
        if c.CONFIG_NVGPU_DGPU ∧ g1.NVGPU_SUPPORT_SEC2_RTOS then
          let a := call_sec2_bootstrap_ls_falcons env g1 c.FALCON_ID_FECS
          call_sec2_bootstrap_ls_falcons env a.2 c.FALCON_ID_GPCCS
        else if c.CONFIG_NVGPU_LS_PMU ∧ g1.support_ls_pmu then
          call_pmu_lsfm_bootstrap_ls_falcon env g1
            (BIT32 c.FALCON_ID_FECS ||| BIT32 c.FALCON_ID_GPCCS)
        else call_acr_bootstrap_hs_acr env g1
      if r.1 ≠ 0 then some r else some (load_secure_start env r.2)
  else
    let g1 : gr_gk20a σ :=
      { g0 with
        NVGPU_PMU_FECS_BOOTSTRAP_DONE := true
        trace := g0.trace ++ [.set_enabled_PMU_FECS_BOOTSTRAP_DONE true] }
    if ¬ g1.NVGPU_SEC_SECUREGPCCS then
      match nvgpu_gr_falcon_load_gpccs_with_bootloader env g1 falcon with
      | none => none
      | some g2 => some (load_secure_start env g2)
    else
      let g2 := nvgpu_gr_falcon_bind_instblk env g1 falcon
      let falcon_id_mask := lazy_falcon_id_mask c env g2.hw
      let r : Int × gr_gk20a σ :=
        if c.CONFIG_NVGPU_DGPU ∧ g2.NVGPU_SUPPORT_SEC2_RTOS then
          let a := call_sec2_bootstrap_ls_falcons env g2 c.FALCON_ID_FECS
          call_sec2_bootstrap_ls_falcons env a.2 c.FALCON_ID_GPCCS
        else if c.CONFIG_NVGPU_LS_PMU ∧ g2.support_ls_pmu then
          call_pmu_lsfm_bootstrap_ls_falcon env g2 falcon_id_mask
        else (0, g2)
      if r.1 ≠ 0 then some r else some (load_secure_start env r.2)

/-- The layout of one engine's segments in the words of the spec, on unbounded
integers: boot segment at the running offset with the descriptor size rounded up to 4
bytes, code and data each at the previous segment's end rounded up to 256 bytes, and
the running offset left at the data segment's end rounded up to 256 bytes. -/
def spec_segment_layout (offset : Nat) (bootdesc : nvgpu_ctxsw_bootloader_desc)
    (code_size data_size : Nat) :
    nvgpu_ctxsw_ucode_segment × nvgpu_ctxsw_ucode_segment × nvgpu_ctxsw_ucode_segment × Nat :=
  let boot : nvgpu_ctxsw_ucode_segment := { offset := offset, size := round_up bootdesc.size 4 }
  let code : nvgpu_ctxsw_ucode_segment :=
    { offset := round_up (boot.offset + boot.size) 256, size := code_size }
  let data : nvgpu_ctxsw_ucode_segment :=
    { offset := round_up (code.offset + code.size) 256, size := data_size }
  (boot, code, data, round_up (data.offset + data.size) 256)

/-- Segments with every field zero. -/
def zero_segments : nvgpu_ctxsw_ucode_segments :=
  { boot_entry := 0, boot_imem_offset := 0, boot_signature := 0,
    boot := { offset := 0, size := 0 }, code := { offset := 0, size := 0 },
    data := { offset := 0, size := 0 } }

/-- A ucode info block with every field zero. -/
def zero_ucode_info : nvgpu_ctxsw_ucode_info :=
  { inst_blk_desc := { gpu_va := 0, size := 0, aperture := 0 },
    surface_desc := { gpu_va := 0, size := 0, aperture := 0 },
    fecs := zero_segments, gpccs := zero_segments }

/-- A netlist whose FECS code has 0x3FFFFFC1 words (0xFFFFFF04 bytes) and whose other
images have one word each. -/
def huge_netlist : nvgpu_netlist_vars :=
  { fecs_inst_count := 1073741761, fecs_inst_list := [], fecs_data_count := 1,
    fecs_data_list := [], gpccs_inst_count := 1, gpccs_inst_list := [], gpccs_data_count := 1,
    gpccs_data_list := [] }

/-! ## A simulated graphics engine -/

/-- Modelled from the spec: a simulated environment for `gr_falcon.c`. Its state counts
the calls made. The firmware files hold a 10-byte (FECS) and an 8-byte (GPCCS)
bootloader, allocation and mapping succeed, the checksum is the 32-bit sum, both
engines ask for lazy bootstrap, and the statuses of the four delegate requests
(SEC2 for FECS, SEC2 for GPCCS, PMU, ACR) are parameters. -/
def gr_sim_env (sec2_fecs sec2_gpccs pmu acr : Int) : gr_env Nat where
  configure_fmodel := fun s => s + 1
  load_gpccs_dmem := fun _ _ s => s + 1
  load_fecs_dmem := fun _ _ s => s + 1
  load_gpccs_imem := fun _ _ s => s + 1
  load_fecs_imem := fun _ _ s => s + 1
  start_ucode := fun s => s + 1
  start_gpccs := fun s => s + 1
  start_fecs := fun s => s + 1
  bind_instblk := fun _ _ s => s + 1
  load_ctxsw_ucode_header := fun _ _ _ _ _ _ s => s + 1
  load_ctxsw_ucode_boot := fun _ _ _ _ _ s => s + 1
  get_gpccs_start_reg_offset := 8192
  init_inst_block := fun _ s => s + 1
  nvgpu_gr_checksum_u32 := fun a b => u32 (a + b)
  nvgpu_request_firmware := fun image s =>
    match image with
    | .NVGPU_FECS_UCODE_IMAGE =>
      (some { desc := { size := 10, imem_offset := 5, entry_point := 7 },
              boot_image := [1, 2, 3] }, s + 1)
    | .NVGPU_GPCCS_UCODE_IMAGE =>
      (some { desc := { size := 8, imem_offset := 6, entry_point := 9 },
              boot_image := [4, 5] }, s + 1)
  nvgpu_release_firmware := fun _ s => s + 1
  nvgpu_dma_alloc_sys := fun size m s => (0, { m with size := size }, s + 1)
  nvgpu_dma_free := fun m s => ({ m with size := 0 }, s + 1)
  nvgpu_mem_wr_n := fun _ _ _ _ s => s + 1
  nvgpu_alloc_inst_block := fun m s => (0, { m with size := 4096 }, s + 1)
  nvgpu_gmmu_map := fun _ _ s => (1048576, s + 1)
  nvgpu_gmmu_unmap := fun _ _ s => s + 1
  nvgpu_inst_block_addr := fun _ _ => 4096
  nvgpu_sec2_bootstrap_ls_falcons := fun falcon_id s =>
    (if falcon_id = 2 then sec2_fecs else sec2_gpccs, s + 1)
  nvgpu_pmu_lsfm_bootstrap_ls_falcon := fun _ s => (pmu, s + 1)
  nvgpu_acr_bootstrap_hs_acr := fun s => (acr, s + 1)
  nvgpu_acr_is_lsf_lazy_bootstrap := fun _ _ => true

/-- The build of the simulated graphics engine: every switch on, FECS id 2 and GPCCS
id 3. -/
def gr_sim_config : gr_config where
  CONFIG_NVGPU_SIM := true
  CONFIG_NVGPU_DGPU := true
  CONFIG_NVGPU_LS_PMU := true
  FALCON_ID_FECS := 2
  FALCON_ID_GPCCS := 3

/-- A simulated device before any call: empty trace, every flag clear, a netlist with
two code words and one data word per engine. -/
def gr_sim_g : gr_gk20a Nat where
  hw := 0
  trace := []
  netlist :=
    { fecs_inst_count := 2, fecs_inst_list := [11, 12], fecs_data_count := 1,
      fecs_data_list := [13], gpccs_inst_count := 2, gpccs_inst_list := [21, 22],
      gpccs_data_count := 1, gpccs_data_list := [23] }
  NVGPU_IS_FMODEL := false
  NVGPU_GR_USE_DMA_FOR_FW_BOOTSTRAP := false
  NVGPU_PMU_FECS_BOOTSTRAP_DONE := false
  NVGPU_SEC_SECUREGPCCS := false
  NVGPU_SUPPORT_SEC2_RTOS := false
  support_ls_pmu := false

/-- A graphics falcon block before the first load. -/
def gr_sim_falcon : nvgpu_gr_falcon where
  ctxsw_ucode_info := zero_ucode_info
  skip_ucode_init := false

/-- Whether an event is a call that only `nvgpu_gr_falcon_init_ctxsw_ucode` makes:
firmware request and release, surface allocation, copy, mapping and their undoing. -/
def GrEvent.is_ucode_init : GrEvent → Bool
  | .request_firmware _ => true
  | .release_firmware _ => true
  | .dma_alloc_sys _ => true
  | .dma_free => true
  | .mem_wr_n _ _ _ => true
  | .alloc_inst_block => true
  | .init_inst_block => true
  | .gmmu_map _ => true
  | .gmmu_unmap _ => true
  | _ => false

/-- Whether an event is an instance-block bind or a header or boot register write. -/
def GrEvent.is_bootloader_load : GrEvent → Bool
  | .bind_instblk _ => true
  | .load_ctxsw_ucode_header _ _ _ _ _ _ => true
  | .load_ctxsw_ucode_boot _ _ _ _ _ => true
  | _ => false

/-- Whether an event is one of the two start triggers of the secure load. -/
def GrEvent.is_start : GrEvent → Bool
  | .start_gpccs => true
  | .start_fecs => true
  | _ => false

/-- Whether an event is a bootstrap request to one of the three collaborators. -/
def GrEvent.is_delegate : GrEvent → Bool
  | .sec2_bootstrap_ls_falcons _ => true
  | .pmu_lsfm_bootstrap_ls_falcon _ => true
  | .acr_bootstrap_hs_acr => true
  | _ => false

/-- The state `g1` continues `g`: its trace is that of `g` followed by events that all
satisfy `P`, and the netlist and every flag but `NVGPU_PMU_FECS_BOOTSTRAP_DONE` are
those of `g`. -/
def gr_extends {σ : Type} (P : GrEvent → Bool) (g g1 : gr_gk20a σ) : Prop :=
  (∃ q, g1.trace = g.trace ++ q ∧ ∀ e ∈ q, P e = true) ∧
    g1.netlist = g.netlist ∧ g1.NVGPU_IS_FMODEL = g.NVGPU_IS_FMODEL ∧
    g1.NVGPU_GR_USE_DMA_FOR_FW_BOOTSTRAP = g.NVGPU_GR_USE_DMA_FOR_FW_BOOTSTRAP ∧
    g1.NVGPU_SEC_SECUREGPCCS = g.NVGPU_SEC_SECUREGPCCS ∧
    g1.NVGPU_SUPPORT_SEC2_RTOS = g.NVGPU_SUPPORT_SEC2_RTOS ∧
    g1.support_ls_pmu = g.support_ls_pmu

/-- A sequence of `n` calls of `nvgpu_gr_falcon_load_ctxsw_ucode` on one device, each
starting from the state and `*falcon` the previous one left, whatever it returned. -/
def load_ctxsw_ucode_repeat {σ : Type} (c : gr_config) (env : gr_env σ) :
    Nat → gr_gk20a σ → nvgpu_gr_falcon → Option (gr_gk20a σ × nvgpu_gr_falcon)
  | 0, g, falcon => some (g, falcon)
  | n + 1, g, falcon =>
    match nvgpu_gr_falcon_load_ctxsw_ucode c env g falcon with
    | none => none
    | some r => load_ctxsw_ucode_repeat c env n r.2.1 r.2.2

/-- The simulated device on the bootloader path. -/
def gr_sim_g_bootloader : gr_gk20a Nat :=
  { gr_sim_g with NVGPU_GR_USE_DMA_FOR_FW_BOOTSTRAP := true }

/-- The simulated device with secure GPCCS and the SEC2 RTOS, before the first boot. -/
def gr_sim_g_sec2 : gr_gk20a Nat :=
  { gr_sim_g with NVGPU_SEC_SECUREGPCCS := true, NVGPU_SUPPORT_SEC2_RTOS := true }

/-- The simulated device with secure GPCCS and the PMU loader, before the first boot. -/
def gr_sim_g_pmu : gr_gk20a Nat :=
  { gr_sim_g with NVGPU_SEC_SECUREGPCCS := true, support_ls_pmu := true }

/-- The simulated device with secure GPCCS and neither SEC2 RTOS nor PMU loader (so
ACR is the collaborator), before the first boot. -/
def gr_sim_g_acr : gr_gk20a Nat :=
  { gr_sim_g with NVGPU_SEC_SECUREGPCCS := true }

/-- The three collaborators a secure bootstrap can be delegated to. -/
inductive ls_delegate
  | sec2_rtos
  | pmu_loader
  | acr
  deriving DecidableEq, Repr

/-- The collaborator a bootstrap request goes to; `none` for any other event. -/
def GrEvent.delegate : GrEvent → Option ls_delegate
  | .sec2_bootstrap_ls_falcons _ => some .sec2_rtos
  | .pmu_lsfm_bootstrap_ls_falcon _ => some .pmu_loader
  | .acr_bootstrap_hs_acr => some .acr
  | _ => none

/-- The collaborator the configuration selects when GPCCS is secure: the SEC2 RTOS on
a discrete-GPU build with `NVGPU_SUPPORT_SEC2_RTOS` enabled, otherwise the PMU loader
on a build with the LS PMU and `support_ls_pmu` set, otherwise ACR. -/
def selected_delegate {σ : Type} (c : gr_config) (g : gr_gk20a σ) : ls_delegate :=
  if c.CONFIG_NVGPU_DGPU ∧ g.NVGPU_SUPPORT_SEC2_RTOS then .sec2_rtos
  else if c.CONFIG_NVGPU_LS_PMU ∧ g.support_ls_pmu then .pmu_loader
  else .acr

/-- The bootstrap requests of one secure load with secure GPCCS, in order: one request
per falcon to the SEC2 RTOS; or one request with a falcon-id mask to the PMU loader
(`cold_mask`, built from the lazy-bootstrap queries, on cold boot; the FECS and GPCCS
bits on recovery); or, when ACR is selected, one request to ACR on recovery and none
on cold boot. -/
def secure_delegate_requests {σ : Type} (c : gr_config) (g : gr_gk20a σ) (cold_mask : Nat) :
    List GrEvent :=
  if c.CONFIG_NVGPU_DGPU ∧ g.NVGPU_SUPPORT_SEC2_RTOS then
    [.sec2_bootstrap_ls_falcons c.FALCON_ID_FECS, .sec2_bootstrap_ls_falcons c.FALCON_ID_GPCCS]
  else if c.CONFIG_NVGPU_LS_PMU ∧ g.support_ls_pmu then
    [.pmu_lsfm_bootstrap_ls_falcon
      (if g.NVGPU_PMU_FECS_BOOTSTRAP_DONE then
        BIT32 c.FALCON_ID_FECS ||| BIT32 c.FALCON_ID_GPCCS
      else cold_mask)]
  else if g.NVGPU_PMU_FECS_BOOTSTRAP_DONE then [.acr_bootstrap_hs_acr]
  else []

/-- Whether a bootstrap request asks for the falcon `id`: a SEC2 request names the one
falcon id it carries, a PMU-loader request names the falcons whose bit is set in its
mask, an ACR request asks for every GR falcon; no other event names a falcon. -/
def GrEvent.names_falcon (id : Nat) : GrEvent → Bool
  | .sec2_bootstrap_ls_falcons i => i == id
  | .pmu_lsfm_bootstrap_ls_falcon m => m.testBit id
  | .acr_bootstrap_hs_acr => true
  | _ => false

/-- The header call `nvgpu_gr_falcon_load_ctxsw_ucode_header` makes for `segments` on a
surface at `addr_base`, when no checked addition traps. -/
def ucode_header_event (addr_base : Nat) (segments : nvgpu_ctxsw_ucode_segments)
    (reg_offset : Nat) : GrEvent :=
  .load_ctxsw_ucode_header reg_offset segments.boot_signature
    (u64_lo32 ((addr_base + segments.code.offset) >>> 8))
    (u64_lo32 ((addr_base + segments.data.offset) >>> 8)) segments.code.size segments.data.size

/-- The boot-entry call `nvgpu_gr_falcon_load_ctxsw_ucode_boot` makes for `segments` on
a surface at `addr_base`, when no checked addition traps. -/
def ucode_boot_event (addr_base : Nat) (segments : nvgpu_ctxsw_ucode_segments)
    (reg_offset : Nat) : GrEvent :=
  .load_ctxsw_ucode_boot reg_offset segments.boot_entry
    (u64_lo32 ((addr_base + segments.boot.offset) >>> 8))
    (((segments.boot.size + 255) &&& (4294967295 - 255)) >>> 8) segments.boot_imem_offset

/-- Whether an event is an instance-block bind. -/
def GrEvent.is_bind : GrEvent → Bool
  | .bind_instblk _ => true
  | _ => false

/-- Whether an event is a header or boot-entry register load. -/
def GrEvent.is_ucode_load : GrEvent → Bool
  | .load_ctxsw_ucode_header _ _ _ _ _ _ => true
  | .load_ctxsw_ucode_boot _ _ _ _ _ => true
  | _ => false

/-- The register offset a header or boot-entry load was made at; `none` for any other
event. -/
def GrEvent.ucode_reg_offset : GrEvent → Option Nat
  | .load_ctxsw_ucode_header r _ _ _ _ _ => some r
  | .load_ctxsw_ucode_boot r _ _ _ _ => some r
  | _ => none

/-- The simulated device on which GPCCS is not secure, after a first boot. -/
def gr_sim_g_recovery : gr_gk20a Nat :=
  { gr_sim_g with NVGPU_PMU_FECS_BOOTSTRAP_DONE := true }

/-- Whether an event is a write of `NVGPU_PMU_FECS_BOOTSTRAP_DONE`. -/
def GrEvent.is_flag_write : GrEvent → Bool
  | .set_enabled_PMU_FECS_BOOTSTRAP_DONE _ => true
  | _ => false

/-- A sequence of `n` calls of `nvgpu_gr_falcon_load_secure_ctxsw_ucode` on one device,
each starting from the state the previous one left, whatever status it returned. -/
def load_secure_repeat {σ : Type} (c : gr_config) (env : gr_env σ) (falcon : nvgpu_gr_falcon) :
    Nat → gr_gk20a σ → Option (gr_gk20a σ)
  | 0, g => some g
  | n + 1, g =>
    match nvgpu_gr_falcon_load_secure_ctxsw_ucode c env g falcon with
    | none => none
    | some r => load_secure_repeat c env falcon n r.2

/-- A bootloader of 32 bytes, larger than the 16-byte IMEM of the simulated falcon. -/
def sim_bl_info_oversize : nvgpu_falcon_bl_info where
  bl_src := List.replicate 32 7
  bl_desc := [9, 9, 9, 9]
  bl_desc_size := 4
  bl_size := 32
  bl_start_tag := 1

/-- A bootloader of 8 bytes with a 4-byte descriptor and start tag 3. -/
def sim_bl_info : nvgpu_falcon_bl_info where
  bl_src := [1, 2, 3, 4, 5, 6, 7, 8]
  bl_desc := [9, 9, 9, 9]
  bl_desc_size := 4
  bl_size := 8
  bl_start_tag := 3

/-- Whether an event is a bootstrap trigger. -/
def Event.is_bootstrap : Event → Bool
  | .bootstrap _ => true
  | _ => false

/-- The second step of `nvgpu_falcon_bl_bootstrap`: the copy of the bootloader
descriptor to DMEM offset 0, made after the IMEM size query. -/
def bl_bootstrap_dmem_step {σ : Type} (ops : gops_falcon σ) (flcn : nvgpu_falcon σ)
    (bl_info : nvgpu_falcon_bl_info) (w : World σ) : Int × World σ :=
  nvgpu_falcon_copy_to_dmem ops (some flcn) 0 bl_info.bl_desc bl_info.bl_desc_size 0
    (nvgpu_falcon_get_mem_size ops (some flcn) .MEM_IMEM 0 w).2.2

/-- The third step of `nvgpu_falcon_bl_bootstrap`: the copy of the bootloader to IMEM
at `dst = imem_size - bl_size`, the subtraction taken in 32 bits as in the code. -/
def bl_bootstrap_imem_step {σ : Type} (ops : gops_falcon σ) (flcn : nvgpu_falcon σ)
    (bl_info : nvgpu_falcon_bl_info) (w : World σ) : Int × World σ :=
  nvgpu_falcon_copy_to_imem ops (some flcn)
    (u32_sub (ops.get_mem_size .MEM_IMEM w.hw) bl_info.bl_size) bl_info.bl_src bl_info.bl_size 0
    false bl_info.bl_start_tag (bl_bootstrap_dmem_step ops flcn bl_info w).2

/-- The blocks of a dump in the words of the spec, as (offset, length) pairs:
`size / 256` blocks of 256 bytes at consecutive offsets from `src` on, then one block
with the remaining `size % 256` bytes when that is not zero. Offsets are 32-bit
values. -/
def spec_print_mem_blocks (src size : Nat) : List (Nat × Nat) :=
  (List.range (size / 256)).map (fun k => (u32 (src + 256 * k), 256)) ++
    (if size % 256 = 0 then [] else [(u32 (src + 256 * (size / 256)), size % 256)])

/-- Sequential copy calls in the words of the spec: the blocks are read one after the
other on port 0 through the copy function of the region, and the first block whose
copy fails ends the sequence. -/
def spec_copy_blocks {σ : Type} (ops : gops_falcon σ) (flcn : nvgpu_falcon σ)
    (mem_type : falcon_mem_type) : List (Nat × Nat) → List Nat → World σ → World σ
  | [], _, w => w
  | b :: rest, buff, w =>
    let r :=
      if mem_type = .MEM_DMEM then nvgpu_falcon_copy_from_dmem ops (some flcn) b.1 buff b.2 0 w
      else nvgpu_falcon_copy_from_imem ops (some flcn) b.1 buff b.2 0 w
    if r.1 ≠ 0 then r.2.2 else spec_copy_blocks ops flcn mem_type rest r.2.1 r.2.2

/-- A simulated machine with 520 bytes of data memory. -/
def sim_world_520 : World sim_hw :=
  { sim_world with hw := { sim_world.hw with dmem := List.replicate 520 0 } }

/-- A graphics falcon block after the ucode was built: the surface is mapped at
0x100000, FECS has boot {0, 12}, code {256, 1024}, data {1280, 300} and GPCCS has
boot {1792, 8}, code {2048, 8}, data {2304, 4}. -/
def gr_sim_falcon_loaded : nvgpu_gr_falcon where
  ctxsw_ucode_info :=
    { inst_blk_desc := { gpu_va := 0, size := 4096, aperture := 0 }
      surface_desc := { gpu_va := 1048576, size := 4096, aperture := 0 }
      fecs :=
        { boot_entry := 7, boot_imem_offset := 5, boot_signature := 6,
          boot := { offset := 0, size := 12 }, code := { offset := 256, size := 1024 },
          data := { offset := 1280, size := 300 } }
      gpccs :=
        { boot_entry := 9, boot_imem_offset := 6, boot_signature := 9,
          boot := { offset := 1792, size := 8 }, code := { offset := 2048, size := 8 },
          data := { offset := 2304, size := 4 } } }
  skip_ucode_init := true

/-! ## `priv_cmdbuf.c`: the private command queue -/

/-- Linux errno `EAGAIN`. -/
def EAGAIN : Int := 11

/-- The C `struct priv_cmd_queue`: the backing memory, the size in words and the put
and get positions in words. -/
structure priv_cmd_queue where
  mem : nvgpu_mem
  size : Nat
  put : Nat
  get : Nat
  deriving DecidableEq, Repr

/-- The fields of the C `struct priv_cmd_entry` that `priv_cmdbuf.c` reads or writes;
`mem` is the pointer to the queue memory, `NULL` being `none`. -/
structure priv_cmd_entry where
  valid : Bool
  mem : Option nvgpu_mem
  off : Nat
  gva : Nat
  size : Nat
  fill_off : Nat
  deriving DecidableEq, Repr

/-- The free word count `nvgpu_channel_alloc_priv_cmdbuf` computes:
`(q->size - (q->put - q->get) - 1U) % q->size` in 32-bit arithmetic. -/
def priv_cmd_q_free_count (q : priv_cmd_queue) : Nat :=
  u32_sub (u32_sub q.size (u32_sub q.put q.get)) 1 % q.size

/-- `nvgpu_channel_alloc_priv_cmdbuf`: the status, the queue and the entry after the
call; the entry pointer `e` may be `NULL` (`none`); the result is `none` when
`BUG_ON(q->put > q->size)` fires. -/
def nvgpu_channel_alloc_priv_cmdbuf (q : priv_cmd_queue) (orig_size : Nat)
    (e : Option priv_cmd_entry) : Option (Int × priv_cmd_queue × Option priv_cmd_entry) :=
  match e with
  | none => some (-EINVAL, q, none)
  | some e0 =>
    let size :=
      if u32 (q.put + orig_size) > q.size then u32 (orig_size + u32_sub q.size q.put)
      else orig_size
    let free_count := priv_cmd_q_free_count q
    if size > free_count then some (-EAGAIN, q, some e0)
    else
      let e1 : priv_cmd_entry := { e0 with fill_off := 0, size := orig_size, mem := some q.mem }
      let r : priv_cmd_entry × priv_cmd_queue :=
        if size ≠ orig_size then
          ({ e1 with off := 0, gva := q.mem.gpu_va }, { q with put := orig_size })
        else
          ({ e1 with off := q.put, gva := (q.mem.gpu_va + q.put * 4) % 18446744073709551616 },
            { q with put := u32 (q.put + orig_size) &&& u32_sub q.size 1 })
      if r.2.put > r.2.size then none
      else some (0, r.2, some { r.1 with valid := true })

/-- `nvgpu_channel_free_priv_cmd_entry`: with preallocated entries the entry is zeroed,
otherwise it is freed (`none`). -/
def nvgpu_channel_free_priv_cmd_entry (prealloc_enabled : Bool) (_e : priv_cmd_entry) :
    Option priv_cmd_entry :=
  if prealloc_enabled then
    some { valid := false, mem := none, off := 0, gva := 0, size := 0, fill_off := 0 }
  else none

/-- `nvgpu_channel_update_priv_cmd_q_and_free_entry`: the queue and the entry after
the call. -/
def nvgpu_channel_update_priv_cmd_q_and_free_entry (prealloc_enabled : Bool)
    (q : priv_cmd_queue) (e : Option priv_cmd_entry) : priv_cmd_queue × Option priv_cmd_entry :=
  match e with
  | none => (q, none)
  | some e0 =>
    let q1 := if e0.valid then { q with get := u32 (e0.off + e0.size) } else q
    (q1, nvgpu_channel_free_priv_cmd_entry prealloc_enabled e0)

/-- Whether word `w` of the queue is outstanding, in the words of the claim: it lies in
the circular range from `get` up to `put`. -/
def priv_cmd_q_outstanding (q : priv_cmd_queue) (w : Nat) : Prop :=
  if q.get ≤ q.put then q.get ≤ w ∧ w < q.put
  else (q.get ≤ w ∧ w < q.size) ∨ w < q.put

/-- A 16-word queue with put and get at word 4. -/
def sim_priv_cmd_q : priv_cmd_queue where
  mem := { gpu_va := 65536, size := 64, aperture := 0 }
  size := 16
  put := 4
  get := 4

/-- The 16-word queue with words 8 to 11 outstanding: put = 12, get = 8. -/
def sim_priv_cmd_q_tail : priv_cmd_queue :=
  { sim_priv_cmd_q with put := 12, get := 8 }

/-- An entry that was not allocated yet. -/
def sim_priv_cmd_entry : priv_cmd_entry where
  valid := false
  mem := none
  off := 0
  gva := 0
  size := 0
  fill_off := 0

/-! ## `debug_fifo.c`: profiling statistics -/

/-- The conversion of a 64-bit unsigned value to `int`: the low 32 bits read as a
two's-complement number. -/
def u64_to_int (n : Nat) : Int :=
  if n % 4294967296 < 2147483648 then (n % 4294967296 : Nat)
  else ((n % 4294967296 : Nat) : Int) - 4294967296

/-- `__profile_cmp`: the difference of the two `unsigned long long` values, taken
modulo 2^64 and returned as `int`. -/
def __profile_cmp (a b : Nat) : Int :=
  u64_to_int ((a + 18446744073709551616 - b) % 18446744073709551616)

/-- The macro `PERCENTILE_WIDTH`. -/
def PERCENTILE_WIDTH : Nat := 5

/-- The macro `PERCENTILE_RANGES`. -/
def PERCENTILE_RANGES : Nat := 100 / PERCENTILE_WIDTH

/-- The C `struct nvgpu_profile`: the timestamps of one profiled submit. -/
structure nvgpu_profile where
  timestamp : List Nat
  deriving DecidableEq, Repr

/-- The index `(PERCENTILE_WIDTH * (index + 1) * nelem) / 100 - 1` that
`__gk20a_fifo_create_stats` reads, in `unsigned int` arithmetic. -/
def percentile_index (index nelem : Nat) : Nat :=
  u32_sub (u32 (u32 (PERCENTILE_WIDTH * u32 (index + 1)) * nelem) / 100) 1

/-- `__gk20a_fifo_create_stats`: the percentile table, the element count `nelem` and
the sorted durations. The kernel's `sort` is declared outside the translated files
and is a parameter; `data` holds the `FIFO_PROFILING_ENTRIES` profiles. -/
def __gk20a_fifo_create_stats (sort : (Nat → Nat → Int) → List Nat → List Nat)
    (data : List nvgpu_profile) (index_end index_start : Nat) : List Nat × Nat × List Nat :=
  let durations :=
    data.filterMap (fun profile =>
      if profile.timestamp.getD index_end 0 > profile.timestamp.getD index_start 0 then
        some (profile.timestamp.getD index_end 0 - profile.timestamp.getD index_start 0)
      else none)
  let nelem := durations.length
  let sorted := sort __profile_cmp durations
  let percentiles :=
    (List.range PERCENTILE_RANGES).map (fun index =>
      if nelem < PERCENTILE_RANGES then 0 else sorted.getD (percentile_index index nelem) 0)
  (percentiles, nelem, sorted)

/-! ## Properties -/

section params_check

variable {σ : Type}

theorem and_three_eq_mod (n : Nat) : n &&& 3 = n % 4 :=
  Nat.and_pow_two_sub_one_eq_mod n 2

/-- The parameter check answers either 0 or `-EINVAL` on a supported instance, and 0
exactly when the four rules hold with the sum taken in 32 bits. -/
theorem params_check_eq_zero_iff (ops : gops_falcon σ) (flcn : nvgpu_falcon σ)
    (offset size : Nat) (t : falcon_mem_type) (port : Nat) (w : World σ)
    (hs : flcn.is_falcon_supported = true) :
    (falcon_memcpy_params_check ops flcn offset size t port w).1 = 0 ↔
      size ≠ 0 ∧ offset % 4 = 0 ∧ port < ops.get_ports_count t w.hw ∧
        offset ≤ ops.get_mem_size t w.hw ∧ u32 (offset + size) ≤ ops.get_mem_size t w.hw := by
  unfold falcon_memcpy_params_check nvgpu_falcon_get_mem_size
  simp only [is_falcon_valid, hs, and_three_eq_mod, World.emit]
  by_cases h1 : size = 0
  · simp [h1, EINVAL]
  by_cases h2 : offset % 4 = 0
  · by_cases h3 : port < ops.get_ports_count t w.hw
    · by_cases h4 : offset ≤ ops.get_mem_size t w.hw ∧ u32 (offset + size) ≤ ops.get_mem_size t w.hw
      · simp [h1, h2, h3, h4, Nat.not_le.mpr h3]
      · simp [h1, h2, h3, h4, Nat.not_le.mpr h3, EINVAL]
    · simp [h1, h2, h3, Nat.not_lt.mp h3, EINVAL]
  · simp [h1, h2, EINVAL]

/-- A request the parameter check does not accept is answered with `-EINVAL`. -/
theorem params_check_ne_zero (ops : gops_falcon σ) (flcn : nvgpu_falcon σ)
    (offset size : Nat) (t : falcon_mem_type) (port : Nat) (w : World σ)
    (h : (falcon_memcpy_params_check ops flcn offset size t port w).1 ≠ 0) :
    (falcon_memcpy_params_check ops flcn offset size t port w).1 = -EINVAL := by
  revert h
  unfold falcon_memcpy_params_check nvgpu_falcon_get_mem_size
  simp only [World.emit]
  repeat' split
  all_goals simp_all

set_option linter.unreachableTactic false in
set_option linter.unusedTactic false in
/-- The parameter check leaves the hardware alone and adds only size queries to the
trace. -/
theorem params_check_world (ops : gops_falcon σ) (flcn : nvgpu_falcon σ)
    (offset size : Nat) (t : falcon_mem_type) (port : Nat) (w : World σ) :
    (falcon_memcpy_params_check ops flcn offset size t port w).2.hw = w.hw ∧
      ∃ q, (falcon_memcpy_params_check ops flcn offset size t port w).2.trace = w.trace ++ q ∧
        q.length ≤ 2 ∧ ∀ e ∈ q, e = .get_ports_count t ∨ e = .get_mem_size t := by
  unfold falcon_memcpy_params_check nvgpu_falcon_get_mem_size
  simp only [World.emit]
  split_ifs
  all_goals refine ⟨rfl, ?_⟩
  all_goals first
    | (refine ⟨[], ?_, ?_, ?_⟩ <;> simp <;> done)
    | (refine ⟨[.get_ports_count t], ?_, ?_, ?_⟩ <;> simp <;> done)
    | (refine ⟨[.get_ports_count t, .get_mem_size t], ?_, ?_, ?_⟩ <;> simp <;> done)

end params_check

section copy_wrappers

variable {σ : Type}

/-- Where the 32-bit sum does not wrap, an accepted request ends inside the region. -/
theorem params_check_bound_of_no_wrap (ops : gops_falcon σ) (flcn : nvgpu_falcon σ)
    (offset size : Nat) (t : falcon_mem_type) (port : Nat) (w : World σ)
    (hs : flcn.is_falcon_supported = true) (hw : offset + size < 4294967296)
    (h : (falcon_memcpy_params_check ops flcn offset size t port w).1 = 0) :
    offset + size ≤ ops.get_mem_size t w.hw := by
  have h1 := ((params_check_eq_zero_iff ops flcn offset size t port w hs).mp h).2.2.2.2
  rwa [u32, Nat.mod_eq_of_lt hw] at h1

/-- Where the 32-bit sum does not wrap, a request that breaks one of the four rules is
not accepted by the parameter check. -/
theorem params_check_rejects_of_no_wrap (ops : gops_falcon σ) (flcn : nvgpu_falcon σ)
    (offset size : Nat) (t : falcon_mem_type) (port : Nat) (w : World σ)
    (hs : flcn.is_falcon_supported = true) (hw : offset + size < 4294967296)
    (hbad : size = 0 ∨ offset % 4 ≠ 0 ∨ port ≥ ops.get_ports_count t w.hw ∨
      offset + size > ops.get_mem_size t w.hw) :
    (falcon_memcpy_params_check ops flcn offset size t port w).1 ≠ 0 := by
  intro h
  have h1 := (params_check_eq_zero_iff ops flcn offset size t port w hs).mp h
  have h2 := params_check_bound_of_no_wrap ops flcn offset size t port w hs hw h
  omega

/-- A copy whose parameters the check does not accept returns `-EINVAL`, leaves the
hardware as it is and adds only the check's queries to the trace: no lock, no copy. -/
theorem copy_rejected (ops : gops_falcon σ) (flcn : nvgpu_falcon σ)
    (offset size port : Nat) (buf : List Nat) (sec : Bool) (tag : Nat) (w : World σ)
    (hs : flcn.is_falcon_supported = true) :
    ((falcon_memcpy_params_check ops flcn offset size .MEM_DMEM port w).1 ≠ 0 →
      nvgpu_falcon_copy_to_dmem ops (some flcn) offset buf size port w =
          (-EINVAL, (falcon_memcpy_params_check ops flcn offset size .MEM_DMEM port w).2) ∧
        nvgpu_falcon_copy_from_dmem ops (some flcn) offset buf size port w =
          (-EINVAL, buf, (falcon_memcpy_params_check ops flcn offset size .MEM_DMEM port w).2)) ∧
    ((falcon_memcpy_params_check ops flcn offset size .MEM_IMEM port w).1 ≠ 0 →
      nvgpu_falcon_copy_to_imem ops (some flcn) offset buf size port sec tag w =
          (-EINVAL, (falcon_memcpy_params_check ops flcn offset size .MEM_IMEM port w).2) ∧
        nvgpu_falcon_copy_from_imem ops (some flcn) offset buf size port w =
          (-EINVAL, buf, (falcon_memcpy_params_check ops flcn offset size .MEM_IMEM port w).2)) := by
  constructor <;> intro h <;> constructor <;>
    simp [nvgpu_falcon_copy_to_dmem, nvgpu_falcon_copy_from_dmem, nvgpu_falcon_copy_to_imem,
      nvgpu_falcon_copy_from_imem, is_falcon_valid, hs, h]

/-- A copy whose parameters the check accepts takes the region's lock, invokes the
backend once with the caller's arguments, releases the lock and returns the backend's
status. -/
theorem copy_accepted (ops : gops_falcon σ) (flcn : nvgpu_falcon σ)
    (offset size port : Nat) (buf : List Nat) (sec : Bool) (tag : Nat) (w : World σ)
    (hs : flcn.is_falcon_supported = true) :
    ((falcon_memcpy_params_check ops flcn offset size .MEM_DMEM port w).1 = 0 →
      nvgpu_falcon_copy_to_dmem ops (some flcn) offset buf size port w =
          ((ops.copy_to_dmem offset buf size port w.hw).1,
            { hw := (ops.copy_to_dmem offset buf size port w.hw).2,
              trace := (falcon_memcpy_params_check ops flcn offset size .MEM_DMEM port w).2.trace ++
                [.mutex_acquire .dmem_lock, .copy_to_dmem offset buf size port,
                  .mutex_release .dmem_lock] }) ∧
        nvgpu_falcon_copy_from_dmem ops (some flcn) offset buf size port w =
          ((ops.copy_from_dmem offset buf size port w.hw).1,
            (ops.copy_from_dmem offset buf size port w.hw).2.1,
            { hw := (ops.copy_from_dmem offset buf size port w.hw).2.2,
              trace := (falcon_memcpy_params_check ops flcn offset size .MEM_DMEM port w).2.trace ++
                [.mutex_acquire .dmem_lock, .copy_from_dmem offset size port,
                  .mutex_release .dmem_lock] })) ∧
    ((falcon_memcpy_params_check ops flcn offset size .MEM_IMEM port w).1 = 0 →
      nvgpu_falcon_copy_to_imem ops (some flcn) offset buf size port sec tag w =
          ((ops.copy_to_imem offset buf size port sec tag w.hw).1,
            { hw := (ops.copy_to_imem offset buf size port sec tag w.hw).2,
              trace := (falcon_memcpy_params_check ops flcn offset size .MEM_IMEM port w).2.trace ++
                [.mutex_acquire .imem_lock, .copy_to_imem offset buf size port sec tag,
                  .mutex_release .imem_lock] }) ∧
        nvgpu_falcon_copy_from_imem ops (some flcn) offset buf size port w =
          ((ops.copy_from_imem offset buf size port w.hw).1,
            (ops.copy_from_imem offset buf size port w.hw).2.1,
            { hw := (ops.copy_from_imem offset buf size port w.hw).2.2,
              trace := (falcon_memcpy_params_check ops flcn offset size .MEM_IMEM port w).2.trace ++
                [.mutex_acquire .imem_lock, .copy_from_imem offset size port,
                  .mutex_release .imem_lock] })) := by
  have hd := (params_check_world ops flcn offset size .MEM_DMEM port w).1
  have hi := (params_check_world ops flcn offset size .MEM_IMEM port w).1
  constructor <;> intro h <;> constructor <;>
    simp [nvgpu_falcon_copy_to_dmem, nvgpu_falcon_copy_from_dmem, nvgpu_falcon_copy_to_imem,
      nvgpu_falcon_copy_from_imem, is_falcon_valid, hs, h, hd, hi, World.emit]

/-- The trace the parameter check leaves for a request it accepts: the port-count
query, then the size query. -/
theorem params_check_trace_of_accepted (ops : gops_falcon σ) (flcn : nvgpu_falcon σ)
    (offset size : Nat) (t : falcon_mem_type) (port : Nat) (w : World σ)
    (h : (falcon_memcpy_params_check ops flcn offset size t port w).1 = 0) :
    (falcon_memcpy_params_check ops flcn offset size t port w).2.trace =
      w.trace ++ [.get_ports_count t, .get_mem_size t] := by
  revert h
  unfold falcon_memcpy_params_check nvgpu_falcon_get_mem_size
  simp only [World.emit]
  split_ifs <;> simp_all [EINVAL]

end copy_wrappers

/-- C1 (code defect): on the simulated falcon with a 16-byte data memory, the request
offset 8, size 0xFFFFFFFC, port 0 is accepted by `falcon_memcpy_params_check` (it
returns 0) although, as unbounded integers, offset + size exceeds the region size: the
32-bit sum wraps to 4. -/
theorem C1_params_check_accepts_wrapped_sum :
    (falcon_memcpy_params_check (sim_ops 1) sim_flcn 8 4294967292 .MEM_DMEM 0 sim_world).1 = 0 ∧
      (sim_ops 1).get_mem_size .MEM_DMEM sim_world.hw = 16 ∧
      ¬ (8 + 4294967292 ≤ (sim_ops 1).get_mem_size .MEM_DMEM sim_world.hw) := by
  decide

/-- C2 (code defect): on the simulated falcon with 16-byte regions, the request offset
8, size 0xFFFFFFFC, port 0 has offset + size beyond the region size, yet each of the
four copy functions takes the region's lock, invokes the backend copy and returns its
status 0 instead of `-EINVAL`; the write changes the data memory. -/
theorem C2_copy_runs_wrapped_request :
    (sim_ops 1).get_mem_size .MEM_DMEM sim_world.hw < 8 + 4294967292 ∧
    (sim_ops 1).get_mem_size .MEM_IMEM sim_world.hw < 8 + 4294967292 ∧
    nvgpu_falcon_copy_to_dmem (sim_ops 1) (some sim_flcn) 8 [1, 2, 3, 4] 4294967292 0 sim_world =
      (0, { hw := { sim_world.hw with dmem := [0, 0, 0, 0, 0, 0, 0, 0, 1, 2, 3, 4, 0, 0, 0, 0] },
            trace := [.get_ports_count .MEM_DMEM, .get_mem_size .MEM_DMEM,
              .mutex_acquire .dmem_lock, .copy_to_dmem 8 [1, 2, 3, 4] 4294967292 0,
              .mutex_release .dmem_lock] }) ∧
    (nvgpu_falcon_copy_from_dmem (sim_ops 1) (some sim_flcn) 8 [] 4294967292 0 sim_world).1 = 0 ∧
    Event.copy_from_dmem 8 4294967292 0 ∈
      (nvgpu_falcon_copy_from_dmem (sim_ops 1) (some sim_flcn) 8 [] 4294967292 0 sim_world).2.2.trace ∧
    (nvgpu_falcon_copy_to_imem (sim_ops 1) (some sim_flcn) 8 [1, 2, 3, 4] 4294967292 0 false 0
      sim_world).1 = 0 ∧
    Event.mutex_acquire .imem_lock ∈
      (nvgpu_falcon_copy_to_imem (sim_ops 1) (some sim_flcn) 8 [1, 2, 3, 4] 4294967292 0 false 0
        sim_world).2.trace ∧
    (nvgpu_falcon_copy_from_imem (sim_ops 1) (some sim_flcn) 8 [] 4294967292 0 sim_world).1 = 0 ∧
    Event.copy_from_imem 8 4294967292 0 ∈
      (nvgpu_falcon_copy_from_imem (sim_ops 1) (some sim_flcn) 8 [] 4294967292 0 sim_world).2.2.trace := by
  decide

section roundtrip

theorem mem_write_length (mem : List Nat) (off : Nat) (data : List Nat) :
    (mem_write mem off data).length = mem.length := by
  unfold mem_write
  simp only [List.length_take, List.length_append, List.length_drop]
  omega

/-- Reading back the range just written returns the bytes written. -/
theorem mem_read_write (mem : List Nat) (off : Nat) (data : List Nat)
    (h : off + data.length ≤ mem.length) :
    mem_read (mem_write mem off data) off data.length = data := by
  unfold mem_read mem_write
  have h1 : (List.take off mem ++ data ++ List.drop (off + data.length) mem).length = mem.length := by
    simp only [List.length_take, List.length_append, List.length_drop]
    omega
  rw [← h1, List.take_length, List.append_assoc]
  have h2 : (List.take off mem).length = off := by
    rw [List.length_take]
    omega
  rw [List.drop_append_of_le_length (by omega), List.drop_of_length_le (by omega)]
  simp

/-- A request that meets the four rules is accepted by the parameter check. -/
theorem params_check_accepts {σ : Type} (ops : gops_falcon σ) (flcn : nvgpu_falcon σ)
    (offset size : Nat) (t : falcon_mem_type) (port : Nat) (w : World σ)
    (hs : flcn.is_falcon_supported = true) (ha : offset % 4 = 0) (hl : 0 < size)
    (hp : port < ops.get_ports_count t w.hw) (hb : offset + size ≤ ops.get_mem_size t w.hw) :
    (falcon_memcpy_params_check ops flcn offset size t port w).1 = 0 := by
  rw [params_check_eq_zero_iff ops flcn offset size t port w hs]
  exact ⟨by omega, ha, hp, by omega, le_trans (Nat.mod_le _ _) hb⟩

end roundtrip

/-- C3: a copy request with a 4-byte aligned offset, non-zero length, a port below the
port count and offset + length within the region is carried out by each wrapper with exactly one invocation of the backend copy, under the
region's lock, with the caller's offset, size and port, and the backend's status is
returned. On the backend that keeps one byte array per region, `copy_to_dmem`
(resp. `copy_to_imem`) returns 0 and the following `copy_from_dmem` (resp.
`copy_from_imem`) with the same offset, length and port returns 0 and yields the
bytes that were written. -/
theorem C3_copy_roundtrip :
    (∀ (σ : Type) (ops : gops_falcon σ) (flcn : nvgpu_falcon σ) (w : World σ)
        (offset size port : Nat) (buf : List Nat),
        flcn.is_falcon_supported = true → offset % 4 = 0 → 0 < size →
        port < ops.get_ports_count .MEM_DMEM w.hw →
        offset + size ≤ ops.get_mem_size .MEM_DMEM w.hw →
        nvgpu_falcon_copy_to_dmem ops (some flcn) offset buf size port w =
            ((ops.copy_to_dmem offset buf size port w.hw).1,
              { hw := (ops.copy_to_dmem offset buf size port w.hw).2,
                trace := w.trace ++ [.get_ports_count .MEM_DMEM, .get_mem_size .MEM_DMEM,
                  .mutex_acquire .dmem_lock, .copy_to_dmem offset buf size port,
                  .mutex_release .dmem_lock] }) ∧
          nvgpu_falcon_copy_from_dmem ops (some flcn) offset buf size port w =
            ((ops.copy_from_dmem offset buf size port w.hw).1,
              (ops.copy_from_dmem offset buf size port w.hw).2.1,
              { hw := (ops.copy_from_dmem offset buf size port w.hw).2.2,
                trace := w.trace ++ [.get_ports_count .MEM_DMEM, .get_mem_size .MEM_DMEM,
                  .mutex_acquire .dmem_lock, .copy_from_dmem offset size port,
                  .mutex_release .dmem_lock] })) ∧
    (∀ (σ : Type) (ops : gops_falcon σ) (flcn : nvgpu_falcon σ) (w : World σ)
        (offset size port : Nat) (buf : List Nat) (sec : Bool) (tag : Nat),
        flcn.is_falcon_supported = true → offset % 4 = 0 → 0 < size →
        port < ops.get_ports_count .MEM_IMEM w.hw →
        offset + size ≤ ops.get_mem_size .MEM_IMEM w.hw →
        nvgpu_falcon_copy_to_imem ops (some flcn) offset buf size port sec tag w =
            ((ops.copy_to_imem offset buf size port sec tag w.hw).1,
              { hw := (ops.copy_to_imem offset buf size port sec tag w.hw).2,
                trace := w.trace ++ [.get_ports_count .MEM_IMEM, .get_mem_size .MEM_IMEM,
                  .mutex_acquire .imem_lock, .copy_to_imem offset buf size port sec tag,
                  .mutex_release .imem_lock] }) ∧
          nvgpu_falcon_copy_from_imem ops (some flcn) offset buf size port w =
            ((ops.copy_from_imem offset buf size port w.hw).1,
              (ops.copy_from_imem offset buf size port w.hw).2.1,
              { hw := (ops.copy_from_imem offset buf size port w.hw).2.2,
                trace := w.trace ++ [.get_ports_count .MEM_IMEM, .get_mem_size .MEM_IMEM,
                  .mutex_acquire .imem_lock, .copy_from_imem offset size port,
                  .mutex_release .imem_lock] })) ∧
    (∀ (ports : Nat) (flcn : nvgpu_falcon sim_hw) (w : World sim_hw) (offset port : Nat)
        (data dst : List Nat),
        flcn.is_falcon_supported = true → offset % 4 = 0 → 0 < data.length → port < ports →
        offset + data.length ≤ w.hw.dmem.length →
        (nvgpu_falcon_copy_to_dmem (sim_ops ports) (some flcn) offset data data.length port w).1 = 0 ∧
          (nvgpu_falcon_copy_from_dmem (sim_ops ports) (some flcn) offset dst data.length port
            (nvgpu_falcon_copy_to_dmem (sim_ops ports) (some flcn) offset data data.length port
              w).2).1 = 0 ∧
          (nvgpu_falcon_copy_from_dmem (sim_ops ports) (some flcn) offset dst data.length port
            (nvgpu_falcon_copy_to_dmem (sim_ops ports) (some flcn) offset data data.length port
              w).2).2.1.take data.length = data) ∧
    (∀ (ports : Nat) (flcn : nvgpu_falcon sim_hw) (w : World sim_hw) (offset port : Nat)
        (data dst : List Nat) (sec : Bool) (tag : Nat),
        flcn.is_falcon_supported = true → offset % 4 = 0 → 0 < data.length → port < ports →
        offset + data.length ≤ w.hw.imem.length →
        (nvgpu_falcon_copy_to_imem (sim_ops ports) (some flcn) offset data data.length port sec tag
            w).1 = 0 ∧
          (nvgpu_falcon_copy_from_imem (sim_ops ports) (some flcn) offset dst data.length port
            (nvgpu_falcon_copy_to_imem (sim_ops ports) (some flcn) offset data data.length port
              sec tag w).2).1 = 0 ∧
          (nvgpu_falcon_copy_from_imem (sim_ops ports) (some flcn) offset dst data.length port
            (nvgpu_falcon_copy_to_imem (sim_ops ports) (some flcn) offset data data.length port
              sec tag w).2).2.1.take data.length = data) := by
  refine ⟨?_, ?_, ?_, ?_⟩
  · intro σ ops flcn w offset size port buf hs ha hl hp hb
    have hc := params_check_accepts ops flcn offset size .MEM_DMEM port w hs ha hl hp hb
    have ht := params_check_trace_of_accepted ops flcn offset size .MEM_DMEM port w hc
    have h := (copy_accepted ops flcn offset size port buf false 0 w hs).1 hc
    simpa [ht] using h
  · intro σ ops flcn w offset size port buf sec tag hs ha hl hp hb
    have hc := params_check_accepts ops flcn offset size .MEM_IMEM port w hs ha hl hp hb
    have ht := params_check_trace_of_accepted ops flcn offset size .MEM_IMEM port w hc
    have h := (copy_accepted ops flcn offset size port buf sec tag w hs).2 hc
    simpa [ht] using h
  · intro ports flcn w offset port data dst hs ha hl hp hb
    have hc := params_check_accepts (sim_ops ports) flcn offset data.length .MEM_DMEM port w hs ha
      hl hp hb
    have h1 := ((copy_accepted (sim_ops ports) flcn offset data.length port data false 0 w hs).1
      hc).1
    rw [h1]
    have hlen : (mem_write w.hw.dmem offset data).length = w.hw.dmem.length :=
      mem_write_length _ _ _
    have hc2 := params_check_accepts (sim_ops ports) flcn offset data.length .MEM_DMEM port
      { hw := ((sim_ops ports).copy_to_dmem offset data data.length port w.hw).2,
        trace := (falcon_memcpy_params_check (sim_ops ports) flcn offset data.length
          .MEM_DMEM port w).2.trace ++ [.mutex_acquire .dmem_lock,
            .copy_to_dmem offset data data.length port, .mutex_release .dmem_lock] }
      hs ha hl hp (by simpa [sim_ops, hlen] using hb)
    have h2 := ((copy_accepted (sim_ops ports) flcn offset data.length port dst false 0 _ hs).1
      hc2).2
    rw [h2]
    refine ⟨rfl, rfl, ?_⟩
    simp only [sim_ops, List.take_length]
    rw [List.take_append_of_le_length]
    · have := mem_read_write w.hw.dmem offset data hb
      rw [this, List.take_length]
    · rw [mem_read_write w.hw.dmem offset data hb]
  · intro ports flcn w offset port data dst sec tag hs ha hl hp hb
    have hc := params_check_accepts (sim_ops ports) flcn offset data.length .MEM_IMEM port w hs ha
      hl hp hb
    have h1 := ((copy_accepted (sim_ops ports) flcn offset data.length port data sec tag w hs).2
      hc).1
    rw [h1]
    have hlen : (mem_write w.hw.imem offset data).length = w.hw.imem.length :=
      mem_write_length _ _ _
    have hc2 := params_check_accepts (sim_ops ports) flcn offset data.length .MEM_IMEM port
      { hw := ((sim_ops ports).copy_to_imem offset data data.length port sec tag w.hw).2,
        trace := (falcon_memcpy_params_check (sim_ops ports) flcn offset data.length
          .MEM_IMEM port w).2.trace ++ [.mutex_acquire .imem_lock,
            .copy_to_imem offset data data.length port sec tag, .mutex_release .imem_lock] }
      hs ha hl hp (by simpa [sim_ops, hlen] using hb)
    have h2 := ((copy_accepted (sim_ops ports) flcn offset data.length port dst sec tag _ hs).2
      hc2).2
    rw [h2]
    refine ⟨rfl, rfl, ?_⟩
    simp only [sim_ops, List.take_length]
    rw [List.take_append_of_le_length]
    · have := mem_read_write w.hw.imem offset data hb
      rw [this, List.take_length]
    · rw [mem_read_write w.hw.imem offset data hb]

/-- Witness for C3: on the simulated falcon with 16-byte regions, five bytes written at
offset 4 through port 0 are read back unchanged, for the data and for the instruction
memory, and each wrapper invokes the backend once. -/
theorem C3_copy_roundtrip_witness :
    (sim_flcn.is_falcon_supported = true ∧ 4 % 4 = 0 ∧ 0 < [1, 2, 3, 4, 5].length ∧ 0 < 1 ∧
      4 + [1, 2, 3, 4, 5].length ≤ sim_world.hw.dmem.length ∧
      4 + [1, 2, 3, 4, 5].length ≤ sim_world.hw.imem.length) ∧
    (nvgpu_falcon_copy_from_dmem (sim_ops 1) (some sim_flcn) 4 [] [1, 2, 3, 4, 5].length 0
      (nvgpu_falcon_copy_to_dmem (sim_ops 1) (some sim_flcn) 4 [1, 2, 3, 4, 5]
        [1, 2, 3, 4, 5].length 0 sim_world).2).2.1.take [1, 2, 3, 4, 5].length = [1, 2, 3, 4, 5] ∧
    (nvgpu_falcon_copy_from_imem (sim_ops 1) (some sim_flcn) 4 [] [1, 2, 3, 4, 5].length 0
      (nvgpu_falcon_copy_to_imem (sim_ops 1) (some sim_flcn) 4 [1, 2, 3, 4, 5]
        [1, 2, 3, 4, 5].length 0 false 0 sim_world).2).2.1.take [1, 2, 3, 4, 5].length =
      [1, 2, 3, 4, 5] ∧
    (nvgpu_falcon_copy_to_dmem (sim_ops 1) (some sim_flcn) 4 [1, 2, 3, 4, 5] 5 0 sim_world).2.trace =
      [.get_ports_count .MEM_DMEM, .get_mem_size .MEM_DMEM, .mutex_acquire .dmem_lock,
        .copy_to_dmem 4 [1, 2, 3, 4, 5] 5 0, .mutex_release .dmem_lock] ∧
    (nvgpu_falcon_copy_from_imem (sim_ops 1) (some sim_flcn) 4 [] 5 0 sim_world).2.2.trace =
      [.get_ports_count .MEM_IMEM, .get_mem_size .MEM_IMEM, .mutex_acquire .imem_lock,
        .copy_from_imem 4 5 0, .mutex_release .imem_lock] :=
  ⟨by decide,
    (C3_copy_roundtrip.2.2.1 1 sim_flcn sim_world 4 0 [1, 2, 3, 4, 5] [] rfl (by decide)
      (by decide) (by decide) (by decide)).2.2,
    (C3_copy_roundtrip.2.2.2 1 sim_flcn sim_world 4 0 [1, 2, 3, 4, 5] [] false 0 rfl (by decide)
      (by decide) (by decide) (by decide)).2.2,
    congrArg (fun r => r.2.trace)
      (C3_copy_roundtrip.1 sim_hw (sim_ops 1) sim_flcn sim_world 4 5 0 [1, 2, 3, 4, 5] rfl
        (by decide) (by decide) (by decide) (by decide)).1,
    congrArg (fun r => r.2.2.trace)
      (C3_copy_roundtrip.2.1 sim_hw (sim_ops 1) sim_flcn sim_world 4 5 0 [] false 0 rfl
        (by decide) (by decide) (by decide) (by decide)).2⟩

/-- C4 (counterexample): on the simulated falcon, whose external-memory copy operations
are present, a request with size 0, offset 2 and port 5 is not rejected:
`nvgpu_falcon_copy_to_emem` and `nvgpu_falcon_copy_from_emem` take the EMEM lock,
invoke the engine-specific operation and return its status 0. -/
theorem C4_emem_copy_not_validated :
    ¬ ((nvgpu_falcon_copy_to_emem (some sim_flcn) 2 [9] 0 5 sim_world).1 = -EINVAL ∧
        Event.copy_to_emem 2 [9] 0 5 ∉
          (nvgpu_falcon_copy_to_emem (some sim_flcn) 2 [9] 0 5 sim_world).2.trace) ∧
      ¬ ((nvgpu_falcon_copy_from_emem (some sim_flcn) 2 [] 0 5 sim_world).1 = -EINVAL ∧
        Event.copy_from_emem 2 0 5 ∉
          (nvgpu_falcon_copy_from_emem (some sim_flcn) 2 [] 0 5 sim_world).2.2.trace) := by
  decide

/-- C4 (amended): on a supported instance whose engine-specific external-memory copy
operation is present, the wrapper checks no parameter itself: for every offset, size
and port it takes the EMEM lock, invokes the engine-specific operation exactly once
with the caller's arguments, releases the lock and returns that operation's status. -/
theorem C4_emem_copy_forwards {σ : Type} (flcn : nvgpu_falcon σ) (w : World σ)
    (offset size port : Nat) (buf : List Nat) (hs : flcn.is_falcon_supported = true) :
    (∀ op, flcn.flcn_engine_dep_ops.copy_to_emem = some op →
      nvgpu_falcon_copy_to_emem (some flcn) offset buf size port w =
        ((op offset buf size port w.hw).1,
          { hw := (op offset buf size port w.hw).2,
            trace := w.trace ++ [.mutex_acquire .emem_lock, .copy_to_emem offset buf size port,
              .mutex_release .emem_lock] })) ∧
    (∀ op, flcn.flcn_engine_dep_ops.copy_from_emem = some op →
      nvgpu_falcon_copy_from_emem (some flcn) offset buf size port w =
        ((op offset buf size port w.hw).1, (op offset buf size port w.hw).2.1,
          { hw := (op offset buf size port w.hw).2.2,
            trace := w.trace ++ [.mutex_acquire .emem_lock, .copy_from_emem offset size port,
              .mutex_release .emem_lock] })) := by
  constructor <;> intro op h <;>
    simp [nvgpu_falcon_copy_to_emem, nvgpu_falcon_copy_from_emem, is_falcon_valid, hs, h,
      World.emit]

/-- Witness for C4 (amended): the simulated falcon, a request with size 0, offset 2 and
port 5. -/
theorem C4_emem_copy_forwards_witness :
    (sim_flcn.is_falcon_supported = true ∧
      sim_flcn.flcn_engine_dep_ops.copy_to_emem.isSome = true ∧
      sim_flcn.flcn_engine_dep_ops.copy_from_emem.isSome = true) ∧
    (nvgpu_falcon_copy_to_emem (some sim_flcn) 2 [9] 0 5 sim_world).2.trace =
      [.mutex_acquire .emem_lock, .copy_to_emem 2 [9] 0 5, .mutex_release .emem_lock] ∧
    (nvgpu_falcon_copy_from_emem (some sim_flcn) 2 [9] 0 5 sim_world).2.2.trace =
      [.mutex_acquire .emem_lock, .copy_from_emem 2 0 5, .mutex_release .emem_lock] :=
  ⟨by decide,
    congrArg (fun r => r.2.trace)
      ((C4_emem_copy_forwards sim_flcn sim_world 2 0 5 [9] rfl).1 _ rfl),
    congrArg (fun r => r.2.2.trace)
      ((C4_emem_copy_forwards sim_flcn sim_world 2 0 5 [9] rfl).2 _ rfl)⟩

/-- C5 (counterexample): on the simulated falcon without engine-dependent operations,
the error returned for an external-memory copy does not differ from `-EINVAL`. -/
theorem C5_emem_absent_returns_einval :
    ¬ ((nvgpu_falcon_copy_to_emem (some sim_flcn_plain) 0 [1, 2, 3, 4] 4 0 sim_world).1 ≠ -EINVAL) ∧
      ¬ ((nvgpu_falcon_copy_from_emem (some sim_flcn_plain) 0 [] 4 0 sim_world).1 ≠ -EINVAL) := by
  decide

/-- C5 (amended): on a supported instance whose engine-specific external-memory copy
operation is absent, `nvgpu_falcon_copy_to_emem` and `nvgpu_falcon_copy_from_emem`
return `-EINVAL`, the code also used for invalid copy parameters, and leave the
hardware, the trace (no lock taken, no operation invoked) and the caller's buffer as
they were. -/
theorem C5_emem_absent {σ : Type} (flcn : nvgpu_falcon σ) (w : World σ)
    (offset size port : Nat) (buf : List Nat)
    (hs : flcn.is_falcon_supported = true) :
    (flcn.flcn_engine_dep_ops.copy_to_emem = none →
        nvgpu_falcon_copy_to_emem (some flcn) offset buf size port w = (-EINVAL, w)) ∧
      (flcn.flcn_engine_dep_ops.copy_from_emem = none →
        nvgpu_falcon_copy_from_emem (some flcn) offset buf size port w = (-EINVAL, buf, w)) := by
  constructor <;> intro h <;>
    simp [nvgpu_falcon_copy_to_emem, nvgpu_falcon_copy_from_emem, is_falcon_valid, hs, h]

/-- Witness for C5 (amended): the simulated falcon without engine-dependent
operations. -/
theorem C5_emem_absent_witness :
    (sim_flcn_plain.is_falcon_supported = true ∧
      sim_flcn_plain.flcn_engine_dep_ops.copy_to_emem.isNone = true ∧
      sim_flcn_plain.flcn_engine_dep_ops.copy_from_emem.isNone = true) ∧
    nvgpu_falcon_copy_to_emem (some sim_flcn_plain) 0 [1, 2, 3, 4] 4 0 sim_world =
      (-EINVAL, sim_world) ∧
    nvgpu_falcon_copy_from_emem (some sim_flcn_plain) 0 [7] 4 0 sim_world =
      (-EINVAL, [7], sim_world) :=
  ⟨by decide,
    (C5_emem_absent sim_flcn_plain sim_world 0 4 0 [1, 2, 3, 4] rfl).1 rfl,
    (C5_emem_absent sim_flcn_plain sim_world 0 4 0 [7] rfl).2 rfl⟩

/-- C6: on a `NULL` instance and on an instance whose supported flag is false, every
entry point returns at once: the status functions return `-EINVAL`, `mailbox_read`
returns 0, the `void` functions return, and in every case the hardware state and the
trace are unchanged (no operation-table entry invoked, no lock taken) and the caller's
buffers and out-parameters keep their values. The two clock-bounded waits return for
every loop bound. -/
theorem C6_invalid_instance_fails_fast {σ : Type} (ops : gops_falcon σ) (os : nvgpu_os σ)
    (flcn : Option (nvgpu_falcon σ)) (w : World σ)
    (h : ∀ f, flcn = some f → f.is_falcon_supported = false) :
    nvgpu_falcon_wait_idle ops flcn w = (-EINVAL, w) ∧
    nvgpu_falcon_mem_scrub_wait ops flcn w = (-EINVAL, w) ∧
    nvgpu_falcon_reset ops flcn w = (-EINVAL, w) ∧
    (∀ timeout fuel, nvgpu_falcon_wait_for_halt ops os flcn timeout fuel w = some (-EINVAL, w)) ∧
    (∀ timeout fuel,
      nvgpu_falcon_clear_halt_intr_status ops os flcn timeout fuel w = some (-EINVAL, w)) ∧
    (∀ dst src size port sec tag,
      nvgpu_falcon_copy_to_imem ops flcn dst src size port sec tag w = (-EINVAL, w)) ∧
    (∀ src dst size port,
      nvgpu_falcon_copy_from_imem ops flcn src dst size port w = (-EINVAL, dst, w)) ∧
    (∀ dst src size port, nvgpu_falcon_copy_to_dmem ops flcn dst src size port w = (-EINVAL, w)) ∧
    (∀ src dst size port,
      nvgpu_falcon_copy_from_dmem ops flcn src dst size port w = (-EINVAL, dst, w)) ∧
    (∀ dst src size port, nvgpu_falcon_copy_to_emem flcn dst src size port w = (-EINVAL, w)) ∧
    (∀ src dst size port,
      nvgpu_falcon_copy_from_emem flcn src dst size port w = (-EINVAL, dst, w)) ∧
    (∀ boot_vector, nvgpu_falcon_bootstrap ops flcn boot_vector w = (-EINVAL, w)) ∧
    (∀ bl_info, nvgpu_falcon_bl_bootstrap ops flcn bl_info w = (-EINVAL, w)) ∧
    (∀ type size, nvgpu_falcon_get_mem_size ops flcn type size w = (-EINVAL, size, w)) ∧
    (∀ count index, nvgpu_falcon_mailbox_read count ops flcn index w = (0, w)) ∧
    (∀ count index data, nvgpu_falcon_mailbox_write count ops flcn index data w = w) ∧
    (∀ enable intr_mask intr_dest,
      nvgpu_falcon_set_irq ops flcn enable intr_mask intr_dest w = w) ∧
    (∀ src size, nvgpu_falcon_print_imem ops flcn src size w = w) ∧
    (∀ src size, nvgpu_falcon_print_dmem ops flcn src size w = w) ∧
    nvgpu_falcon_dump_stats ops flcn w = w ∧
    (∀ sctl cpuctl, nvgpu_falcon_get_ctls ops flcn sctl cpuctl w = ((sctl, cpuctl), w)) := by
  have hv : is_falcon_valid flcn = false := by
    cases flcn with
    | none => rfl
    | some f => exact h f rfl
  refine ⟨?_, ?_, ?_, ?_, ?_, ?_, ?_, ?_, ?_, ?_, ?_, ?_, ?_, ?_, ?_, ?_, ?_, ?_, ?_, ?_, ?_⟩
  · simp [nvgpu_falcon_wait_idle, nvgpu_falcon_wait_idle_timer, hv]
  · simp [nvgpu_falcon_mem_scrub_wait, nvgpu_falcon_mem_scrub_wait_timer, hv]
  · simp [nvgpu_falcon_reset, hv]
  · intro timeout fuel
    simp [nvgpu_falcon_wait_for_halt, hv]
  · intro timeout fuel
    simp [nvgpu_falcon_clear_halt_intr_status, hv]
  · intros
    simp [nvgpu_falcon_copy_to_imem, hv]
  · intros
    simp [nvgpu_falcon_copy_from_imem, hv]
  · intros
    simp [nvgpu_falcon_copy_to_dmem, hv]
  · intros
    simp [nvgpu_falcon_copy_from_dmem, hv]
  · intros
    simp [nvgpu_falcon_copy_to_emem, hv]
  · intros
    simp [nvgpu_falcon_copy_from_emem, hv]
  · intros
    simp [nvgpu_falcon_bootstrap, hv]
  · intros
    simp [nvgpu_falcon_bl_bootstrap, hv]
  · intros
    simp [nvgpu_falcon_get_mem_size, hv]
  · intros
    simp [nvgpu_falcon_mailbox_read, hv]
  · intros
    simp [nvgpu_falcon_mailbox_write, hv]
  · intros
    simp [nvgpu_falcon_set_irq, hv]
  · intros
    simp [nvgpu_falcon_print_imem, hv]
  · intros
    simp [nvgpu_falcon_print_dmem, hv]
  · simp [nvgpu_falcon_dump_stats, hv]
  · intros
    simp [nvgpu_falcon_get_ctls, hv]

/-- Witness for C6: the simulated falcon that was never marked supported, and the
`NULL` instance. -/
theorem C6_invalid_instance_fails_fast_witness :
    (∀ f, some sim_flcn_unsupported = some f → f.is_falcon_supported = false) ∧
    (∀ f, (none : Option (nvgpu_falcon sim_hw)) = some f → f.is_falcon_supported = false) ∧
    nvgpu_falcon_reset (sim_ops 1) (some sim_flcn_unsupported) sim_world = (-EINVAL, sim_world) ∧
    nvgpu_falcon_wait_for_halt (sim_ops 1) sim_os (some sim_flcn_unsupported) 5 0 sim_world =
      some (-EINVAL, sim_world) ∧
    nvgpu_falcon_mailbox_read 2 (sim_ops 1) none 0 sim_world = (0, sim_world) ∧
    nvgpu_falcon_print_dmem (sim_ops 1) none 0 16 sim_world = sim_world :=
  ⟨(fun f hf => by cases hf; rfl), (fun f hf => by cases hf),
    (C6_invalid_instance_fails_fast (sim_ops 1) sim_os (some sim_flcn_unsupported) sim_world
      (fun f hf => by cases hf; rfl)).2.2.1,
    (C6_invalid_instance_fails_fast (sim_ops 1) sim_os (some sim_flcn_unsupported) sim_world
      (fun f hf => by cases hf; rfl)).2.2.2.1 5 0,
    (C6_invalid_instance_fails_fast (sim_ops 1) sim_os none sim_world
      (fun f hf => by cases hf)).2.2.2.2.2.2.2.2.2.2.2.2.2.2.1 2 0,
    (C6_invalid_instance_fails_fast (sim_ops 1) sim_os none sim_world
      (fun f hf => by cases hf)).2.2.2.2.2.2.2.2.2.2.2.2.2.2.2.2.2.2.1 0 16⟩

section registry

variable {σ : Type}

/-- After `nvgpu_falcon_sw_free` the instance the id names is not supported. -/
theorem sw_free_clears_supported (c : falcon_config) (g : gk20a σ) (flcn_id : Nat)
    (s : falcon_slot) (hi : nvgpu_falcon_get_instance c flcn_id = some s) :
    ((nvgpu_falcon_sw_free c g flcn_id).flcn s).is_falcon_supported = false := by
  unfold nvgpu_falcon_sw_free
  simp only [hi]
  by_cases hs : (g.flcn s).is_falcon_supported = true
  · simp only [hs, if_true]
    split <;> simp
  · simp [hs]

end registry

/-- C7: `nvgpu_falcon_sw_free` is idempotent: two consecutive calls leave the same
state (instances and mutex trace) as one. A call on an unknown id or on an instance
whose supported flag is false changes nothing. A call on a supported instance clears
the supported flag, leaves every other field and every other instance as it was, and
destroys the EMEM lock exactly when `emem_supported` is set, then the DMEM and the
IMEM lock. -/
theorem C7_sw_free_idempotent {σ : Type} (c : falcon_config) (g : gk20a σ) (flcn_id : Nat) :
    nvgpu_falcon_sw_free c (nvgpu_falcon_sw_free c g flcn_id) flcn_id =
        nvgpu_falcon_sw_free c g flcn_id ∧
    (nvgpu_falcon_get_instance c flcn_id = none → nvgpu_falcon_sw_free c g flcn_id = g) ∧
    (∀ s, nvgpu_falcon_get_instance c flcn_id = some s →
      (g.flcn s).is_falcon_supported = false → nvgpu_falcon_sw_free c g flcn_id = g) ∧
    (∀ s, nvgpu_falcon_get_instance c flcn_id = some s →
      (g.flcn s).is_falcon_supported = true →
      (nvgpu_falcon_sw_free c g flcn_id).flcn s =
          { g.flcn s with is_falcon_supported := false } ∧
        (∀ s1, s1 ≠ s → (nvgpu_falcon_sw_free c g flcn_id).flcn s1 = g.flcn s1) ∧
        (nvgpu_falcon_sw_free c g flcn_id).trace =
          g.trace ++ (if (g.flcn s).emem_supported then [(s, .mutex_destroy .emem_lock)] else []) ++
            [(s, .mutex_destroy .dmem_lock), (s, .mutex_destroy .imem_lock)]) := by
  have hnone : nvgpu_falcon_get_instance c flcn_id = none → nvgpu_falcon_sw_free c g flcn_id = g := by
    intro hi
    simp [nvgpu_falcon_sw_free, hi]
  have hunsup : ∀ (g0 : gk20a σ) s, nvgpu_falcon_get_instance c flcn_id = some s →
      (g0.flcn s).is_falcon_supported = false → nvgpu_falcon_sw_free c g0 flcn_id = g0 := by
    intro g0 s hi hs
    simp [nvgpu_falcon_sw_free, hi, hs]
  refine ⟨?_, hnone, hunsup g, ?_⟩
  · cases hi : nvgpu_falcon_get_instance c flcn_id with
    | none => simp [nvgpu_falcon_sw_free, hi]
    | some s => exact hunsup _ s hi (sw_free_clears_supported c g flcn_id s hi)
  · intro s hi hs
    unfold nvgpu_falcon_sw_free
    simp only [hi, hs, if_true]
    by_cases he : (g.flcn s).emem_supported = true
    · refine ⟨?_, ?_, ?_⟩
      · simp [he]
      · intro s1 h1
        simp [he, Function.update_noteq h1]
      · simp [he]
    · refine ⟨?_, ?_, ?_⟩
      · simp [he]
      · intro s1 h1
        simp [he, Function.update_noteq h1]
      · simp [he]

/-- Witness for C7: on the simulated device, freeing the PMU falcon (id 0, supported,
with external memory) clears its flag and destroys its three locks; freeing the GPCCS
falcon (id 3, not supported) and an unknown id (5) change nothing. -/
theorem C7_sw_free_idempotent_witness :
    (nvgpu_falcon_get_instance sim_config 0 = some .pmu_flcn ∧
      (sim_g.flcn .pmu_flcn).is_falcon_supported = true ∧
      nvgpu_falcon_get_instance sim_config 3 = some .gpccs_flcn ∧
      (sim_g.flcn .gpccs_flcn).is_falcon_supported = false ∧
      nvgpu_falcon_get_instance sim_config 5 = none) ∧
    (nvgpu_falcon_sw_free sim_config sim_g 0).trace =
      sim_g.trace ++
          (if (sim_g.flcn .pmu_flcn).emem_supported then
            [(falcon_slot.pmu_flcn, Event.mutex_destroy .emem_lock)] else []) ++
        [(.pmu_flcn, .mutex_destroy .dmem_lock), (.pmu_flcn, .mutex_destroy .imem_lock)] ∧
    nvgpu_falcon_sw_free sim_config sim_g 3 = sim_g ∧
    nvgpu_falcon_sw_free sim_config sim_g 5 = sim_g ∧
    nvgpu_falcon_sw_free sim_config (nvgpu_falcon_sw_free sim_config sim_g 0) 0 =
      nvgpu_falcon_sw_free sim_config sim_g 0 :=
  ⟨by decide,
    ((C7_sw_free_idempotent sim_config sim_g 0).2.2.2 .pmu_flcn rfl rfl).2.2,
    (C7_sw_free_idempotent sim_config sim_g 3).2.2.1 .gpccs_flcn rfl rfl,
    (C7_sw_free_idempotent sim_config sim_g 5).2.1 rfl,
    (C7_sw_free_idempotent sim_config sim_g 0).1⟩

/-- C8: on a supported instance, a mailbox index at or above `FALCON_MAILBOX_COUNT`
reaches no hardware operation: the write leaves hardware and trace unchanged and the
read returns 0 with hardware and trace unchanged. An index below the count invokes the
hardware operation exactly once with that very index (and, for a write, that data);
the read returns what the hardware operation returned. -/
theorem C8_mailbox_index_checked {σ : Type} (count : Nat) (ops : gops_falcon σ)
    (flcn : nvgpu_falcon σ) (mailbox_index data : Nat) (w : World σ)
    (hs : flcn.is_falcon_supported = true) :
    (mailbox_index ≥ count →
      nvgpu_falcon_mailbox_write count ops (some flcn) mailbox_index data w = w ∧
        nvgpu_falcon_mailbox_read count ops (some flcn) mailbox_index w = (0, w)) ∧
    (mailbox_index < count →
      nvgpu_falcon_mailbox_write count ops (some flcn) mailbox_index data w =
          { hw := ops.mailbox_write mailbox_index data w.hw,
            trace := w.trace ++ [.mailbox_write mailbox_index data] } ∧
        nvgpu_falcon_mailbox_read count ops (some flcn) mailbox_index w =
          ((ops.mailbox_read mailbox_index w.hw).1,
            { hw := (ops.mailbox_read mailbox_index w.hw).2,
              trace := w.trace ++ [.mailbox_read mailbox_index] })) := by
  constructor
  · intro h
    simp [nvgpu_falcon_mailbox_write, nvgpu_falcon_mailbox_read, is_falcon_valid, hs, h]
  · intro h
    simp [nvgpu_falcon_mailbox_write, nvgpu_falcon_mailbox_read, is_falcon_valid, hs,
      Nat.not_le.mpr h]

/-- Witness for C8: two mailboxes; index 2 is refused without wrapping to mailbox 0,
index 1 reaches mailbox 1. -/
theorem C8_mailbox_index_checked_witness :
    (sim_flcn.is_falcon_supported = true ∧ 2 ≥ 2 ∧ 1 < 2) ∧
    nvgpu_falcon_mailbox_write 2 (sim_ops 1) (some sim_flcn) 2 77 sim_world = sim_world ∧
    nvgpu_falcon_mailbox_read 2 (sim_ops 1) (some sim_flcn) 2 sim_world = (0, sim_world) ∧
    nvgpu_falcon_mailbox_write 2 (sim_ops 1) (some sim_flcn) 1 77 sim_world =
      { hw := (sim_ops 1).mailbox_write 1 77 sim_world.hw,
        trace := sim_world.trace ++ [.mailbox_write 1 77] } :=
  ⟨by decide,
    ((C8_mailbox_index_checked 2 (sim_ops 1) sim_flcn 2 77 sim_world rfl).1 (by decide)).1,
    ((C8_mailbox_index_checked 2 (sim_ops 1) sim_flcn 2 77 sim_world rfl).1 (by decide)).2,
    ((C8_mailbox_index_checked 2 (sim_ops 1) sim_flcn 1 77 sim_world rfl).2 (by decide)).1⟩

section polling

variable {σ : Type}

/-- The retry timer reports expiry exactly when the attempts have reached the
maximum. -/
theorem expired_retry_eq_zero_iff (timeout : nvgpu_timeout_retry) :
    (nvgpu_timeout_expired_retry timeout).1 = 0 ↔ timeout.attempted < timeout.max_attempts := by
  unfold nvgpu_timeout_expired_retry
  split <;> simp [ETIMEDOUT] <;> omega

theorem expired_retry_snd (timeout : nvgpu_timeout_retry)
    (h : timeout.attempted < timeout.max_attempts) :
    (nvgpu_timeout_expired_retry timeout).2 =
      { max_attempts := timeout.max_attempts, attempted := timeout.attempted + 1 } := by
  unfold nvgpu_timeout_expired_retry
  simp [Nat.not_le.mpr h]

/-- The scrub-wait loop adds only scrub polls and delays to the trace. -/
theorem mem_scrub_loop_trace (ops : gops_falcon σ) :
    ∀ (n : Nat) (timeout : nvgpu_timeout_retry) (w : World σ),
      timeout.max_attempts - timeout.attempted = n →
      ∃ q, (mem_scrub_loop ops timeout w).2.2.trace = w.trace ++ q ∧
        ∀ e ∈ q, e = .is_falcon_scrubbing_done ∨ e = .udelay MEM_SCRUBBING_TIMEOUT_DEFAULT := by
  intro n
  induction n with
  | zero =>
    intro timeout w hn
    have hexp : ¬ (nvgpu_timeout_expired_retry timeout).1 = 0 := by
      rw [expired_retry_eq_zero_iff]
      omega
    rw [mem_scrub_loop]
    by_cases hp : (ops.is_falcon_scrubbing_done w.hw).1 = true
    · simp only [hp, if_true]
      exact ⟨[.is_falcon_scrubbing_done], rfl, by simp⟩
    · simp only [hp, hexp, if_false, World.emit]
      exact ⟨[.is_falcon_scrubbing_done, .udelay MEM_SCRUBBING_TIMEOUT_DEFAULT], by simp, by simp⟩
  | succ n ih =>
    intro timeout w hn
    have hlt : timeout.attempted < timeout.max_attempts := by omega
    have hexp : (nvgpu_timeout_expired_retry timeout).1 = 0 :=
      (expired_retry_eq_zero_iff timeout).mpr hlt
    rw [mem_scrub_loop]
    by_cases hp : (ops.is_falcon_scrubbing_done w.hw).1 = true
    · simp only [hp, if_true]
      exact ⟨[.is_falcon_scrubbing_done], rfl, by simp⟩
    · simp only [hp, hexp, Bool.false_eq_true, if_false, if_true, World.emit]
      obtain ⟨q, hq, hall⟩ := ih (nvgpu_timeout_expired_retry timeout).2
        { hw := (ops.is_falcon_scrubbing_done w.hw).2,
          trace := w.trace ++ [.is_falcon_scrubbing_done] ++
            [.udelay MEM_SCRUBBING_TIMEOUT_DEFAULT] }
        (by rw [expired_retry_snd timeout hlt]; simp only; omega)
      refine ⟨[.is_falcon_scrubbing_done, .udelay MEM_SCRUBBING_TIMEOUT_DEFAULT] ++ q, ?_, ?_⟩
      · rw [hq]
        simp
      · intro e he
        rcases List.mem_append.mp he with h | h
        · simpa using h
        · exact hall e h

/-- `nvgpu_falcon_mem_scrub_wait` adds only scrub polls and delays to the trace. -/
theorem mem_scrub_wait_trace (ops : gops_falcon σ) (flcn : Option (nvgpu_falcon σ))
    (w : World σ) :
    ∃ q, (nvgpu_falcon_mem_scrub_wait ops flcn w).2.trace = w.trace ++ q ∧
      ∀ e ∈ q, e = .is_falcon_scrubbing_done ∨ e = .udelay MEM_SCRUBBING_TIMEOUT_DEFAULT := by
  unfold nvgpu_falcon_mem_scrub_wait nvgpu_falcon_mem_scrub_wait_timer
  by_cases hv : is_falcon_valid flcn = true
  · simp only [hv, not_true_eq_false, if_false, nvgpu_timeout_init_retry, ne_eq]
    obtain ⟨q, hq, hall⟩ := mem_scrub_loop_trace ops _
      { max_attempts := MEM_SCRUBBING_TIMEOUT_MAX / MEM_SCRUBBING_TIMEOUT_DEFAULT, attempted := 0 }
      w rfl
    refine ⟨q, ?_, hall⟩
    rw [← hq]
    split_ifs <;> rfl
  · simp only [hv, if_true]
    exact ⟨[], by simp, by simp⟩

end polling

/-- C9: on a supported instance `nvgpu_falcon_reset` performs exactly one reset step,
the engine-dependent `reset_eng` when the instance declares one and the falcon-only
`reset` otherwise, as the first thing it does. If `reset_eng` reports an error, that
error is the result and nothing further is done; otherwise the result is that of the
memory-scrub wait run after the reset step. Hence the result is 0 exactly when the
reset step succeeded and the scrub wait returned 0. -/
theorem C9_reset_one_step_then_scrub {σ : Type} (ops : gops_falcon σ) (flcn : nvgpu_falcon σ)
    (w : World σ) (hs : flcn.is_falcon_supported = true) :
    (∀ reset_eng, flcn.flcn_engine_dep_ops.reset_eng = some reset_eng →
      ((reset_eng w.hw).1 ≠ 0 →
        nvgpu_falcon_reset ops (some flcn) w =
          ((reset_eng w.hw).1, { hw := (reset_eng w.hw).2, trace := w.trace ++ [.reset_eng] })) ∧
      ((reset_eng w.hw).1 = 0 →
        nvgpu_falcon_reset ops (some flcn) w =
          nvgpu_falcon_mem_scrub_wait ops (some flcn)
            { hw := (reset_eng w.hw).2, trace := w.trace ++ [.reset_eng] }) ∧
      ((nvgpu_falcon_reset ops (some flcn) w).1 = 0 ↔
        (reset_eng w.hw).1 = 0 ∧
          (nvgpu_falcon_mem_scrub_wait ops (some flcn)
            { hw := (reset_eng w.hw).2, trace := w.trace ++ [.reset_eng] }).1 = 0)) ∧
    (flcn.flcn_engine_dep_ops.reset_eng = none →
      nvgpu_falcon_reset ops (some flcn) w =
        nvgpu_falcon_mem_scrub_wait ops (some flcn)
          { hw := ops.reset w.hw, trace := w.trace ++ [.reset] }) ∧
    (∃ q, (nvgpu_falcon_reset ops (some flcn) w).2.trace =
        w.trace ++ (if flcn.flcn_engine_dep_ops.reset_eng.isSome then Event.reset_eng
          else Event.reset) :: q ∧
      ∀ e ∈ q, e.is_reset_step = false) := by
  have hno : ∀ (w1 : World σ), ∃ q,
      (nvgpu_falcon_mem_scrub_wait ops (some flcn) w1).2.trace = w1.trace ++ q ∧
        ∀ e ∈ q, e.is_reset_step = false := by
    intro w1
    obtain ⟨q, hq, hall⟩ := mem_scrub_wait_trace ops (some flcn) w1
    refine ⟨q, hq, ?_⟩
    intro e he
    rcases hall e he with h | h <;> simp [h, Event.is_reset_step]
  refine ⟨?_, ?_, ?_⟩
  · intro reset_eng he
    refine ⟨?_, ?_, ?_⟩
    · intro hne
      simp [nvgpu_falcon_reset, is_falcon_valid, hs, he, hne]
    · intro h0
      simp [nvgpu_falcon_reset, is_falcon_valid, hs, he, h0]
    · by_cases h0 : (reset_eng w.hw).1 = 0
      · simp [nvgpu_falcon_reset, is_falcon_valid, hs, he, h0]
      · simp [nvgpu_falcon_reset, is_falcon_valid, hs, he, h0]
  · intro he
    simp [nvgpu_falcon_reset, is_falcon_valid, hs, he]
  · cases he : flcn.flcn_engine_dep_ops.reset_eng with
    | none =>
      obtain ⟨q, hq, hall⟩ := hno { hw := ops.reset w.hw, trace := w.trace ++ [.reset] }
      refine ⟨q, ?_, hall⟩
      simp [nvgpu_falcon_reset, is_falcon_valid, hs, he, hq]
    | some reset_eng =>
      by_cases h0 : (reset_eng w.hw).1 = 0
      · obtain ⟨q, hq, hall⟩ := hno { hw := (reset_eng w.hw).2, trace := w.trace ++ [.reset_eng] }
        refine ⟨q, ?_, hall⟩
        simp [nvgpu_falcon_reset, is_falcon_valid, hs, he, h0, hq]
      · exact ⟨[], by simp [nvgpu_falcon_reset, is_falcon_valid, hs, he, h0], by simp⟩

/-- Witness for C9: the simulated falcon with `reset_eng` (which succeeds) and the one
without. -/
theorem C9_reset_one_step_then_scrub_witness :
    (sim_flcn.is_falcon_supported = true ∧ sim_flcn.flcn_engine_dep_ops.reset_eng.isSome = true ∧
      sim_flcn_plain.is_falcon_supported = true ∧
      sim_flcn_plain.flcn_engine_dep_ops.reset_eng.isNone = true) ∧
    nvgpu_falcon_reset (sim_ops 1) (some sim_flcn) sim_world =
      nvgpu_falcon_mem_scrub_wait (sim_ops 1) (some sim_flcn)
        { hw := { sim_world.hw with resets := 1 }, trace := sim_world.trace ++ [.reset_eng] } ∧
    nvgpu_falcon_reset (sim_ops 1) (some sim_flcn_plain) sim_world =
      nvgpu_falcon_mem_scrub_wait (sim_ops 1) (some sim_flcn_plain)
        { hw := (sim_ops 1).reset sim_world.hw, trace := sim_world.trace ++ [.reset] } :=
  ⟨by decide,
    ((C9_reset_one_step_then_scrub (sim_ops 1) sim_flcn sim_world rfl).1 _ rfl).2.1 rfl,
    (C9_reset_one_step_then_scrub (sim_ops 1) sim_flcn_plain sim_world rfl).2.1 rfl⟩

section polling_success

variable {σ : Type}

theorem poll_trace_count (poll delay : Event) (h : delay ≠ poll) (n : Nat) :
    (poll_trace poll delay n).count poll = n + 1 := by
  induction n with
  | zero => simp [poll_trace]
  | succ n ih =>
    simp only [poll_trace, List.count_cons_self, List.count_cons_of_ne h.symm, ih]

/-- The idle loop leaves with status 0 at the first poll that answers true, provided
the retries left allow that poll to be reached. -/
theorem wait_idle_loop_success (ops : gops_falcon σ) :
    ∀ (j : Nat) (timeout : nvgpu_timeout_retry) (w : World σ),
      timeout.attempted + j ≤ timeout.max_attempts →
      (∀ i, i < j → poll_answer ops.is_falcon_idle i w.hw = false) →
      poll_answer ops.is_falcon_idle j w.hw = true →
      wait_idle_loop ops timeout w =
        (0, { max_attempts := timeout.max_attempts, attempted := timeout.attempted + j },
          { hw := poll_state ops.is_falcon_idle (j + 1) w.hw,
            trace := w.trace ++ poll_trace .is_falcon_idle (.usleep_range 100 200) j }) := by
  intro j
  induction j with
  | zero =>
    intro timeout w _ _ htrue
    have hp : (ops.is_falcon_idle w.hw).1 = true := htrue
    rw [wait_idle_loop]
    simp [hp, poll_state, poll_trace]
  | succ j ih =>
    intro timeout w hle hfalse htrue
    have hp : (ops.is_falcon_idle w.hw).1 = false := hfalse 0 (Nat.succ_pos j)
    have hlt : timeout.attempted < timeout.max_attempts := by omega
    have hexp : (nvgpu_timeout_expired_retry timeout).1 = 0 :=
      (expired_retry_eq_zero_iff timeout).mpr hlt
    rw [wait_idle_loop]
    simp only [hp, hexp, Bool.false_eq_true, if_false, ne_eq, not_true_eq_false, World.emit]
    rw [expired_retry_snd timeout hlt]
    rw [ih { max_attempts := timeout.max_attempts, attempted := timeout.attempted + 1 }
      { hw := (ops.is_falcon_idle w.hw).2,
        trace := w.trace ++ [.is_falcon_idle] ++ [.usleep_range 100 200] }
      (by simp only; omega)
      (fun i hi => hfalse (i + 1) (Nat.succ_lt_succ hi)) htrue]
    simp [poll_state, poll_trace, Nat.add_assoc, Nat.add_comm 1 j]

/-- The scrub loop leaves through `goto exit` at the first poll that answers true,
provided the retries left allow that poll to be reached. -/
theorem mem_scrub_loop_success (ops : gops_falcon σ) :
    ∀ (j : Nat) (timeout : nvgpu_timeout_retry) (w : World σ),
      timeout.attempted + j ≤ timeout.max_attempts →
      (∀ i, i < j → poll_answer ops.is_falcon_scrubbing_done i w.hw = false) →
      poll_answer ops.is_falcon_scrubbing_done j w.hw = true →
      mem_scrub_loop ops timeout w =
        (true, { max_attempts := timeout.max_attempts, attempted := timeout.attempted + j },
          { hw := poll_state ops.is_falcon_scrubbing_done (j + 1) w.hw,
            trace := w.trace ++
              poll_trace .is_falcon_scrubbing_done (.udelay MEM_SCRUBBING_TIMEOUT_DEFAULT) j }) := by
  intro j
  induction j with
  | zero =>
    intro timeout w _ _ htrue
    have hp : (ops.is_falcon_scrubbing_done w.hw).1 = true := htrue
    rw [mem_scrub_loop]
    simp [hp, poll_state, poll_trace]
  | succ j ih =>
    intro timeout w hle hfalse htrue
    have hp : (ops.is_falcon_scrubbing_done w.hw).1 = false := hfalse 0 (Nat.succ_pos j)
    have hlt : timeout.attempted < timeout.max_attempts := by omega
    have hexp : (nvgpu_timeout_expired_retry timeout).1 = 0 :=
      (expired_retry_eq_zero_iff timeout).mpr hlt
    rw [mem_scrub_loop]
    simp only [hp, hexp, Bool.false_eq_true, if_false, if_true, World.emit]
    rw [expired_retry_snd timeout hlt]
    rw [ih { max_attempts := timeout.max_attempts, attempted := timeout.attempted + 1 }
      { hw := (ops.is_falcon_scrubbing_done w.hw).2,
        trace := w.trace ++ [.is_falcon_scrubbing_done] ++
          [.udelay MEM_SCRUBBING_TIMEOUT_DEFAULT] }
      (by simp only; omega)
      (fun i hi => hfalse (i + 1) (Nat.succ_lt_succ hi)) htrue]
    simp [poll_state, poll_trace, Nat.add_assoc, Nat.add_comm 1 j]

end polling_success

/-- C10: on a supported instance, with the timeout a retry counter of the configured
maximum (2000 for `wait_idle`, 100 for `mem_scrub_wait`), let poll number `j + 1` be
the first on which the predicate answers true. If `j + 1` is within the polls the
budget allows (2001, resp. 101), the function returns 0, the trace holds exactly
`j + 1` polls of the predicate (with a delay after each of the first `j`), the
hardware is in the state the last of these polls left, and the timer has counted only
`j` attempts. -/
theorem C10_wait_returns_at_first_true_poll {σ : Type} (ops : gops_falcon σ)
    (flcn : nvgpu_falcon σ) (w : World σ) (j : Nat) (hs : flcn.is_falcon_supported = true) :
    (j + 1 ≤ 2001 →
      (∀ i, i < j → poll_answer ops.is_falcon_idle i w.hw = false) →
      poll_answer ops.is_falcon_idle j w.hw = true →
      nvgpu_falcon_wait_idle_timer ops (some flcn) w =
          (0, some { max_attempts := 2000, attempted := j },
            { hw := poll_state ops.is_falcon_idle (j + 1) w.hw,
              trace := w.trace ++ poll_trace .is_falcon_idle (.usleep_range 100 200) j }) ∧
        nvgpu_falcon_wait_idle ops (some flcn) w =
          (0, { hw := poll_state ops.is_falcon_idle (j + 1) w.hw,
                trace := w.trace ++ poll_trace .is_falcon_idle (.usleep_range 100 200) j }) ∧
        (poll_trace .is_falcon_idle (.usleep_range 100 200) j).count .is_falcon_idle = j + 1) ∧
    (j + 1 ≤ 101 →
      (∀ i, i < j → poll_answer ops.is_falcon_scrubbing_done i w.hw = false) →
      poll_answer ops.is_falcon_scrubbing_done j w.hw = true →
      nvgpu_falcon_mem_scrub_wait_timer ops (some flcn) w =
          (0, some { max_attempts := 100, attempted := j },
            { hw := poll_state ops.is_falcon_scrubbing_done (j + 1) w.hw,
              trace := w.trace ++ poll_trace .is_falcon_scrubbing_done (.udelay 10) j }) ∧
        nvgpu_falcon_mem_scrub_wait ops (some flcn) w =
          (0, { hw := poll_state ops.is_falcon_scrubbing_done (j + 1) w.hw,
                trace := w.trace ++ poll_trace .is_falcon_scrubbing_done (.udelay 10) j }) ∧
        (poll_trace .is_falcon_scrubbing_done (.udelay 10) j).count .is_falcon_scrubbing_done =
          j + 1) := by
  constructor
  · intro hj hfalse htrue
    have hloop := wait_idle_loop_success ops j { max_attempts := 2000, attempted := 0 } w
      (by simp only; omega) hfalse htrue
    have ht : nvgpu_falcon_wait_idle_timer ops (some flcn) w =
        (0, some { max_attempts := 2000, attempted := j },
          { hw := poll_state ops.is_falcon_idle (j + 1) w.hw,
            trace := w.trace ++ poll_trace .is_falcon_idle (.usleep_range 100 200) j }) := by
      simp [nvgpu_falcon_wait_idle_timer, is_falcon_valid, hs, nvgpu_timeout_init_retry, hloop]
    refine ⟨ht, ?_, poll_trace_count _ _ (by decide) j⟩
    simp [nvgpu_falcon_wait_idle, ht]
  · intro hj hfalse htrue
    have hloop := mem_scrub_loop_success ops j { max_attempts := 100, attempted := 0 } w
      (by simp only; omega) hfalse htrue
    have ht : nvgpu_falcon_mem_scrub_wait_timer ops (some flcn) w =
        (0, some { max_attempts := 100, attempted := j },
          { hw := poll_state ops.is_falcon_scrubbing_done (j + 1) w.hw,
            trace := w.trace ++ poll_trace .is_falcon_scrubbing_done (.udelay 10) j }) := by
      have hmax : MEM_SCRUBBING_TIMEOUT_MAX / MEM_SCRUBBING_TIMEOUT_DEFAULT = 100 := by decide
      have hdef : MEM_SCRUBBING_TIMEOUT_DEFAULT = 10 := rfl
      rw [hdef] at hloop
      simp [nvgpu_falcon_mem_scrub_wait_timer, is_falcon_valid, hs, nvgpu_timeout_init_retry, hmax,
        hloop]
    refine ⟨ht, ?_, poll_trace_count _ _ (by decide) j⟩
    simp [nvgpu_falcon_mem_scrub_wait, ht]

/-- Witness for C10: the status predicate of the simulated falcon answers false twice
and true on the third poll; both waits return 0 after exactly three polls with two
retries counted. -/
theorem C10_wait_returns_at_first_true_poll_witness :
    (sim_flcn.is_falcon_supported = true ∧ 2 + 1 ≤ 101 ∧
      (∀ i, i < 2 → poll_answer (sim_ops 1).is_falcon_idle i sim_world.hw = false) ∧
      poll_answer (sim_ops 1).is_falcon_idle 2 sim_world.hw = true) ∧
    nvgpu_falcon_wait_idle_timer (sim_ops 1) (some sim_flcn) sim_world =
      (0, some { max_attempts := 2000, attempted := 2 },
        { hw := { sim_world.hw with busy_polls := 0 },
          trace := [.is_falcon_idle, .usleep_range 100 200, .is_falcon_idle,
            .usleep_range 100 200, .is_falcon_idle] }) ∧
    nvgpu_falcon_mem_scrub_wait_timer (sim_ops 1) (some sim_flcn) sim_world =
      (0, some { max_attempts := 100, attempted := 2 },
        { hw := { sim_world.hw with busy_polls := 0 },
          trace := [.is_falcon_scrubbing_done, .udelay 10, .is_falcon_scrubbing_done,
            .udelay 10, .is_falcon_scrubbing_done] }) :=
  ⟨by decide,
    ((C10_wait_returns_at_first_true_poll (sim_ops 1) sim_flcn sim_world 2 rfl).1 (by decide)
      (by decide) (by decide)).1,
    ((C10_wait_returns_at_first_true_poll (sim_ops 1) sim_flcn sim_world 2 rfl).2 (by decide)
      (by decide) (by decide)).1⟩

section polling_timeout

variable {σ : Type}

theorem expired_retry_snd_of_ge (timeout : nvgpu_timeout_retry)
    (h : timeout.attempted ≥ timeout.max_attempts) :
    (nvgpu_timeout_expired_retry timeout).2 = timeout := by
  unfold nvgpu_timeout_expired_retry
  simp [h]

theorem poll_delay_trace_count (poll delay : Event) (h : delay ≠ poll) (n : Nat) :
    (poll_delay_trace poll delay n).count poll = n := by
  induction n with
  | zero => simp [poll_delay_trace]
  | succ n ih =>
    simp only [poll_delay_trace, List.count_cons_self, List.count_cons_of_ne h.symm, ih]

/-- While every poll answers false, the idle loop uses up the retries that are left
and returns `-ETIMEDOUT` after one poll more than that. -/
theorem wait_idle_loop_timeout (ops : gops_falcon σ) :
    ∀ (n : Nat) (timeout : nvgpu_timeout_retry) (w : World σ),
      timeout.max_attempts - timeout.attempted = n →
      (∀ i, i ≤ n → poll_answer ops.is_falcon_idle i w.hw = false) →
      wait_idle_loop ops timeout w =
        (-ETIMEDOUT,
          { max_attempts := timeout.max_attempts, attempted := timeout.attempted + n },
          { hw := poll_state ops.is_falcon_idle (n + 1) w.hw,
            trace := w.trace ++ poll_trace .is_falcon_idle (.usleep_range 100 200) n }) := by
  intro n
  induction n with
  | zero =>
    intro timeout w hn hfalse
    have hp : (ops.is_falcon_idle w.hw).1 = false := hfalse 0 (Nat.le_refl 0)
    have hge : timeout.attempted ≥ timeout.max_attempts := by omega
    have hexp : ¬ (nvgpu_timeout_expired_retry timeout).1 = 0 := by
      rw [expired_retry_eq_zero_iff]
      omega
    rw [wait_idle_loop]
    simp only [hp, hexp, Bool.false_eq_true, if_false, if_true, ne_eq, not_false_eq_true]
    rw [expired_retry_snd_of_ge timeout hge]
    simp [poll_state, poll_trace]
  | succ n ih =>
    intro timeout w hn hfalse
    have hp : (ops.is_falcon_idle w.hw).1 = false := hfalse 0 (Nat.zero_le _)
    have hlt : timeout.attempted < timeout.max_attempts := by omega
    have hexp : (nvgpu_timeout_expired_retry timeout).1 = 0 :=
      (expired_retry_eq_zero_iff timeout).mpr hlt
    rw [wait_idle_loop]
    simp only [hp, hexp, Bool.false_eq_true, if_false, ne_eq, not_true_eq_false, World.emit]
    rw [expired_retry_snd timeout hlt]
    rw [ih { max_attempts := timeout.max_attempts, attempted := timeout.attempted + 1 }
      { hw := (ops.is_falcon_idle w.hw).2,
        trace := w.trace ++ [.is_falcon_idle] ++ [.usleep_range 100 200] }
      (by simp only; omega)
      (fun i hi => hfalse (i + 1) (Nat.succ_le_succ hi))]
    simp [poll_state, poll_trace, Nat.add_assoc, Nat.add_comm 1 n]

/-- While every poll answers false, the scrub loop uses up the retries that are left
and ends through its `while` condition after one poll more than that. -/
theorem mem_scrub_loop_timeout (ops : gops_falcon σ) :
    ∀ (n : Nat) (timeout : nvgpu_timeout_retry) (w : World σ),
      timeout.max_attempts - timeout.attempted = n →
      (∀ i, i ≤ n → poll_answer ops.is_falcon_scrubbing_done i w.hw = false) →
      mem_scrub_loop ops timeout w =
        (false,
          { max_attempts := timeout.max_attempts, attempted := timeout.attempted + n },
          { hw := poll_state ops.is_falcon_scrubbing_done (n + 1) w.hw,
            trace := w.trace ++
              poll_delay_trace .is_falcon_scrubbing_done (.udelay MEM_SCRUBBING_TIMEOUT_DEFAULT)
                (n + 1) }) := by
  intro n
  induction n with
  | zero =>
    intro timeout w hn hfalse
    have hp : (ops.is_falcon_scrubbing_done w.hw).1 = false := hfalse 0 (Nat.le_refl 0)
    have hge : timeout.attempted ≥ timeout.max_attempts := by omega
    have hexp : ¬ (nvgpu_timeout_expired_retry timeout).1 = 0 := by
      rw [expired_retry_eq_zero_iff]
      omega
    rw [mem_scrub_loop]
    simp only [hp, hexp, Bool.false_eq_true, if_false, World.emit]
    rw [expired_retry_snd_of_ge timeout hge]
    simp [poll_state, poll_delay_trace]
  | succ n ih =>
    intro timeout w hn hfalse
    have hp : (ops.is_falcon_scrubbing_done w.hw).1 = false := hfalse 0 (Nat.zero_le _)
    have hlt : timeout.attempted < timeout.max_attempts := by omega
    have hexp : (nvgpu_timeout_expired_retry timeout).1 = 0 :=
      (expired_retry_eq_zero_iff timeout).mpr hlt
    rw [mem_scrub_loop]
    simp only [hp, hexp, Bool.false_eq_true, if_false, if_true, World.emit]
    rw [expired_retry_snd timeout hlt]
    rw [ih { max_attempts := timeout.max_attempts, attempted := timeout.attempted + 1 }
      { hw := (ops.is_falcon_scrubbing_done w.hw).2,
        trace := w.trace ++ [.is_falcon_scrubbing_done] ++
          [.udelay MEM_SCRUBBING_TIMEOUT_DEFAULT] }
      (by simp only; omega)
      (fun i hi => hfalse (i + 1) (Nat.succ_le_succ hi))]
    simp [poll_state, poll_delay_trace, Nat.add_assoc, Nat.add_comm 1 n]

/-- Whatever the predicate answers, the idle loop ends with status 0 or `-ETIMEDOUT`
after at most one poll more than the retries that are left. -/
theorem wait_idle_loop_bounded (ops : gops_falcon σ) :
    ∀ (n : Nat) (timeout : nvgpu_timeout_retry) (w : World σ),
      timeout.max_attempts - timeout.attempted = n →
      ((wait_idle_loop ops timeout w).1 = 0 ∨ (wait_idle_loop ops timeout w).1 = -ETIMEDOUT) ∧
        ∃ q, (wait_idle_loop ops timeout w).2.2.trace = w.trace ++ q ∧
          q.count .is_falcon_idle ≤ n + 1 := by
  intro n
  induction n with
  | zero =>
    intro timeout w hn
    have hexp : ¬ (nvgpu_timeout_expired_retry timeout).1 = 0 := by
      rw [expired_retry_eq_zero_iff]
      omega
    rw [wait_idle_loop]
    by_cases hp : (ops.is_falcon_idle w.hw).1 = true
    · simp only [hp, if_true]
      exact ⟨by simp, [.is_falcon_idle], rfl, by simp⟩
    · simp only [hp, hexp, Bool.false_eq_true, if_false, if_true, ne_eq, not_false_eq_true]
      exact ⟨by simp, [.is_falcon_idle], rfl, by simp⟩
  | succ n ih =>
    intro timeout w hn
    have hlt : timeout.attempted < timeout.max_attempts := by omega
    have hexp : (nvgpu_timeout_expired_retry timeout).1 = 0 :=
      (expired_retry_eq_zero_iff timeout).mpr hlt
    rw [wait_idle_loop]
    by_cases hp : (ops.is_falcon_idle w.hw).1 = true
    · simp only [hp, if_true]
      exact ⟨by simp, [.is_falcon_idle], rfl, by simp⟩
    · simp only [hp, hexp, Bool.false_eq_true, if_false, ne_eq, not_true_eq_false, World.emit]
      obtain ⟨hst, q, hq, hc⟩ := ih (nvgpu_timeout_expired_retry timeout).2
        { hw := (ops.is_falcon_idle w.hw).2,
          trace := w.trace ++ [.is_falcon_idle] ++ [.usleep_range 100 200] }
        (by rw [expired_retry_snd timeout hlt]; simp only; omega)
      refine ⟨hst, [.is_falcon_idle, .usleep_range 100 200] ++ q, ?_, ?_⟩
      · rw [hq]
        simp
      · simp only [List.cons_append, List.nil_append, List.count_cons_self]
        rw [List.count_cons_of_ne (by decide)]
        omega

/-- Whatever the predicate answers, the scrub loop ends after at most one poll more
than the retries that are left; when it ends through its `while` condition the timer
has expired. -/
theorem mem_scrub_loop_bounded (ops : gops_falcon σ) :
    ∀ (n : Nat) (timeout : nvgpu_timeout_retry) (w : World σ),
      timeout.max_attempts - timeout.attempted = n →
      ((mem_scrub_loop ops timeout w).1 = false →
        nvgpu_timeout_peek_expired_retry (mem_scrub_loop ops timeout w).2.1 = true) ∧
        ∃ q, (mem_scrub_loop ops timeout w).2.2.trace = w.trace ++ q ∧
          q.count .is_falcon_scrubbing_done ≤ n + 1 := by
  intro n
  induction n with
  | zero =>
    intro timeout w hn
    have hge : timeout.attempted ≥ timeout.max_attempts := by omega
    have hexp : ¬ (nvgpu_timeout_expired_retry timeout).1 = 0 := by
      rw [expired_retry_eq_zero_iff]
      omega
    rw [mem_scrub_loop]
    by_cases hp : (ops.is_falcon_scrubbing_done w.hw).1 = true
    · simp only [hp, if_true]
      exact ⟨by simp, [.is_falcon_scrubbing_done], rfl, by simp⟩
    · simp only [hp, hexp, Bool.false_eq_true, if_false, World.emit]
      rw [expired_retry_snd_of_ge timeout hge]
      refine ⟨fun _ => by simpa [nvgpu_timeout_peek_expired_retry] using hge,
        [.is_falcon_scrubbing_done, .udelay MEM_SCRUBBING_TIMEOUT_DEFAULT], by simp, ?_⟩
      simp [List.count_cons]
  | succ n ih =>
    intro timeout w hn
    have hlt : timeout.attempted < timeout.max_attempts := by omega
    have hexp : (nvgpu_timeout_expired_retry timeout).1 = 0 :=
      (expired_retry_eq_zero_iff timeout).mpr hlt
    rw [mem_scrub_loop]
    by_cases hp : (ops.is_falcon_scrubbing_done w.hw).1 = true
    · simp only [hp, if_true]
      exact ⟨by simp, [.is_falcon_scrubbing_done], rfl, by simp⟩
    · simp only [hp, hexp, Bool.false_eq_true, if_false, if_true, World.emit]
      obtain ⟨hst, q, hq, hc⟩ := ih (nvgpu_timeout_expired_retry timeout).2
        { hw := (ops.is_falcon_scrubbing_done w.hw).2,
          trace := w.trace ++ [.is_falcon_scrubbing_done] ++
            [.udelay MEM_SCRUBBING_TIMEOUT_DEFAULT] }
        (by rw [expired_retry_snd timeout hlt]; simp only; omega)
      refine ⟨hst, [.is_falcon_scrubbing_done, .udelay MEM_SCRUBBING_TIMEOUT_DEFAULT] ++ q,
        ?_, ?_⟩
      · rw [hq]
        simp
      · simp only [List.cons_append, List.nil_append, List.count_cons_self]
        rw [List.count_cons_of_ne (by decide)]
        omega

theorem poll_answer_stuck (p : σ → Bool × σ) (h : ∀ s, p s = (false, s)) (i : Nat) (s : σ) :
    poll_answer p i s = false := by
  unfold poll_answer
  rw [h]

end polling_timeout

/-- C11: on a supported instance, with the timeout a retry counter, if the predicate
answers false on every poll the budget allows, `nvgpu_falcon_wait_idle` returns
`-ETIMEDOUT` after exactly 2000 + 1 polls and `nvgpu_falcon_mem_scrub_wait` returns
`-ETIMEDOUT` after exactly `MEM_SCRUBBING_TIMEOUT_MAX / MEM_SCRUBBING_TIMEOUT_DEFAULT + 1`
= 101 polls. Whatever the predicate answers, either function ends with status 0 or
`-ETIMEDOUT` after at most that many polls; `-ETIMEDOUT` is not 0. -/
theorem C11_wait_times_out_after_bounded_polls {σ : Type} (ops : gops_falcon σ)
    (flcn : nvgpu_falcon σ) (w : World σ) (hs : flcn.is_falcon_supported = true) :
    ((∀ i, i ≤ 2000 → poll_answer ops.is_falcon_idle i w.hw = false) →
      nvgpu_falcon_wait_idle ops (some flcn) w =
          (-ETIMEDOUT,
            { hw := poll_state ops.is_falcon_idle 2001 w.hw,
              trace := w.trace ++ poll_trace .is_falcon_idle (.usleep_range 100 200) 2000 }) ∧
        (poll_trace .is_falcon_idle (.usleep_range 100 200) 2000).count .is_falcon_idle = 2001) ∧
    ((∀ i, i ≤ 100 → poll_answer ops.is_falcon_scrubbing_done i w.hw = false) →
      nvgpu_falcon_mem_scrub_wait ops (some flcn) w =
          (-ETIMEDOUT,
            { hw := poll_state ops.is_falcon_scrubbing_done 101 w.hw,
              trace := w.trace ++ poll_delay_trace .is_falcon_scrubbing_done (.udelay 10) 101 }) ∧
        (poll_delay_trace .is_falcon_scrubbing_done (.udelay 10) 101).count
          .is_falcon_scrubbing_done = 101) ∧
    (((nvgpu_falcon_wait_idle ops (some flcn) w).1 = 0 ∨
        (nvgpu_falcon_wait_idle ops (some flcn) w).1 = -ETIMEDOUT) ∧
      ∃ q, (nvgpu_falcon_wait_idle ops (some flcn) w).2.trace = w.trace ++ q ∧
        q.count .is_falcon_idle ≤ 2000 + 1) ∧
    (((nvgpu_falcon_mem_scrub_wait ops (some flcn) w).1 = 0 ∨
        (nvgpu_falcon_mem_scrub_wait ops (some flcn) w).1 = -ETIMEDOUT) ∧
      ∃ q, (nvgpu_falcon_mem_scrub_wait ops (some flcn) w).2.trace = w.trace ++ q ∧
        q.count .is_falcon_scrubbing_done ≤
          MEM_SCRUBBING_TIMEOUT_MAX / MEM_SCRUBBING_TIMEOUT_DEFAULT + 1) ∧
    MEM_SCRUBBING_TIMEOUT_MAX / MEM_SCRUBBING_TIMEOUT_DEFAULT + 1 = 101 ∧
    -ETIMEDOUT ≠ 0 := by
  have hmax : MEM_SCRUBBING_TIMEOUT_MAX / MEM_SCRUBBING_TIMEOUT_DEFAULT = 100 := by decide
  have hdef : MEM_SCRUBBING_TIMEOUT_DEFAULT = 10 := rfl
  refine ⟨?_, ?_, ?_, ?_, by decide, by decide⟩
  · intro hfalse
    have hloop := wait_idle_loop_timeout ops 2000 { max_attempts := 2000, attempted := 0 } w rfl
      hfalse
    refine ⟨?_, poll_trace_count _ _ (by decide) 2000⟩
    simp [nvgpu_falcon_wait_idle, nvgpu_falcon_wait_idle_timer, is_falcon_valid, hs,
      nvgpu_timeout_init_retry, hloop]
  · intro hfalse
    have hloop := mem_scrub_loop_timeout ops 100 { max_attempts := 100, attempted := 0 } w rfl
      hfalse
    rw [hdef] at hloop
    refine ⟨?_, poll_delay_trace_count _ _ (by decide) 101⟩
    simp [nvgpu_falcon_mem_scrub_wait, nvgpu_falcon_mem_scrub_wait_timer, is_falcon_valid, hs,
      nvgpu_timeout_init_retry, hmax, hloop, nvgpu_timeout_peek_expired_retry]
  · obtain ⟨hst, q, hq, hc⟩ :=
      wait_idle_loop_bounded ops 2000 { max_attempts := 2000, attempted := 0 } w rfl
    have hr : nvgpu_falcon_wait_idle ops (some flcn) w =
        ((wait_idle_loop ops { max_attempts := 2000, attempted := 0 } w).1,
          (wait_idle_loop ops { max_attempts := 2000, attempted := 0 } w).2.2) := by
      simp [nvgpu_falcon_wait_idle, nvgpu_falcon_wait_idle_timer, is_falcon_valid, hs,
        nvgpu_timeout_init_retry]
    rw [hr]
    exact ⟨hst, q, hq, hc⟩
  · obtain ⟨hpeek, q, hq, hc⟩ :=
      mem_scrub_loop_bounded ops 100 { max_attempts := 100, attempted := 0 } w rfl
    rw [hmax]
    unfold nvgpu_falcon_mem_scrub_wait nvgpu_falcon_mem_scrub_wait_timer
    simp only [is_falcon_valid, hs, nvgpu_timeout_init_retry, hmax, not_true_eq_false, if_false,
      ne_eq]
    by_cases hb : (mem_scrub_loop ops { max_attempts := 100, attempted := 0 } w).1 = true
    · simp only [hb, if_true]
      exact ⟨Or.inl trivial, q, hq, hc⟩
    · have hb2 : (mem_scrub_loop ops { max_attempts := 100, attempted := 0 } w).1 = false := by
        simpa using hb
      simp only [hb2, hpeek hb2, Bool.false_eq_true, if_false, if_true]
      exact ⟨Or.inr trivial, q, hq, hc⟩

/-- Witness for C11: the simulated falcon whose predicates never turn true. -/
theorem C11_wait_times_out_after_bounded_polls_witness :
    sim_flcn.is_falcon_supported = true ∧
    nvgpu_falcon_wait_idle sim_ops_stuck (some sim_flcn) sim_world =
      (-ETIMEDOUT,
        { hw := poll_state sim_ops_stuck.is_falcon_idle 2001 sim_world.hw,
          trace := sim_world.trace ++ poll_trace .is_falcon_idle (.usleep_range 100 200) 2000 }) ∧
    nvgpu_falcon_mem_scrub_wait sim_ops_stuck (some sim_flcn) sim_world =
      (-ETIMEDOUT,
        { hw := poll_state sim_ops_stuck.is_falcon_scrubbing_done 101 sim_world.hw,
          trace := sim_world.trace ++
            poll_delay_trace .is_falcon_scrubbing_done (.udelay 10) 101 }) :=
  ⟨rfl,
    ((C11_wait_times_out_after_bounded_polls sim_ops_stuck sim_flcn sim_world rfl).1
      (fun i _ => poll_answer_stuck _ (fun _ => rfl) i _)).1,
    ((C11_wait_times_out_after_bounded_polls sim_ops_stuck sim_flcn sim_world rfl).2.1
      (fun i _ => poll_answer_stuck _ (fun _ => rfl) i _)).1⟩

/-- C12 (code defect): on the simulated falcon the very first poll of the predicate
answers true, yet with a caller timeout of 0 and a clock that advances between the
timer's initialisation and the check made after the loop, `nvgpu_falcon_wait_for_halt`
and `nvgpu_falcon_clear_halt_intr_status` return `-ETIMEDOUT`, for every loop bound
that allows at least one poll. -/
theorem C12_true_poll_yet_timed_out :
    ((sim_ops 1).is_falcon_cpu_halted sim_world_halted.hw).1 = true ∧
    ((sim_ops 1).clear_halt_interrupt_status sim_world_halted.hw).1 = true ∧
    (∀ fuel, nvgpu_falcon_wait_for_halt (sim_ops 1) sim_os (some sim_flcn) 0 (fuel + 1)
        sim_world_halted =
      some (-ETIMEDOUT,
        { hw := { sim_world_halted.hw with clock := 2000 },
          trace := [.is_falcon_cpu_halted] })) ∧
    (∀ fuel, nvgpu_falcon_clear_halt_intr_status (sim_ops 1) sim_os (some sim_flcn) 0 (fuel + 1)
        sim_world_halted =
      some (-ETIMEDOUT,
        { hw := { sim_world_halted.hw with clock := 2000 },
          trace := [.clear_halt_interrupt_status] })) := by
  refine ⟨by decide, by decide, ?_, ?_⟩
  · intro fuel
    rfl
  · intro fuel
    rfl

section segment_layout

/-- Clearing the low `k` bits of a 32-bit value with the mask `~(2^k - 1)` rounds it
down to a multiple of `2^k`. -/
theorem and_not_mask_eq (y k : Nat) (hk : k ≤ 32) (hy : y < 4294967296) :
    y &&& (4294967295 - (2 ^ k - 1)) = y / 2 ^ k * 2 ^ k := by
  have hpos : 0 < 2 ^ k := Nat.two_pow_pos k
  have hle : 2 ^ k ≤ 2 ^ 32 := Nat.pow_le_pow_right (by decide) hk
  have h32 : (2 : Nat) ^ 32 = 4294967296 := by norm_num
  have hm : 4294967295 - (2 ^ k - 1) = 2 ^ 32 - ((2 ^ k - 1) + 1) := by omega
  apply Nat.eq_of_testBit_eq
  intro i
  rw [hm, Nat.testBit_and, Nat.testBit_two_pow_sub_succ (by omega), Nat.testBit_two_pow_sub_one,
    ← Nat.shiftRight_eq_div_pow, ← Nat.shiftLeft_eq, Nat.testBit_shiftLeft,
    Nat.testBit_shiftRight]
  by_cases hik : i < k
  · simp [hik, Nat.not_le.mpr hik]
  · have hki : k + (i - k) = i := by omega
    rw [hki]
    by_cases hi : i < 32
    · simp [hik, hi, Nat.not_lt.mp hik]
    · have hyi : y < 2 ^ i :=
        lt_of_lt_of_le (h32 ▸ hy) (Nat.pow_le_pow_right (by decide) (by omega))
      simp [Nat.testBit_lt_two_pow hyi]

/-- Where the addition does not wrap, `ALIGN(x, 256)` is `x` rounded up to a multiple
of 256. -/
theorem ALIGN_256_eq_round_up (x : Nat) (h : x + 255 < 4294967296) :
    ALIGN x 256 = round_up x 256 := by
  unfold ALIGN round_up u32
  rw [Nat.mod_eq_of_lt h]
  exact and_not_mask_eq (x + 255) 8 (by decide) h

/-- Where the addition does not wrap, `ALIGN(x, 4)` is `x` rounded up to a multiple
of 4. -/
theorem ALIGN_4_eq_round_up (x : Nat) (h : x + 3 < 4294967296) :
    ALIGN x 4 = round_up x 4 := by
  unfold ALIGN round_up u32
  rw [Nat.mod_eq_of_lt h]
  exact and_not_mask_eq (x + 3) 2 (by decide) h

/-- `round_up x a` is the least multiple of `a` that is not below `x`. -/
theorem round_up_spec (x a : Nat) (ha : 0 < a) :
    x ≤ round_up x a ∧ round_up x a < x + a ∧ round_up x a % a = 0 := by
  unfold round_up
  have h1 := Nat.div_add_mod (x + (a - 1)) a
  have h2 := Nat.mod_lt (x + (a - 1)) ha
  have h3 : (x + (a - 1)) / a * a = a * ((x + (a - 1)) / a) := Nat.mul_comm _ _
  refine ⟨by omega, by omega, Nat.mul_mod_left _ _⟩

theorem init_segment_of_no_wrap (offset size : Nat) (h : offset + size + 255 < 4294967296) :
    nvgpu_gr_falcon_init_ctxsw_ucode_segment offset size =
      some ({ offset := offset, size := size }, round_up (offset + size) 256) := by
  unfold nvgpu_gr_falcon_init_ctxsw_ucode_segment nvgpu_safe_add_u32
  have h1 : offset + size < 4294967296 := by omega
  simp only [h1, if_true]
  rw [ALIGN_256_eq_round_up _ h]

/-- Where no sum wraps, the segments the code lays out are those of the spec. -/
theorem init_segments_eq_spec (segments : nvgpu_ctxsw_ucode_segments) (offset : Nat)
    (bootdesc : nvgpu_ctxsw_bootloader_desc) (code_size data_size : Nat)
    (h : (spec_segment_layout offset bootdesc code_size data_size).2.2.1.offset +
      (spec_segment_layout offset bootdesc code_size data_size).2.2.1.size + 255 < 4294967296) :
    nvgpu_gr_falcon_init_ctxsw_ucode_segments segments offset bootdesc code_size data_size =
      some
        ({ boot_entry := bootdesc.entry_point
           boot_imem_offset := bootdesc.imem_offset
           boot_signature := segments.boot_signature
           boot := (spec_segment_layout offset bootdesc code_size data_size).1
           code := (spec_segment_layout offset bootdesc code_size data_size).2.1
           data := (spec_segment_layout offset bootdesc code_size data_size).2.2.1 },
          (spec_segment_layout offset bootdesc code_size data_size).2.2.2) := by
  simp only [spec_segment_layout] at h ⊢
  have hb := round_up_spec bootdesc.size 4 (by decide)
  have hc := round_up_spec (offset + round_up bootdesc.size 4) 256 (by decide)
  have hd := round_up_spec (round_up (offset + round_up bootdesc.size 4) 256 + code_size) 256
    (by decide)
  unfold nvgpu_gr_falcon_init_ctxsw_ucode_segments
  rw [ALIGN_4_eq_round_up _ (by omega)]
  simp only
  rw [init_segment_of_no_wrap _ _ (by omega)]
  simp only
  rw [init_segment_of_no_wrap _ _ (by omega)]
  simp only
  rw [init_segment_of_no_wrap _ _ h]

end segment_layout

/-- C13: where no sum wraps in 32 bits (the last one, data offset + data size + 255,
bounds all the others), `nvgpu_gr_falcon_init_ctxsw_ucode_segments` started at running
offset `offset` returns the layout of the spec: boot at `offset` with the descriptor
size rounded up to 4, code and data at the previous end rounded up to 256 with the
given sizes, the running offset left at the data end rounded up to 256, `boot_entry`
and `boot_imem_offset` copied from the descriptor. The boot size is a multiple of 4,
the code and data offsets and the final running offset are multiples of 256; the boot
offset is the starting offset itself, 0 for FECS. -/
theorem C13_segments_layout (segments : nvgpu_ctxsw_ucode_segments) (offset : Nat)
    (bootdesc : nvgpu_ctxsw_bootloader_desc) (code_size data_size : Nat)
    (h : (spec_segment_layout offset bootdesc code_size data_size).2.2.1.offset +
      (spec_segment_layout offset bootdesc code_size data_size).2.2.1.size + 255 < 4294967296) :
    nvgpu_gr_falcon_init_ctxsw_ucode_segments segments offset bootdesc code_size data_size =
        some
          ({ boot_entry := bootdesc.entry_point
             boot_imem_offset := bootdesc.imem_offset
             boot_signature := segments.boot_signature
             boot := { offset := offset, size := round_up bootdesc.size 4 }
             code :=
               { offset := round_up (offset + round_up bootdesc.size 4) 256, size := code_size }
             data :=
               { offset :=
                   round_up (round_up (offset + round_up bootdesc.size 4) 256 + code_size) 256
                 size := data_size } },
            round_up
              (round_up (round_up (offset + round_up bootdesc.size 4) 256 + code_size) 256 +
                data_size) 256) ∧
      round_up bootdesc.size 4 % 4 = 0 ∧
      round_up (offset + round_up bootdesc.size 4) 256 % 256 = 0 ∧
      round_up (round_up (offset + round_up bootdesc.size 4) 256 + code_size) 256 % 256 = 0 ∧
      round_up
          (round_up (round_up (offset + round_up bootdesc.size 4) 256 + code_size) 256 +
            data_size) 256 % 256 = 0 := by
  refine ⟨?_, (round_up_spec _ 4 (by decide)).2.2, (round_up_spec _ 256 (by decide)).2.2,
    (round_up_spec _ 256 (by decide)).2.2, (round_up_spec _ 256 (by decide)).2.2⟩
  exact init_segments_eq_spec segments offset bootdesc code_size data_size h

/-- Witness for C13: FECS laid out from offset 0 with a 10-byte bootloader, 1024 bytes
of code and 300 bytes of data: boot {0, 12}, code {256, 1024}, data {1280, 300},
running offset 1792. -/
theorem C13_segments_layout_witness :
    (spec_segment_layout 0 { size := 10, imem_offset := 5, entry_point := 7 } 1024 300).2.2.1.offset +
        (spec_segment_layout 0 { size := 10, imem_offset := 5, entry_point := 7 } 1024
          300).2.2.1.size + 255 < 4294967296 ∧
    nvgpu_gr_falcon_init_ctxsw_ucode_segments zero_segments 0
        { size := 10, imem_offset := 5, entry_point := 7 } 1024 300 =
      some
        ({ boot_entry := 7, boot_imem_offset := 5, boot_signature := zero_segments.boot_signature,
           boot := { offset := 0, size := round_up 10 4 },
           code := { offset := round_up (0 + round_up 10 4) 256, size := 1024 },
           data :=
             { offset := round_up (round_up (0 + round_up 10 4) 256 + 1024) 256, size := 300 } },
          round_up (round_up (round_up (0 + round_up 10 4) 256 + 1024) 256 + 300) 256) ∧
    round_up 10 4 = 12 ∧ round_up (0 + round_up 10 4) 256 = 256 ∧
    round_up (round_up (round_up (0 + round_up 10 4) 256 + 1024) 256 + 300) 256 = 1792 :=
  ⟨by decide,
    (C13_segments_layout zero_segments 0 { size := 10, imem_offset := 5, entry_point := 7 } 1024
      300 (by decide)).1,
    by decide, by decide, by decide⟩

section layout_chain

/-- Where no sum wraps, the three segments of one engine follow one another without
overlap and end at or before the new running offset. -/
theorem init_segments_chain_of_no_wrap (segments : nvgpu_ctxsw_ucode_segments) (offset : Nat)
    (bootdesc : nvgpu_ctxsw_bootloader_desc) (code_size data_size : Nat)
    (r : nvgpu_ctxsw_ucode_segments × Nat)
    (h : (spec_segment_layout offset bootdesc code_size data_size).2.2.1.offset +
      (spec_segment_layout offset bootdesc code_size data_size).2.2.1.size + 255 < 4294967296)
    (hr : nvgpu_gr_falcon_init_ctxsw_ucode_segments segments offset bootdesc code_size
      data_size = some r) :
    r.1.boot.offset = offset ∧ r.1.boot.offset + r.1.boot.size ≤ r.1.code.offset ∧
      r.1.code.offset + r.1.code.size ≤ r.1.data.offset ∧
      r.1.data.offset + r.1.data.size ≤ r.2 := by
  rw [init_segments_eq_spec segments offset bootdesc code_size data_size h] at hr
  cases hr
  simp only [spec_segment_layout]
  exact ⟨trivial, (round_up_spec _ 256 (by decide)).1, (round_up_spec _ 256 (by decide)).1,
    (round_up_spec _ 256 (by decide)).1⟩

end layout_chain

/-- C14 (code defect): with a FECS code image of 0x3FFFFFC1 words (0xFFFFFF04 bytes),
no overflow-checked operation traps, yet `ALIGN` wraps the running offset to 0: the
FECS code segment {0, 0xFFFFFF04} overlaps the FECS data segment at offset 0 and the
GPCCS segments at 256, 512 and 768, and it ends far beyond the final `ucode_size` of
1024 used to allocate the surface. -/
theorem C14_layout_wraps_and_overlaps :
    nvgpu_safe_mult_u32 huge_netlist.fecs_inst_count 4 = some 4294967044 ∧
    ∃ info ucode_size,
      nvgpu_gr_falcon_init_ctxsw_ucode_layout huge_netlist
          { size := 0, imem_offset := 0, entry_point := 0 }
          { size := 8, imem_offset := 0, entry_point := 0 } zero_ucode_info =
        some (info, ucode_size) ∧
      info.fecs.code = { offset := 0, size := 4294967044 } ∧
      info.fecs.data = { offset := 0, size := 4 } ∧
      info.gpccs.boot = { offset := 256, size := 8 } ∧
      info.gpccs.code = { offset := 512, size := 4 } ∧
      info.gpccs.data = { offset := 768, size := 4 } ∧
      ucode_size = 1024 ∧
      ¬ (info.fecs.code.offset + info.fecs.code.size ≤ info.fecs.data.offset) ∧
      ¬ (info.fecs.code.offset + info.fecs.code.size ≤ info.gpccs.boot.offset) ∧
      ¬ (info.fecs.code.offset + info.fecs.code.size ≤ ucode_size) := by
  refine ⟨by decide, _, _, rfl, ?_⟩
  decide

section boot_signature

/-- The signature loop is the left fold of the checksum over the words it reads. -/
theorem boot_signature_loop_eq_foldl (checksum : Nat → Nat → Nat) (bootimage : List Nat) :
    ∀ (r i sig : Nat), i + r ≤ bootimage.length →
      boot_signature_loop checksum bootimage r i sig =
        ((bootimage.drop i).take r).foldl checksum sig := by
  intro r
  induction r with
  | zero =>
    intro i sig _
    simp [boot_signature_loop]
  | succ r ih =>
    intro i sig h
    have hi : i < bootimage.length := by omega
    rw [boot_signature_loop, ih (i + 1) _ (by omega), List.drop_eq_getElem_cons hi,
      List.take_succ_cons, List.foldl_cons, List.getD_eq_getElem _ _ hi]

end boot_signature

/-- C15: `nvgpu_gr_falcon_copy_ctxsw_ucode_segments` returns 0 and changes `*segments`
only in `boot_signature`, which becomes the left fold of `nvgpu_gr_checksum_u32`,
started at 0, over the first `boot.size / 4` words of the bootloader image in order
(the image holding at least that many words). The signature is a function of the
checksum, the bootloader words and the boot size alone: another run with the same
image and boot size but other code, data, surface, segment offsets and device state
yields the same signature. -/
theorem C15_boot_signature_is_fold {σ : Type} (env : gr_env σ) (g : gr_gk20a σ) (dst : nvgpu_mem)
    (segments : nvgpu_ctxsw_ucode_segments) (bootimage code data : List Nat)
    (h : segments.boot.size / 4 ≤ bootimage.length) :
    (nvgpu_gr_falcon_copy_ctxsw_ucode_segments env g dst segments bootimage code data).1 = 0 ∧
    (nvgpu_gr_falcon_copy_ctxsw_ucode_segments env g dst segments bootimage code data).2.1 =
      { segments with
        boot_signature :=
          (bootimage.take (segments.boot.size / 4)).foldl env.nvgpu_gr_checksum_u32 0 } ∧
    (∀ (g1 : gr_gk20a σ) (dst1 : nvgpu_mem) (segments1 : nvgpu_ctxsw_ucode_segments)
        (code1 data1 : List Nat), segments1.boot.size = segments.boot.size →
      (nvgpu_gr_falcon_copy_ctxsw_ucode_segments env g1 dst1 segments1 bootimage code1
          data1).2.1.boot_signature =
        (nvgpu_gr_falcon_copy_ctxsw_ucode_segments env g dst segments bootimage code
          data).2.1.boot_signature) := by
  refine ⟨rfl, ?_, ?_⟩
  · unfold nvgpu_gr_falcon_copy_ctxsw_ucode_segments
    simp only
    rw [boot_signature_loop_eq_foldl _ _ _ _ _ (by omega)]
    simp
  · intro g1 dst1 segments1 code1 data1 hsz
    unfold nvgpu_gr_falcon_copy_ctxsw_ucode_segments
    simp only [hsz]

/-- Witness for C15: a 12-byte boot segment over the image 1, 2, 3, 4 with the 32-bit
sum as the checksum gives the signature 1 + 2 + 3 = 6, whatever the code and data. -/
theorem C15_boot_signature_is_fold_witness :
    12 / 4 ≤ [1, 2, 3, 4].length ∧
    (nvgpu_gr_falcon_copy_ctxsw_ucode_segments (gr_sim_env 0 0 0 0) gr_sim_g
        { gpu_va := 0, size := 4096, aperture := 0 }
        { zero_segments with boot := { offset := 0, size := 12 } } [1, 2, 3, 4] [11, 12]
        [13]).2.1 =
      { zero_segments with
        boot := { offset := 0, size := 12 }
        boot_signature :=
          ([1, 2, 3, 4].take (12 / 4)).foldl (gr_sim_env 0 0 0 0).nvgpu_gr_checksum_u32 0 } ∧
    ([1, 2, 3, 4].take (12 / 4)).foldl (gr_sim_env 0 0 0 0).nvgpu_gr_checksum_u32 0 = 6 :=
  ⟨by decide,
    (C15_boot_signature_is_fold (gr_sim_env 0 0 0 0) gr_sim_g
      { gpu_va := 0, size := 4096, aperture := 0 }
      { zero_segments with boot := { offset := 0, size := 12 } } [1, 2, 3, 4] [11, 12] [13]
      (by decide)).2.1,
    by decide⟩

/-- C16: when `NVGPU_GR_USE_DMA_FOR_FW_BOOTSTRAP` is not enabled,
`nvgpu_gr_falcon_load_ctxsw_ucode` returns 0 for every netlist, leaves `*falcon`
(segments, surface, `skip_ucode_init`) untouched, and makes exactly these calls, in
this order: the data-memory load of GPCCS, then of FECS, the instruction-memory load
of GPCCS, then of FECS, each with the netlist's word list and word count of that
engine, and one `start_ucode`. (A simulator build on the functional model calls
`configure_fmodel` before them.) -/
theorem C16_legacy_load_sequence {σ : Type} (c : gr_config) (env : gr_env σ) (g : gr_gk20a σ)
    (falcon : nvgpu_gr_falcon) (h : g.NVGPU_GR_USE_DMA_FOR_FW_BOOTSTRAP = false) :
    ∃ g1, nvgpu_gr_falcon_load_ctxsw_ucode c env g falcon = some (0, g1, falcon) ∧
      g1.trace =
        g.trace ++
            (if c.CONFIG_NVGPU_SIM ∧ g.NVGPU_IS_FMODEL then [GrEvent.configure_fmodel]
              else []) ++
          [.load_gpccs_dmem g.netlist.gpccs_data_list g.netlist.gpccs_data_count,
            .load_fecs_dmem g.netlist.fecs_data_list g.netlist.fecs_data_count,
            .load_gpccs_imem g.netlist.gpccs_inst_list g.netlist.gpccs_inst_count,
            .load_fecs_imem g.netlist.fecs_inst_list g.netlist.fecs_inst_count,
            .start_ucode] := by
  unfold nvgpu_gr_falcon_load_ctxsw_ucode gr_falcon_configure_fmodel
  by_cases hf : c.CONFIG_NVGPU_SIM = true ∧ g.NVGPU_IS_FMODEL = true
  · simp [hf, h, gr_gk20a.step, nvgpu_gr_falcon_load_dmem, nvgpu_gr_falcon_load_imem]
  · simp [hf, h, gr_gk20a.step, nvgpu_gr_falcon_load_dmem, nvgpu_gr_falcon_load_imem]

/-- Witness for C16: the simulated device, whose bootloader flag is clear. -/
theorem C16_legacy_load_sequence_witness :
    gr_sim_g.NVGPU_GR_USE_DMA_FOR_FW_BOOTSTRAP = false ∧
    ∃ g1, nvgpu_gr_falcon_load_ctxsw_ucode gr_sim_config (gr_sim_env 0 0 0 0) gr_sim_g
        gr_sim_falcon = some (0, g1, gr_sim_falcon) ∧
      g1.trace =
        gr_sim_g.trace ++
            (if gr_sim_config.CONFIG_NVGPU_SIM ∧ gr_sim_g.NVGPU_IS_FMODEL then
              [GrEvent.configure_fmodel] else []) ++
          [.load_gpccs_dmem gr_sim_g.netlist.gpccs_data_list gr_sim_g.netlist.gpccs_data_count,
            .load_fecs_dmem gr_sim_g.netlist.fecs_data_list gr_sim_g.netlist.fecs_data_count,
            .load_gpccs_imem gr_sim_g.netlist.gpccs_inst_list gr_sim_g.netlist.gpccs_inst_count,
            .load_fecs_imem gr_sim_g.netlist.fecs_inst_list gr_sim_g.netlist.fecs_inst_count,
            .start_ucode] :=
  ⟨rfl, C16_legacy_load_sequence gr_sim_config (gr_sim_env 0 0 0 0) gr_sim_g gr_sim_falcon rfl⟩

section gr_trace

variable {σ : Type}

theorem gr_extends_refl (P : GrEvent → Bool) (g : gr_gk20a σ) : gr_extends P g g :=
  ⟨⟨[], by simp, by simp⟩, rfl, rfl, rfl, rfl, rfl, rfl⟩

theorem gr_extends_trans {P : GrEvent → Bool} {g g1 g2 : gr_gk20a σ}
    (h1 : gr_extends P g g1) (h2 : gr_extends P g1 g2) : gr_extends P g g2 := by
  obtain ⟨⟨q1, hq1, hp1⟩, a1, b1, c1, d1, e1, f1⟩ := h1
  obtain ⟨⟨q2, hq2, hp2⟩, a2, b2, c2, d2, e2, f2⟩ := h2
  refine ⟨⟨q1 ++ q2, by rw [hq2, hq1, List.append_assoc], ?_⟩, a2.trans a1, b2.trans b1,
    c2.trans c1, d2.trans d1, e2.trans e1, f2.trans f1⟩
  intro e he
  rcases List.mem_append.mp he with h | h
  · exact hp1 e h
  · exact hp2 e h

theorem gr_extends_mono {P Q : GrEvent → Bool} {g g1 : gr_gk20a σ}
    (hPQ : ∀ e, P e = true → Q e = true) (h : gr_extends P g g1) : gr_extends Q g g1 := by
  obtain ⟨⟨q, hq, hp⟩, rest⟩ := h
  exact ⟨⟨q, hq, fun e he => hPQ e (hp e he)⟩, rest⟩

theorem gr_extends_step (P : GrEvent → Bool) (g : gr_gk20a σ) (f : σ → σ) (e : GrEvent)
    (he : P e = true) : gr_extends P g (g.step f e) :=
  ⟨⟨[e], rfl, by simpa using he⟩, rfl, rfl, rfl, rfl, rfl, rfl⟩

/-- A state that differs from `g` in the environment state and by one more event. -/
theorem gr_extends_call (P : GrEvent → Bool) (g : gr_gk20a σ) (s : σ) (e : GrEvent)
    (he : P e = true) : gr_extends P g { g with hw := s, trace := g.trace ++ [e] } :=
  ⟨⟨[e], rfl, by simpa using he⟩, rfl, rfl, rfl, rfl, rfl, rfl⟩

theorem configure_fmodel_extends (P : GrEvent → Bool) (hP : P .configure_fmodel = true)
    (c : gr_config) (env : gr_env σ) (g : gr_gk20a σ) :
    gr_extends P g (gr_falcon_configure_fmodel c env g) := by
  unfold gr_falcon_configure_fmodel
  split
  · exact gr_extends_step P g _ _ hP
  · exact gr_extends_refl P g

theorem configure_fmodel_bootstrap_done (c : gr_config) (env : gr_env σ) (g : gr_gk20a σ) :
    (gr_falcon_configure_fmodel c env g).NVGPU_PMU_FECS_BOOTSTRAP_DONE =
      g.NVGPU_PMU_FECS_BOOTSTRAP_DONE := by
  unfold gr_falcon_configure_fmodel
  split <;> rfl

theorem bind_instblk_extends (env : gr_env σ) (g : gr_gk20a σ) (falcon : nvgpu_gr_falcon) :
    gr_extends GrEvent.is_bootloader_load g (nvgpu_gr_falcon_bind_instblk env g falcon) :=
  gr_extends_step _ g _ _ rfl

theorem load_ucode_header_extends (env : gr_env σ) (g g1 : gr_gk20a σ) (addr_base : Nat)
    (segments : nvgpu_ctxsw_ucode_segments) (reg_offset : Nat)
    (h : nvgpu_gr_falcon_load_ctxsw_ucode_header env g addr_base segments reg_offset = some g1) :
    gr_extends GrEvent.is_bootloader_load g g1 := by
  unfold nvgpu_gr_falcon_load_ctxsw_ucode_header at h
  split at h
  · cases h
    exact gr_extends_step _ g _ _ rfl
  · cases h

theorem load_ucode_boot_extends (env : gr_env σ) (g g1 : gr_gk20a σ) (addr_base : Nat)
    (segments : nvgpu_ctxsw_ucode_segments) (reg_offset : Nat)
    (h : nvgpu_gr_falcon_load_ctxsw_ucode_boot env g addr_base segments reg_offset = some g1) :
    gr_extends GrEvent.is_bootloader_load g g1 := by
  unfold nvgpu_gr_falcon_load_ctxsw_ucode_boot at h
  split at h
  · cases h
    exact gr_extends_step _ g _ _ rfl
  · cases h

theorem load_ucode_segments_extends (env : gr_env σ) (g g1 : gr_gk20a σ) (addr_base : Nat)
    (segments : nvgpu_ctxsw_ucode_segments) (reg_offset : Nat)
    (h : nvgpu_gr_falcon_load_ctxsw_ucode_segments env g addr_base segments reg_offset =
      some g1) :
    gr_extends GrEvent.is_bootloader_load g g1 := by
  unfold nvgpu_gr_falcon_load_ctxsw_ucode_segments at h
  split at h
  · cases h
  · rename_i g2 hh
    exact gr_extends_trans (load_ucode_header_extends env g g2 _ _ _ hh)
      (load_ucode_boot_extends env g2 g1 _ _ _ h)

/-- `nvgpu_gr_falcon_load_with_bootloader` adds only the instance-block bind and the
header and boot register writes to the trace. -/
theorem load_with_bootloader_extends (env : gr_env σ) (g g1 : gr_gk20a σ)
    (falcon : nvgpu_gr_falcon) (h : nvgpu_gr_falcon_load_with_bootloader env g falcon = some g1) :
    gr_extends GrEvent.is_bootloader_load g g1 := by
  unfold nvgpu_gr_falcon_load_with_bootloader at h
  simp only at h
  split at h
  · cases h
  · rename_i g2 hh
    exact gr_extends_trans (bind_instblk_extends env g falcon)
      (gr_extends_trans (load_ucode_segments_extends env _ g2 _ _ _ hh)
        (load_ucode_segments_extends env g2 g1 _ _ _ h))

theorem load_gpccs_with_bootloader_extends (env : gr_env σ) (g g1 : gr_gk20a σ)
    (falcon : nvgpu_gr_falcon)
    (h : nvgpu_gr_falcon_load_gpccs_with_bootloader env g falcon = some g1) :
    gr_extends GrEvent.is_bootloader_load g g1 := by
  unfold nvgpu_gr_falcon_load_gpccs_with_bootloader at h
  exact gr_extends_trans (bind_instblk_extends env g falcon)
    (load_ucode_segments_extends env _ g1 _ _ _ h)

theorem gr_extends_step_right {P : GrEvent → Bool} {g x : gr_gk20a σ} (f : σ → σ)
    (e : GrEvent) (h : gr_extends P g x) (he : P e = true) : gr_extends P g (x.step f e) :=
  gr_extends_trans h (gr_extends_step P x f e he)

theorem gr_extends_call_right {P : GrEvent → Bool} {g x : gr_gk20a σ} (s : σ) (e : GrEvent)
    (h : gr_extends P g x) (he : P e = true) :
    gr_extends P g { x with hw := s, trace := x.trace ++ [e] } :=
  gr_extends_trans h (gr_extends_call P x s e he)

theorem copy_segments_extends (env : gr_env σ) (g : gr_gk20a σ) (dst : nvgpu_mem)
    (segments : nvgpu_ctxsw_ucode_segments) (bootimage code data : List Nat) :
    gr_extends GrEvent.is_ucode_init g
      (nvgpu_gr_falcon_copy_ctxsw_ucode_segments env g dst segments bootimage code data).2.2 := by
  unfold nvgpu_gr_falcon_copy_ctxsw_ucode_segments
  exact gr_extends_step_right _ _
    (gr_extends_step_right _ _ (gr_extends_step_right _ _ (gr_extends_refl _ g) rfl) rfl) rfl

theorem init_vaspace_extends (env : gr_env σ) (g : gr_gk20a σ) (falcon : nvgpu_gr_falcon) :
    gr_extends GrEvent.is_ucode_init g
        (nvgpu_gr_falcon_init_ctxsw_ucode_vaspace env g falcon).2.1 ∧
      (nvgpu_gr_falcon_init_ctxsw_ucode_vaspace env g falcon).2.2.skip_ucode_init =
        falcon.skip_ucode_init := by
  unfold nvgpu_gr_falcon_init_ctxsw_ucode_vaspace
  simp only
  split
  · exact ⟨gr_extends_call _ g _ _ rfl, rfl⟩
  · split
    · exact ⟨gr_extends_call_right _ _
        (gr_extends_step_right _ _ (gr_extends_call _ g _ _ rfl) rfl) rfl, rfl⟩
    · exact ⟨gr_extends_call_right _ _
        (gr_extends_step_right _ _ (gr_extends_call _ g _ _ rfl) rfl) rfl, rfl⟩

theorem clean_up_extends (env : gr_env σ) (g : gr_gk20a σ) (falcon : nvgpu_gr_falcon)
    (gpccs_fw fecs_fw : Bool) :
    gr_extends GrEvent.is_ucode_init g
        (init_ctxsw_ucode_clean_up env g falcon gpccs_fw fecs_fw).1 ∧
      (init_ctxsw_ucode_clean_up env g falcon gpccs_fw fecs_fw).2.skip_ucode_init =
        falcon.skip_ucode_init := by
  unfold init_ctxsw_ucode_clean_up
  refine ⟨?_, rfl⟩
  have h1 : gr_extends GrEvent.is_ucode_init g
      (if falcon.ctxsw_ucode_info.surface_desc.gpu_va ≠ 0 then
        g.step (env.nvgpu_gmmu_unmap falcon.ctxsw_ucode_info.surface_desc
            falcon.ctxsw_ucode_info.surface_desc.gpu_va)
          (.gmmu_unmap falcon.ctxsw_ucode_info.surface_desc.gpu_va)
      else g) := by
    split
    · exact gr_extends_step _ g _ _ rfl
    · exact gr_extends_refl _ g
  have h2 := gr_extends_call_right
    (env.nvgpu_dma_free falcon.ctxsw_ucode_info.surface_desc
      (if falcon.ctxsw_ucode_info.surface_desc.gpu_va ≠ 0 then
        g.step (env.nvgpu_gmmu_unmap falcon.ctxsw_ucode_info.surface_desc
            falcon.ctxsw_ucode_info.surface_desc.gpu_va)
          (.gmmu_unmap falcon.ctxsw_ucode_info.surface_desc.gpu_va)
      else g).hw).2 GrEvent.dma_free h1 rfl
  cases gpccs_fw <;> cases fecs_fw
  · exact h2
  · exact gr_extends_step_right _ _ h2 rfl
  · exact gr_extends_step_right _ _ h2 rfl
  · exact gr_extends_step_right _ _ (gr_extends_step_right _ _ h2 rfl) rfl

end gr_trace

section ucode_init

variable {σ : Type}

theorem copy_segments_extends_right {g x : gr_gk20a σ} (env : gr_env σ) (dst : nvgpu_mem)
    (segments : nvgpu_ctxsw_ucode_segments) (bootimage code data : List Nat)
    (h : gr_extends GrEvent.is_ucode_init g x) :
    gr_extends GrEvent.is_ucode_init g
      (nvgpu_gr_falcon_copy_ctxsw_ucode_segments env x dst segments bootimage code data).2.2 :=
  gr_extends_trans h (copy_segments_extends env x dst segments bootimage code data)

theorem init_vaspace_extends_right {g x : gr_gk20a σ} (env : gr_env σ)
    (falcon : nvgpu_gr_falcon) (h : gr_extends GrEvent.is_ucode_init g x) :
    gr_extends GrEvent.is_ucode_init g
      (nvgpu_gr_falcon_init_ctxsw_ucode_vaspace env x falcon).2.1 :=
  gr_extends_trans h (init_vaspace_extends env x falcon).1

theorem clean_up_extends_right {g x : gr_gk20a σ} (env : gr_env σ) (falcon : nvgpu_gr_falcon)
    (gpccs_fw fecs_fw : Bool) (h : gr_extends GrEvent.is_ucode_init g x) :
    gr_extends GrEvent.is_ucode_init g
      (init_ctxsw_ucode_clean_up env x falcon gpccs_fw fecs_fw).1 :=
  gr_extends_trans h (clean_up_extends env x falcon gpccs_fw fecs_fw).1

/-- Every call `nvgpu_gr_falcon_init_ctxsw_ucode` makes, the FECS firmware request
first, is one that only it makes; it does not touch `skip_ucode_init`. -/
theorem init_ctxsw_ucode_extends (env : gr_env σ) (g : gr_gk20a σ) (falcon : nvgpu_gr_falcon)
    (r : Int × gr_gk20a σ × nvgpu_gr_falcon)
    (h : nvgpu_gr_falcon_init_ctxsw_ucode env g falcon = some r) :
    gr_extends GrEvent.is_ucode_init
        { g with
          hw := (env.nvgpu_request_firmware .NVGPU_FECS_UCODE_IMAGE g.hw).2
          trace := g.trace ++ [.request_firmware .NVGPU_FECS_UCODE_IMAGE] } r.2.1 ∧
      r.2.2.skip_ucode_init = falcon.skip_ucode_init := by
  unfold nvgpu_gr_falcon_init_ctxsw_ucode at h
  simp only at h
  split at h
  · cases h
    exact ⟨gr_extends_refl _ _, rfl⟩
  · have h2 := gr_extends_call GrEvent.is_ucode_init
      { g with
        hw := (env.nvgpu_request_firmware .NVGPU_FECS_UCODE_IMAGE g.hw).2
        trace := g.trace ++ [.request_firmware .NVGPU_FECS_UCODE_IMAGE] }
      (env.nvgpu_request_firmware .NVGPU_GPCCS_UCODE_IMAGE
        (env.nvgpu_request_firmware .NVGPU_FECS_UCODE_IMAGE g.hw).2).2
      (.request_firmware .NVGPU_GPCCS_UCODE_IMAGE) rfl
    split at h
    · cases h
      exact ⟨gr_extends_step_right _ _ h2 rfl, rfl⟩
    · split at h
      · cases h
      · split at h
        · cases h
          exact ⟨clean_up_extends_right env _ _ _ (gr_extends_call_right _ _ h2 rfl),
            (clean_up_extends env _ _ true true).2⟩
        · split at h
          · cases h
            exact ⟨clean_up_extends_right env _ _ _
                (copy_segments_extends_right env _ _ _ _ _ (gr_extends_call_right _ _ h2 rfl)),
              (clean_up_extends env _ _ true true).2⟩
          · split at h
            · cases h
              exact ⟨clean_up_extends_right env _ _ _
                  (copy_segments_extends_right env _ _ _ _ _
                    (gr_extends_step_right _ _
                      (copy_segments_extends_right env _ _ _ _ _
                        (gr_extends_call_right _ _ h2 rfl)) rfl)),
                (clean_up_extends env _ _ true false).2⟩
            · split at h
              · cases h
                exact ⟨clean_up_extends_right env _ _ _
                    (init_vaspace_extends_right env _
                      (gr_extends_step_right _ _
                        (copy_segments_extends_right env _ _ _ _ _
                          (gr_extends_step_right _ _
                            (copy_segments_extends_right env _ _ _ _ _
                              (gr_extends_call_right _ _ h2 rfl)) rfl)) rfl)),
                  ((clean_up_extends env _ _ false false).2).trans
                    (init_vaspace_extends env _ _).2⟩
              · cases h
                exact ⟨init_vaspace_extends_right env _
                    (gr_extends_step_right _ _
                      (copy_segments_extends_right env _ _ _ _ _
                        (gr_extends_step_right _ _
                          (copy_segments_extends_right env _ _ _ _ _
                            (gr_extends_call_right _ _ h2 rfl)) rfl)) rfl),
                  (init_vaspace_extends env _ _).2⟩

end ucode_init

section bootloader_path

variable {σ : Type}

theorem not_bootloader_load_of_ucode_init (e : GrEvent) (h : e.is_ucode_init = true) :
    (!e.is_bootloader_load) = true := by
  cases e <;> simp_all [GrEvent.is_ucode_init, GrEvent.is_bootloader_load]

theorem not_ucode_init_of_bootloader_load (e : GrEvent) (h : e.is_bootloader_load = true) :
    (!e.is_ucode_init) = true := by
  cases e <;> simp_all [GrEvent.is_ucode_init, GrEvent.is_bootloader_load]

theorem skip_ucode_init_set_eq (falcon : nvgpu_gr_falcon) (h : falcon.skip_ucode_init = true) :
    { falcon with skip_ucode_init := true } = falcon := by
  cases falcon
  simp_all

/-- On the bootloader path with `skip_ucode_init` set, the load goes straight to the
bootloader registers: status 0, `*falcon` unchanged, no call of the ucode build. -/
theorem load_ctxsw_ucode_skip (c : gr_config) (env : gr_env σ) (g : gr_gk20a σ)
    (falcon : nvgpu_gr_falcon) (h : g.NVGPU_GR_USE_DMA_FOR_FW_BOOTSTRAP = true)
    (hskip : falcon.skip_ucode_init = true) (r : Int × gr_gk20a σ × nvgpu_gr_falcon)
    (hr : nvgpu_gr_falcon_load_ctxsw_ucode c env g falcon = some r) :
    r.1 = 0 ∧ r.2.2 = falcon ∧ gr_extends (fun e => !e.is_ucode_init) g r.2.1 := by
  have hc := configure_fmodel_extends (fun e => !e.is_ucode_init) rfl c env g
  have hg0 : (gr_falcon_configure_fmodel c env g).NVGPU_GR_USE_DMA_FOR_FW_BOOTSTRAP = true :=
    hc.2.2.2.1.trans h
  unfold nvgpu_gr_falcon_load_ctxsw_ucode at hr
  simp only [hg0, hskip, not_true_eq_false, if_false, ne_eq] at hr
  split at hr
  · cases hr
  · rename_i g3 h3
    cases hr
    exact ⟨rfl, skip_ucode_init_set_eq falcon hskip,
      gr_extends_trans hc
        (gr_extends_mono not_ucode_init_of_bootloader_load
          (load_with_bootloader_extends env _ g3 falcon h3))⟩

end bootloader_path

section bootloader_build

variable {σ : Type}

/-- The state in which `nvgpu_gr_falcon_init_ctxsw_ucode` leaves the device continues
the caller's state with the FECS firmware request and calls of the ucode build
only. -/
theorem init_ctxsw_ucode_after_fmodel (c : gr_config) (env : gr_env σ) (g : gr_gk20a σ)
    (falcon : nvgpu_gr_falcon) (ri : Int × gr_gk20a σ × nvgpu_gr_falcon)
    (hi : nvgpu_gr_falcon_init_ctxsw_ucode env (gr_falcon_configure_fmodel c env g) falcon =
      some ri) :
    gr_extends (fun e => !e.is_bootloader_load) g ri.2.1 ∧
      (∃ q, ri.2.1.trace = g.trace ++ q ∧
        GrEvent.request_firmware .NVGPU_FECS_UCODE_IMAGE ∈ q) ∧
      ri.2.2.skip_ucode_init = falcon.skip_ucode_init := by
  have hc := configure_fmodel_extends (fun e => !e.is_bootloader_load) rfl c env g
  obtain ⟨hx, hs⟩ := init_ctxsw_ucode_extends env _ falcon ri hi
  have h1 := gr_extends_call_right (P := fun e => !e.is_bootloader_load)
    (env.nvgpu_request_firmware .NVGPU_FECS_UCODE_IMAGE (gr_falcon_configure_fmodel c env g).hw).2
    (.request_firmware .NVGPU_FECS_UCODE_IMAGE) hc rfl
  refine ⟨gr_extends_trans h1 (gr_extends_mono not_bootloader_load_of_ucode_init hx), ?_, hs⟩
  obtain ⟨⟨q0, hq0, _⟩, _⟩ := hc
  obtain ⟨⟨q1, hq1, _⟩, _⟩ := hx
  refine ⟨q0 ++ [.request_firmware .NVGPU_FECS_UCODE_IMAGE] ++ q1, ?_, by simp⟩
  rw [hq1]
  simp only [hq0, List.append_assoc]

/-- On the bootloader path a successful load leaves `skip_ucode_init` set. -/
theorem load_ctxsw_ucode_sets_skip (c : gr_config) (env : gr_env σ) (g : gr_gk20a σ)
    (falcon : nvgpu_gr_falcon) (h : g.NVGPU_GR_USE_DMA_FOR_FW_BOOTSTRAP = true)
    (r : Int × gr_gk20a σ × nvgpu_gr_falcon)
    (hr : nvgpu_gr_falcon_load_ctxsw_ucode c env g falcon = some r) (h0 : r.1 = 0) :
    r.2.2.skip_ucode_init = true := by
  have hc := configure_fmodel_extends (fun _ => true) rfl c env g
  have hg0 : (gr_falcon_configure_fmodel c env g).NVGPU_GR_USE_DMA_FOR_FW_BOOTSTRAP = true :=
    hc.2.2.2.1.trans h
  unfold nvgpu_gr_falcon_load_ctxsw_ucode at hr
  simp only [hg0, not_true_eq_false, if_false, ne_eq] at hr
  split at hr
  · cases hr
  · split at hr
    · rename_i ri _ hne
      cases hr
      exact absurd h0 hne
    · split at hr
      · cases hr
      · cases hr
        rfl

/-- Once `skip_ucode_init` is set, no number of further loads on the bootloader path
calls the ucode build again or changes `*falcon`. -/
theorem load_ctxsw_ucode_repeat_skip (c : gr_config) (env : gr_env σ) :
    ∀ (n : Nat) (g : gr_gk20a σ) (falcon : nvgpu_gr_falcon)
      (r : gr_gk20a σ × nvgpu_gr_falcon),
      g.NVGPU_GR_USE_DMA_FOR_FW_BOOTSTRAP = true → falcon.skip_ucode_init = true →
      load_ctxsw_ucode_repeat c env n g falcon = some r →
      r.2 = falcon ∧ gr_extends (fun e => !e.is_ucode_init) g r.1 := by
  intro n
  induction n with
  | zero =>
    intro g falcon r _ _ hr
    simp only [load_ctxsw_ucode_repeat] at hr
    cases hr
    exact ⟨rfl, gr_extends_refl _ g⟩
  | succ n ih =>
    intro g falcon r h hskip hr
    simp only [load_ctxsw_ucode_repeat] at hr
    split at hr
    · cases hr
    · rename_i r1 h1
      obtain ⟨_, hf, hx⟩ := load_ctxsw_ucode_skip c env g falcon h hskip r1 h1
      obtain ⟨hf2, hx2⟩ := ih r1.2.1 r1.2.2 r (hx.2.2.2.1.trans h) (hf ▸ hskip) hr
      exact ⟨hf2.trans hf, gr_extends_trans hx hx2⟩

end bootloader_build

/-- C17: on the bootloader path (`NVGPU_GR_USE_DMA_FOR_FW_BOOTSTRAP` enabled),
`nvgpu_gr_falcon_load_ctxsw_ucode` runs `nvgpu_gr_falcon_init_ctxsw_ucode` exactly when
`skip_ucode_init` is false on entry. With the flag set, a call returns 0, leaves
`*falcon` as it is and makes no call of the ucode build. With the flag clear, the
build runs first (its FECS firmware request is in the trace); if it fails, its status,
state and `*falcon` are the result unchanged, `skip_ucode_init` is still false, and no
instance-block bind and no header or boot register write was made; if it succeeds,
the bootloader registers are loaded from the state it left and `skip_ucode_init` is
set. Every call that returns 0 leaves `skip_ucode_init` set, and once it is set no
sequence of further calls runs the build again or changes the segments or the
surface. -/
theorem C17_ucode_built_once {σ : Type} (c : gr_config) (env : gr_env σ) (g : gr_gk20a σ)
    (falcon : nvgpu_gr_falcon) (h : g.NVGPU_GR_USE_DMA_FOR_FW_BOOTSTRAP = true) :
    (falcon.skip_ucode_init = true →
      ∀ r, nvgpu_gr_falcon_load_ctxsw_ucode c env g falcon = some r →
        r.1 = 0 ∧ r.2.2 = falcon ∧ gr_extends (fun e => !e.is_ucode_init) g r.2.1) ∧
    (falcon.skip_ucode_init = false →
      (nvgpu_gr_falcon_init_ctxsw_ucode env (gr_falcon_configure_fmodel c env g) falcon = none →
        nvgpu_gr_falcon_load_ctxsw_ucode c env g falcon = none) ∧
      ∀ ri, nvgpu_gr_falcon_init_ctxsw_ucode env (gr_falcon_configure_fmodel c env g) falcon =
          some ri →
        (∃ q, ri.2.1.trace = g.trace ++ q ∧
          GrEvent.request_firmware .NVGPU_FECS_UCODE_IMAGE ∈ q) ∧
        (ri.1 ≠ 0 →
          nvgpu_gr_falcon_load_ctxsw_ucode c env g falcon = some ri ∧
            ri.2.2.skip_ucode_init = false ∧
            gr_extends (fun e => !e.is_bootloader_load) g ri.2.1) ∧
        (ri.1 = 0 →
          nvgpu_gr_falcon_load_ctxsw_ucode c env g falcon =
            (nvgpu_gr_falcon_load_with_bootloader env ri.2.1 ri.2.2).map
              (fun g3 => (0, g3, { ri.2.2 with skip_ucode_init := true })))) ∧
    (∀ r, nvgpu_gr_falcon_load_ctxsw_ucode c env g falcon = some r → r.1 = 0 →
      r.2.2.skip_ucode_init = true) ∧
    (falcon.skip_ucode_init = true →
      ∀ n r, load_ctxsw_ucode_repeat c env n g falcon = some r →
        r.2 = falcon ∧ gr_extends (fun e => !e.is_ucode_init) g r.1) := by
  have hc := configure_fmodel_extends (fun _ => true) rfl c env g
  have hg0 : (gr_falcon_configure_fmodel c env g).NVGPU_GR_USE_DMA_FOR_FW_BOOTSTRAP = true :=
    hc.2.2.2.1.trans h
  refine ⟨fun hskip r hr => load_ctxsw_ucode_skip c env g falcon h hskip r hr, ?_,
    fun r hr h0 => load_ctxsw_ucode_sets_skip c env g falcon h r hr h0,
    fun hskip n r hr => load_ctxsw_ucode_repeat_skip c env n g falcon r h hskip hr⟩
  intro hskip
  constructor
  · intro hi
    unfold nvgpu_gr_falcon_load_ctxsw_ucode
    simp [hg0, hskip, hi]
  · intro ri hi
    obtain ⟨hx, hq, hs⟩ := init_ctxsw_ucode_after_fmodel c env g falcon ri hi
    refine ⟨hq, ?_, ?_⟩
    · intro hne
      refine ⟨?_, hs.trans hskip, hx⟩
      unfold nvgpu_gr_falcon_load_ctxsw_ucode
      simp [hg0, hskip, hi, hne]
    · intro h0
      unfold nvgpu_gr_falcon_load_ctxsw_ucode
      simp only [hg0, hskip, hi, h0, not_true_eq_false, if_false, ne_eq, Bool.false_eq_true,
        not_false_eq_true, if_true]
      cases nvgpu_gr_falcon_load_with_bootloader env ri.2.1 ri.2.2 <;> rfl

/-- Witness for C17: on the simulated device the first load on the bootloader path
builds the ucode and returns 0 with `skip_ucode_init` set; a second load from the state
it left returns 0, changes nothing in `*falcon` and does not build again. -/
theorem C17_ucode_built_once_witness :
    gr_sim_g_bootloader.NVGPU_GR_USE_DMA_FOR_FW_BOOTSTRAP = true ∧
    gr_sim_falcon.skip_ucode_init = false ∧
    ∃ r, nvgpu_gr_falcon_load_ctxsw_ucode gr_sim_config (gr_sim_env 0 0 0 0) gr_sim_g_bootloader
        gr_sim_falcon = some r ∧
      r.1 = 0 ∧ r.2.2.skip_ucode_init = true ∧
      ∃ r2, nvgpu_gr_falcon_load_ctxsw_ucode gr_sim_config (gr_sim_env 0 0 0 0) r.2.1 r.2.2 =
          some r2 ∧
        r2.1 = 0 ∧ r2.2.2 = r.2.2 ∧ gr_extends (fun e => !e.is_ucode_init) r.2.1 r2.2.1 :=
  ⟨rfl, rfl, _, rfl, rfl,
    (C17_ucode_built_once gr_sim_config (gr_sim_env 0 0 0 0) gr_sim_g_bootloader gr_sim_falcon
      rfl).2.2.1 _ rfl rfl,
    _, rfl,
    (C17_ucode_built_once gr_sim_config (gr_sim_env 0 0 0 0) _ _ rfl).1 rfl _ rfl⟩

section secure_load

variable {σ : Type}

/-- The end of the secure load: a non-zero status is returned as it is, with nothing
further done; on status 0 the two start triggers follow, GPCCS first. -/
theorem load_secure_tail (env : gr_env σ) (r0 : Int × gr_gk20a σ) :
    ∃ r, (if r0.1 ≠ 0 then some r0 else some (load_secure_start env r0.2)) = some r ∧
      r.2.trace = r0.2.trace ++ (if r.1 = 0 then [.start_gpccs, .start_fecs] else []) ∧
      (r.1 ≠ 0 → r = r0) ∧ (r.1 = 0 → r0.1 = 0) := by
  by_cases h : r0.1 = 0
  · refine ⟨load_secure_start env r0.2, by simp [h], ?_, ?_, fun _ => h⟩
    · simp [load_secure_start, gr_gk20a.step]
    · intro hne
      exact absurd rfl hne
  · exact ⟨r0, by simp [h], by simp [h], fun _ => rfl, fun h0 => absurd h0 h⟩

theorem configure_fmodel_trace (c : gr_config) (env : gr_env σ) (g : gr_gk20a σ) :
    ∃ q0, (gr_falcon_configure_fmodel c env g).trace = g.trace ++ q0 ∧
      ∀ e ∈ q0, e = GrEvent.configure_fmodel := by
  obtain ⟨⟨q0, hq0, hall⟩, _⟩ :=
    configure_fmodel_extends (fun e => decide (e = GrEvent.configure_fmodel)) (by simp) c env g
  exact ⟨q0, hq0, fun e he => by simpa using hall e he⟩

/-- The calls of one secure load with secure GPCCS: `configure_fmodel` on the
functional model, the flag write on cold boot, the instance-block bind, the bootstrap
requests the configuration selects, and the two start triggers exactly when the
status is 0. The load never traps. -/
theorem load_secure_securegpccs_trace (c : gr_config) (env : gr_env σ) (g : gr_gk20a σ)
    (falcon : nvgpu_gr_falcon) (hsec : g.NVGPU_SEC_SECUREGPCCS = true) :
    ∃ r q0 p s, nvgpu_gr_falcon_load_secure_ctxsw_ucode c env g falcon = some r ∧
      (∀ e ∈ q0, e = GrEvent.configure_fmodel) ∧
      r.2.trace =
        g.trace ++ q0 ++
          (if g.NVGPU_PMU_FECS_BOOTSTRAP_DONE then []
            else [GrEvent.set_enabled_PMU_FECS_BOOTSTRAP_DONE true]) ++
          [.bind_instblk p] ++ secure_delegate_requests c g (lazy_falcon_id_mask c env s) ++
          (if r.1 = 0 then [.start_gpccs, .start_fecs] else []) := by
  obtain ⟨q0, hq0, hall⟩ := configure_fmodel_trace c env g
  have hx := configure_fmodel_extends (fun _ => true) rfl c env g
  have hd := configure_fmodel_bootstrap_done c env g
  obtain ⟨_, _, _, _, hsec0, hrtos0, hpmu0⟩ := hx
  rw [hsec] at hsec0
  unfold nvgpu_gr_falcon_load_secure_ctxsw_ucode
  generalize gr_falcon_configure_fmodel c env g = g0 at hq0 hd hsec0 hrtos0 hpmu0 ⊢
  by_cases hdone : g.NVGPU_PMU_FECS_BOOTSTRAP_DONE = true
  · rw [hdone] at hd
    by_cases hs2 : c.CONFIG_NVGPU_DGPU = true ∧ g.NVGPU_SUPPORT_SEC2_RTOS = true
    · obtain ⟨r, hr, htr, _⟩ := load_secure_tail env
        (call_sec2_bootstrap_ls_falcons env
          (call_sec2_bootstrap_ls_falcons env (nvgpu_gr_falcon_bind_instblk env g0 falcon)
            c.FALCON_ID_FECS).2 c.FALCON_ID_GPCCS)
      refine ⟨r, q0, env.nvgpu_inst_block_addr falcon.ctxsw_ucode_info.inst_blk_desc g0.hw, g0.hw,
        ?_, hall, ?_⟩
      · simpa [hd, hsec0, hrtos0, hs2, nvgpu_gr_falcon_bind_instblk, gr_gk20a.step] using hr
      · rw [htr]
        simp [hdone, hs2, hq0, secure_delegate_requests, call_sec2_bootstrap_ls_falcons,
          nvgpu_gr_falcon_bind_instblk, gr_gk20a.step]
    · by_cases hp : c.CONFIG_NVGPU_LS_PMU = true ∧ g.support_ls_pmu = true
      · obtain ⟨r, hr, htr, _⟩ := load_secure_tail env
          (call_pmu_lsfm_bootstrap_ls_falcon env (nvgpu_gr_falcon_bind_instblk env g0 falcon)
            (BIT32 c.FALCON_ID_FECS ||| BIT32 c.FALCON_ID_GPCCS))
        refine ⟨r, q0, env.nvgpu_inst_block_addr falcon.ctxsw_ucode_info.inst_blk_desc g0.hw,
          g0.hw, ?_, hall, ?_⟩
        · rw [← hrtos0] at hs2
          rw [← hpmu0] at hp
          simpa [hd, hsec0, hs2, hp, nvgpu_gr_falcon_bind_instblk, gr_gk20a.step] using hr
        · rw [htr]
          simp [hdone, hs2, hp, hq0, secure_delegate_requests, call_pmu_lsfm_bootstrap_ls_falcon,
            nvgpu_gr_falcon_bind_instblk, gr_gk20a.step]
      · obtain ⟨r, hr, htr, _⟩ := load_secure_tail env
          (call_acr_bootstrap_hs_acr env (nvgpu_gr_falcon_bind_instblk env g0 falcon))
        refine ⟨r, q0, env.nvgpu_inst_block_addr falcon.ctxsw_ucode_info.inst_blk_desc g0.hw,
          g0.hw, ?_, hall, ?_⟩
        · rw [← hrtos0] at hs2
          rw [← hpmu0] at hp
          simpa [hd, hsec0, hs2, hp, nvgpu_gr_falcon_bind_instblk, gr_gk20a.step] using hr
        · rw [htr]
          simp [hdone, hs2, hp, hq0, secure_delegate_requests, call_acr_bootstrap_hs_acr,
            nvgpu_gr_falcon_bind_instblk, gr_gk20a.step]
  · have hdone' : g.NVGPU_PMU_FECS_BOOTSTRAP_DONE = false := by simpa using hdone
    rw [hdone'] at hd
    by_cases hs2 : c.CONFIG_NVGPU_DGPU = true ∧ g.NVGPU_SUPPORT_SEC2_RTOS = true
    · obtain ⟨r, hr, htr, _⟩ := load_secure_tail env
        (call_sec2_bootstrap_ls_falcons env
          (call_sec2_bootstrap_ls_falcons env
            (nvgpu_gr_falcon_bind_instblk env
              { g0 with
                NVGPU_PMU_FECS_BOOTSTRAP_DONE := true
                trace := g0.trace ++ [.set_enabled_PMU_FECS_BOOTSTRAP_DONE true] } falcon)
            c.FALCON_ID_FECS).2 c.FALCON_ID_GPCCS)
      refine ⟨r, q0, env.nvgpu_inst_block_addr falcon.ctxsw_ucode_info.inst_blk_desc g0.hw, g0.hw,
        ?_, hall, ?_⟩
      · simpa [hd, hsec0, hrtos0, hs2, nvgpu_gr_falcon_bind_instblk, gr_gk20a.step] using hr
      · rw [htr]
        simp [hdone', hs2, hq0, secure_delegate_requests, call_sec2_bootstrap_ls_falcons,
          nvgpu_gr_falcon_bind_instblk, gr_gk20a.step]
    · by_cases hp : c.CONFIG_NVGPU_LS_PMU = true ∧ g.support_ls_pmu = true
      · obtain ⟨r, hr, htr, _⟩ := load_secure_tail env
          (call_pmu_lsfm_bootstrap_ls_falcon env
            (nvgpu_gr_falcon_bind_instblk env
              { g0 with
                NVGPU_PMU_FECS_BOOTSTRAP_DONE := true
                trace := g0.trace ++ [.set_enabled_PMU_FECS_BOOTSTRAP_DONE true] } falcon)
            (lazy_falcon_id_mask c env
              (nvgpu_gr_falcon_bind_instblk env
                { g0 with
                  NVGPU_PMU_FECS_BOOTSTRAP_DONE := true
                  trace := g0.trace ++ [.set_enabled_PMU_FECS_BOOTSTRAP_DONE true] } falcon).hw))
        refine ⟨r, q0, env.nvgpu_inst_block_addr falcon.ctxsw_ucode_info.inst_blk_desc g0.hw,
          (nvgpu_gr_falcon_bind_instblk env
            { g0 with
              NVGPU_PMU_FECS_BOOTSTRAP_DONE := true
              trace := g0.trace ++ [.set_enabled_PMU_FECS_BOOTSTRAP_DONE true] } falcon).hw,
          ?_, hall, ?_⟩
        · rw [← hrtos0] at hs2
          rw [← hpmu0] at hp
          simpa [hd, hsec0, hs2, hp, nvgpu_gr_falcon_bind_instblk, gr_gk20a.step] using hr
        · rw [htr]
          simp [hdone', hs2, hp, hq0, secure_delegate_requests, call_pmu_lsfm_bootstrap_ls_falcon,
            nvgpu_gr_falcon_bind_instblk, gr_gk20a.step]
      · obtain ⟨r, hr, htr, _⟩ := load_secure_tail env
          ((0 : Int),
            nvgpu_gr_falcon_bind_instblk env
              { g0 with
                NVGPU_PMU_FECS_BOOTSTRAP_DONE := true
                trace := g0.trace ++ [.set_enabled_PMU_FECS_BOOTSTRAP_DONE true] } falcon)
        refine ⟨r, q0, env.nvgpu_inst_block_addr falcon.ctxsw_ucode_info.inst_blk_desc g0.hw,
          g0.hw, ?_, hall, ?_⟩
        · rw [← hrtos0] at hs2
          rw [← hpmu0] at hp
          simpa [hd, hsec0, hs2, hp, nvgpu_gr_falcon_bind_instblk, gr_gk20a.step] using hr
        · rw [htr]
          simp [hdone', hs2, hp, hq0, secure_delegate_requests, nvgpu_gr_falcon_bind_instblk,
            gr_gk20a.step]

end secure_load

section secure_delegates

variable {σ : Type}

theorem secure_delegate_requests_filter (c : gr_config) (g : gr_gk20a σ) (mask : Nat) :
    (secure_delegate_requests c g mask).filter GrEvent.is_delegate =
      secure_delegate_requests c g mask := by
  unfold secure_delegate_requests
  split_ifs <;> simp [GrEvent.is_delegate]

theorem secure_delegate_requests_selected (c : gr_config) (g : gr_gk20a σ) (mask : Nat)
    (e : GrEvent) (he : e ∈ secure_delegate_requests c g mask) :
    e.delegate = some (selected_delegate c g) ∧ e.is_start = false := by
  unfold secure_delegate_requests at he
  unfold selected_delegate
  split_ifs at he ⊢ <;> simp at he <;>
    first
      | (rcases he with h | h <;> subst h <;> exact ⟨rfl, rfl⟩)
      | (subst he; exact ⟨rfl, rfl⟩)

/-- The trace a secure load with secure GPCCS adds, split into the events before the
bootstrap requests, the requests, and the start triggers. -/
theorem load_secure_securegpccs_split (c : gr_config) (env : gr_env σ) (g : gr_gk20a σ)
    (falcon : nvgpu_gr_falcon) (hsec : g.NVGPU_SEC_SECUREGPCCS = true) :
    ∃ r pre s, nvgpu_gr_falcon_load_secure_ctxsw_ucode c env g falcon = some r ∧
      r.2.trace =
        g.trace ++
          (pre ++ secure_delegate_requests c g (lazy_falcon_id_mask c env s) ++
            (if r.1 = 0 then [.start_gpccs, .start_fecs] else [])) ∧
      (∀ e ∈ pre, e.is_delegate = false ∧ e.delegate = none ∧ e.is_start = false) := by
  obtain ⟨r, q0, p, s, hr, hall, htr⟩ := load_secure_securegpccs_trace c env g falcon hsec
  refine ⟨r,
    q0 ++ (if g.NVGPU_PMU_FECS_BOOTSTRAP_DONE then []
        else [GrEvent.set_enabled_PMU_FECS_BOOTSTRAP_DONE true]) ++ [.bind_instblk p],
    s, hr, ?_, ?_⟩
  · rw [htr]
    simp only [List.append_assoc]
  · intro e he
    simp only [List.mem_append, List.mem_singleton] at he
    rcases he with (h | h) | h
    · rw [hall e h]
      exact ⟨rfl, rfl, rfl⟩
    · split at h
      · cases h
      · simp only [List.mem_singleton] at h
        subst h
        exact ⟨rfl, rfl, rfl⟩
    · subst h
      exact ⟨rfl, rfl, rfl⟩

theorem filter_delegate_split (pre d : List GrEvent) (p : Prop) [Decidable p]
    (hpre : ∀ e ∈ pre, e.is_delegate = false ∧ e.delegate = none ∧ e.is_start = false)
    (hd : d.filter GrEvent.is_delegate = d) :
    (pre ++ d ++ (if p then [GrEvent.start_gpccs, GrEvent.start_fecs] else [])).filter
      GrEvent.is_delegate = d := by
  have h1 : pre.filter GrEvent.is_delegate = [] := by
    rw [List.filter_eq_nil_iff]
    intro e he
    simp [(hpre e he).1]
  rw [List.filter_append, List.filter_append, h1, hd]
  split <;> simp [GrEvent.is_delegate]

end secure_delegates

/-- C18 (code defect): with the SEC2 RTOS as collaborator, the bootstrap request for
FECS returns -5 and the one for GPCCS returns 0. On cold boot and on recovery alike the
second status overwrites the first: `nvgpu_gr_falcon_load_secure_ctxsw_ucode` returns
0 and issues `start_gpccs` and `start_fecs`. -/
theorem C18_sec2_fecs_error_overwritten :
    (∀ s, ((gr_sim_env (-5) 0 0 0).nvgpu_sec2_bootstrap_ls_falcons gr_sim_config.FALCON_ID_FECS
      s).1 = -5) ∧
    (∃ g1, nvgpu_gr_falcon_load_secure_ctxsw_ucode gr_sim_config (gr_sim_env (-5) 0 0 0)
        gr_sim_g_sec2 gr_sim_falcon = some (0, g1) ∧
      g1.trace =
        [.set_enabled_PMU_FECS_BOOTSTRAP_DONE true, .bind_instblk 4096,
          .sec2_bootstrap_ls_falcons 2, .sec2_bootstrap_ls_falcons 3, .start_gpccs,
          .start_fecs]) ∧
    (∃ g1, nvgpu_gr_falcon_load_secure_ctxsw_ucode gr_sim_config (gr_sim_env (-5) 0 0 0)
        { gr_sim_g_sec2 with NVGPU_PMU_FECS_BOOTSTRAP_DONE := true } gr_sim_falcon =
          some (0, g1) ∧
      g1.trace =
        [.bind_instblk 4096, .sec2_bootstrap_ls_falcons 2, .sec2_bootstrap_ls_falcons 3,
          .start_gpccs, .start_fecs]) :=
  ⟨fun _ => rfl, ⟨_, rfl, rfl⟩, ⟨_, rfl, rfl⟩⟩

/-- C19 (counterexample): a secure cold boot with lazy bootstrap for both falcons and
the SEC2 RTOS as collaborator issues two bootstrap requests, one per falcon id, not one
request with a mask; with ACR as collaborator it issues none. -/
theorem C19_cold_boot_not_one_request :
    (∀ s, (gr_sim_env 0 0 0 0).nvgpu_acr_is_lsf_lazy_bootstrap gr_sim_config.FALCON_ID_FECS s =
        true ∧
      (gr_sim_env 0 0 0 0).nvgpu_acr_is_lsf_lazy_bootstrap gr_sim_config.FALCON_ID_GPCCS s =
        true) ∧
    gr_sim_g_sec2.NVGPU_PMU_FECS_BOOTSTRAP_DONE = false ∧
    (∃ r, nvgpu_gr_falcon_load_secure_ctxsw_ucode gr_sim_config (gr_sim_env 0 0 0 0)
        gr_sim_g_sec2 gr_sim_falcon = some r ∧
      r.2.trace.filter GrEvent.is_delegate =
        [.sec2_bootstrap_ls_falcons 2, .sec2_bootstrap_ls_falcons 3] ∧
      ¬ ((r.2.trace.filter GrEvent.is_delegate).length = 1)) ∧
    (∃ r, nvgpu_gr_falcon_load_secure_ctxsw_ucode gr_sim_config (gr_sim_env 0 0 0 0)
        gr_sim_g_acr gr_sim_falcon = some r ∧
      ¬ ((r.2.trace.filter GrEvent.is_delegate).length = 1)) :=
  ⟨fun _ => ⟨rfl, rfl⟩, rfl, ⟨_, rfl, by decide, by decide⟩, ⟨_, rfl, by decide⟩⟩

section lazy_mask

variable {σ : Type}

theorem BIT8_eq_two_pow (i : Nat) (h : i < 8) : BIT8 i = 2 ^ i := by
  unfold BIT8
  rw [Nat.shiftLeft_eq, Nat.one_mul]
  exact Nat.mod_eq_of_lt (Nat.pow_lt_pow_right (by decide) h)

/-- With lazy bootstrap reported for both falcons, the mask holds exactly the FECS and
the GPCCS bit. -/
theorem lazy_falcon_id_mask_both (c : gr_config) (env : gr_env σ) (s : σ)
    (hF : c.FALCON_ID_FECS < 8) (hG : c.FALCON_ID_GPCCS < 8)
    (hlf : env.nvgpu_acr_is_lsf_lazy_bootstrap c.FALCON_ID_FECS s = true)
    (hlg : env.nvgpu_acr_is_lsf_lazy_bootstrap c.FALCON_ID_GPCCS s = true) :
    lazy_falcon_id_mask c env s = 2 ^ c.FALCON_ID_FECS ||| 2 ^ c.FALCON_ID_GPCCS := by
  have h1 : 2 ^ c.FALCON_ID_FECS < 2 ^ 8 := Nat.pow_lt_pow_right (by decide) hF
  have h2 : 2 ^ c.FALCON_ID_GPCCS < 2 ^ 8 := Nat.pow_lt_pow_right (by decide) hG
  have h3 : 2 ^ c.FALCON_ID_FECS ||| 2 ^ c.FALCON_ID_GPCCS < 2 ^ 8 := Nat.or_lt_two_pow h1 h2
  rw [show (2 : Nat) ^ 8 = 256 from rfl] at h1 h3
  unfold lazy_falcon_id_mask
  simp only [hlf, hlg, if_true, BIT8_eq_two_pow _ hF, BIT8_eq_two_pow _ hG, Nat.zero_or]
  rw [Nat.mod_eq_of_lt h1, Nat.mod_eq_of_lt h3]

end lazy_mask

/-- C19 (amended): in a secure cold boot (`NVGPU_PMU_FECS_BOOTSTRAP_DONE` clear, secure
GPCCS) in which the PMU loader is the collaborator (no SEC2 RTOS, LS PMU built and
`support_ls_pmu` set) and ACR reports lazy bootstrap for FECS and for GPCCS, the load
issues exactly one bootstrap request, to the PMU loader, and its falcon-id mask has
the FECS bit and the GPCCS bit set and no other. -/
theorem C19_pmu_cold_boot_one_masked_request {σ : Type} (c : gr_config) (env : gr_env σ)
    (g : gr_gk20a σ) (falcon : nvgpu_gr_falcon)
    (hsec : g.NVGPU_SEC_SECUREGPCCS = true) (hcold : g.NVGPU_PMU_FECS_BOOTSTRAP_DONE = false)
    (hs2 : ¬ (c.CONFIG_NVGPU_DGPU = true ∧ g.NVGPU_SUPPORT_SEC2_RTOS = true))
    (hp : c.CONFIG_NVGPU_LS_PMU = true ∧ g.support_ls_pmu = true)
    (hF : c.FALCON_ID_FECS < 8) (hG : c.FALCON_ID_GPCCS < 8)
    (hlazy : ∀ s, env.nvgpu_acr_is_lsf_lazy_bootstrap c.FALCON_ID_FECS s = true ∧
      env.nvgpu_acr_is_lsf_lazy_bootstrap c.FALCON_ID_GPCCS s = true) :
    ∃ r q, nvgpu_gr_falcon_load_secure_ctxsw_ucode c env g falcon = some r ∧
      r.2.trace = g.trace ++ q ∧
      q.filter GrEvent.is_delegate =
        [.pmu_lsfm_bootstrap_ls_falcon (2 ^ c.FALCON_ID_FECS ||| 2 ^ c.FALCON_ID_GPCCS)] ∧
      ∀ i, (2 ^ c.FALCON_ID_FECS ||| 2 ^ c.FALCON_ID_GPCCS).testBit i = true ↔
        i = c.FALCON_ID_FECS ∨ i = c.FALCON_ID_GPCCS := by
  obtain ⟨r, pre, s, hr, htr, hpre⟩ := load_secure_securegpccs_split c env g falcon hsec
  refine ⟨r, _, hr, htr, ?_, ?_⟩
  · rw [filter_delegate_split pre _ _ hpre (secure_delegate_requests_filter c g _)]
    unfold secure_delegate_requests
    simp only [hs2, hp, hcold, if_false, and_self, if_true, Bool.false_eq_true]
    rw [lazy_falcon_id_mask_both c env s hF hG (hlazy s).1 (hlazy s).2]
  · intro i
    simp only [Nat.testBit_or, Nat.testBit_two_pow, Bool.or_eq_true, decide_eq_true_eq]
    constructor
    · rintro (h | h)
      · exact Or.inl h.symm
      · exact Or.inr h.symm
    · rintro (h | h)
      · exact Or.inl h.symm
      · exact Or.inr h.symm

/-- Witness for C19 (amended): the simulated device with the PMU loader; the mask is
2^2 | 2^3 = 12. -/
theorem C19_pmu_cold_boot_one_masked_request_witness :
    (gr_sim_g_pmu.NVGPU_SEC_SECUREGPCCS = true ∧
      gr_sim_g_pmu.NVGPU_PMU_FECS_BOOTSTRAP_DONE = false ∧
      ¬ (gr_sim_config.CONFIG_NVGPU_DGPU = true ∧ gr_sim_g_pmu.NVGPU_SUPPORT_SEC2_RTOS = true) ∧
      (gr_sim_config.CONFIG_NVGPU_LS_PMU = true ∧ gr_sim_g_pmu.support_ls_pmu = true) ∧
      gr_sim_config.FALCON_ID_FECS < 8 ∧ gr_sim_config.FALCON_ID_GPCCS < 8) ∧
    (2 : Nat) ^ gr_sim_config.FALCON_ID_FECS ||| 2 ^ gr_sim_config.FALCON_ID_GPCCS = 12 ∧
    ∃ r q, nvgpu_gr_falcon_load_secure_ctxsw_ucode gr_sim_config (gr_sim_env 0 0 0 0)
        gr_sim_g_pmu gr_sim_falcon = some r ∧
      r.2.trace = gr_sim_g_pmu.trace ++ q ∧
      q.filter GrEvent.is_delegate =
        [.pmu_lsfm_bootstrap_ls_falcon
          (2 ^ gr_sim_config.FALCON_ID_FECS ||| 2 ^ gr_sim_config.FALCON_ID_GPCCS)] ∧
      ∀ i, (2 ^ gr_sim_config.FALCON_ID_FECS ||| 2 ^ gr_sim_config.FALCON_ID_GPCCS).testBit i =
          true ↔
        i = gr_sim_config.FALCON_ID_FECS ∨ i = gr_sim_config.FALCON_ID_GPCCS :=
  ⟨by decide, by decide,
    C19_pmu_cold_boot_one_masked_request gr_sim_config (gr_sim_env 0 0 0 0) gr_sim_g_pmu
      gr_sim_falcon rfl rfl (by decide) (by decide) (by decide) (by decide)
      (fun _ => ⟨rfl, rfl⟩)⟩

/-- C20 (counterexample): on cold boot with secure GPCCS and ACR as the selected
collaborator the load returns 0 and starts both falcons without any bootstrap
request, so no collaborator is called; the same configuration on recovery does call
ACR. -/
theorem C20_acr_cold_boot_no_delegate :
    gr_sim_g_acr.NVGPU_SEC_SECUREGPCCS = true ∧
    selected_delegate gr_sim_config gr_sim_g_acr = .acr ∧
    (∃ g1, nvgpu_gr_falcon_load_secure_ctxsw_ucode gr_sim_config (gr_sim_env 0 0 0 0)
        gr_sim_g_acr gr_sim_falcon = some (0, g1) ∧
      g1.trace.filterMap GrEvent.delegate = [] ∧
      g1.trace.filter GrEvent.is_start = [.start_gpccs, .start_fecs]) ∧
    (∃ g1, nvgpu_gr_falcon_load_secure_ctxsw_ucode gr_sim_config (gr_sim_env 0 0 0 0)
        { gr_sim_g_acr with NVGPU_PMU_FECS_BOOTSTRAP_DONE := true } gr_sim_falcon =
          some (0, g1) ∧
      g1.trace.filterMap GrEvent.delegate = [.acr]) :=
  ⟨rfl, by decide, ⟨_, rfl, by decide, by decide⟩, ⟨_, rfl, by decide⟩⟩

section one_delegate

variable {σ : Type}

theorem delegate_isSome_of_names_falcon (id : Nat) (e : GrEvent)
    (h : e.names_falcon id = true) : e.delegate ≠ none := by
  cases e <;> simp [GrEvent.names_falcon, GrEvent.delegate] at h ⊢

/-- Around the request list only events that name no falcon occur. -/
theorem filter_names_falcon_split (id : Nat) (pre d : List GrEvent) (p : Prop) [Decidable p]
    (hpre : ∀ e ∈ pre, e.is_delegate = false ∧ e.delegate = none ∧ e.is_start = false) :
    (pre ++ d ++ (if p then [GrEvent.start_gpccs, GrEvent.start_fecs] else [])).filter
      (GrEvent.names_falcon id) = d.filter (GrEvent.names_falcon id) := by
  have h1 : pre.filter (GrEvent.names_falcon id) = [] := by
    rw [List.filter_eq_nil_iff]
    intro e he h
    exact delegate_isSome_of_names_falcon id e h (hpre e he).2.1
  rw [List.filter_append, List.filter_append, h1]
  split <;> simp [GrEvent.names_falcon]

/-- A request list names a falcon at most once when the two falcon ids differ. -/
theorem secure_delegate_requests_names_le_one (c : gr_config) (g : gr_gk20a σ) (mask id : Nat)
    (hne : c.FALCON_ID_FECS ≠ c.FALCON_ID_GPCCS) :
    ((secure_delegate_requests c g mask).filter (GrEvent.names_falcon id)).length ≤ 1 := by
  unfold secure_delegate_requests
  split
  · by_cases h1 : c.FALCON_ID_FECS = id
    · have h2 : ¬ c.FALCON_ID_GPCCS = id := fun h => hne (h1.trans h.symm)
      simp [List.filter_cons, GrEvent.names_falcon, h1, h2]
    · have h3 : [GrEvent.sec2_bootstrap_ls_falcons c.FALCON_ID_FECS,
          GrEvent.sec2_bootstrap_ls_falcons c.FALCON_ID_GPCCS].filter (GrEvent.names_falcon id) =
          [GrEvent.sec2_bootstrap_ls_falcons c.FALCON_ID_GPCCS].filter
            (GrEvent.names_falcon id) := by
        simp [List.filter_cons, GrEvent.names_falcon, h1]
      rw [h3]
      exact le_trans (List.length_filter_le _ _) (by simp)
  · split
    · exact le_trans (List.length_filter_le _ _) (by simp)
    · split <;> exact le_trans (List.length_filter_le _ _) (by simp)

/-- The request list is empty exactly for ACR on cold boot. -/
theorem secure_delegate_requests_eq_nil_iff (c : gr_config) (g : gr_gk20a σ) (mask : Nat) :
    secure_delegate_requests c g mask = [] ↔
      selected_delegate c g = .acr ∧ g.NVGPU_PMU_FECS_BOOTSTRAP_DONE = false := by
  unfold secure_delegate_requests selected_delegate
  split
  · simp
  · split
    · simp
    · split <;> simp_all

theorem selected_delegate_flag (c : gr_config) (g : gr_gk20a σ) (b : Bool) :
    selected_delegate c { g with NVGPU_PMU_FECS_BOOTSTRAP_DONE := b } =
      selected_delegate c g := rfl

end one_delegate

/-- C20 (amended): in a call of `nvgpu_gr_falcon_load_secure_ctxsw_ucode` with
`NVGPU_SEC_SECUREGPCCS` enabled and distinct falcon ids, every bootstrap request goes
to the one collaborator selected by build and runtime configuration (the SEC2 RTOS on
a `CONFIG_NVGPU_DGPU` build with `NVGPU_SUPPORT_SEC2_RTOS` enabled, otherwise the PMU
loader on a `CONFIG_NVGPU_LS_PMU` build with `support_ls_pmu` set, otherwise ACR); no
request is issued exactly when ACR is selected on cold boot; FECS and GPCCS are each
named in at most one request; the selection does not depend on
`NVGPU_PMU_FECS_BOOTSTRAP_DONE`, so it is the same on cold boot and on recovery. -/
theorem C20_secure_load_single_delegate {σ : Type} (c : gr_config) (env : gr_env σ)
    (g : gr_gk20a σ) (falcon : nvgpu_gr_falcon)
    (hsec : g.NVGPU_SEC_SECUREGPCCS = true)
    (hne : c.FALCON_ID_FECS ≠ c.FALCON_ID_GPCCS) :
    ∃ r q, nvgpu_gr_falcon_load_secure_ctxsw_ucode c env g falcon = some r ∧
      r.2.trace = g.trace ++ q ∧
      (∀ d ∈ q.filterMap GrEvent.delegate, d = selected_delegate c g) ∧
      (q.filter GrEvent.is_delegate = [] ↔
        selected_delegate c g = .acr ∧ g.NVGPU_PMU_FECS_BOOTSTRAP_DONE = false) ∧
      (q.filter (GrEvent.names_falcon c.FALCON_ID_FECS)).length ≤ 1 ∧
      (q.filter (GrEvent.names_falcon c.FALCON_ID_GPCCS)).length ≤ 1 ∧
      ∀ b, selected_delegate c { g with NVGPU_PMU_FECS_BOOTSTRAP_DONE := b } =
        selected_delegate c g := by
  obtain ⟨r, pre, s, hr, htr, hpre⟩ := load_secure_securegpccs_split c env g falcon hsec
  refine ⟨r, _, hr, htr, ?_, ?_, ?_, ?_, fun b => selected_delegate_flag c g b⟩
  · intro d hd
    obtain ⟨e, he, hed⟩ := List.mem_filterMap.1 hd
    rcases List.mem_append.1 he with he | he
    · rcases List.mem_append.1 he with he | he
      · rw [(hpre e he).2.1] at hed
        cases hed
      · rw [(secure_delegate_requests_selected c g _ e he).1] at hed
        exact (Option.some.inj hed).symm
    · split at he
      · simp only [List.mem_cons, List.mem_singleton, List.not_mem_nil, or_false] at he
        rcases he with rfl | rfl <;> cases hed
      · cases he
  · rw [filter_delegate_split pre _ _ hpre (secure_delegate_requests_filter c g _)]
    exact secure_delegate_requests_eq_nil_iff c g _
  · rw [filter_names_falcon_split _ pre _ _ hpre]
    exact secure_delegate_requests_names_le_one c g _ _ hne
  · rw [filter_names_falcon_split _ pre _ _ hpre]
    exact secure_delegate_requests_names_le_one c g _ _ hne

/-- Witness for C20 (amended): the simulated device with the SEC2 RTOS, falcon ids 2
and 3. -/
theorem C20_secure_load_single_delegate_witness :
    (gr_sim_g_sec2.NVGPU_SEC_SECUREGPCCS = true ∧
      gr_sim_config.FALCON_ID_FECS ≠ gr_sim_config.FALCON_ID_GPCCS) ∧
    selected_delegate gr_sim_config gr_sim_g_sec2 = .sec2_rtos ∧
    ∃ r q, nvgpu_gr_falcon_load_secure_ctxsw_ucode gr_sim_config (gr_sim_env 0 0 0 0)
        gr_sim_g_sec2 gr_sim_falcon = some r ∧
      r.2.trace = gr_sim_g_sec2.trace ++ q ∧
      (∀ d ∈ q.filterMap GrEvent.delegate, d = selected_delegate gr_sim_config gr_sim_g_sec2) ∧
      (q.filter GrEvent.is_delegate = [] ↔
        selected_delegate gr_sim_config gr_sim_g_sec2 = .acr ∧
          gr_sim_g_sec2.NVGPU_PMU_FECS_BOOTSTRAP_DONE = false) ∧
      (q.filter (GrEvent.names_falcon gr_sim_config.FALCON_ID_FECS)).length ≤ 1 ∧
      (q.filter (GrEvent.names_falcon gr_sim_config.FALCON_ID_GPCCS)).length ≤ 1 ∧
      ∀ b, selected_delegate gr_sim_config
          { gr_sim_g_sec2 with NVGPU_PMU_FECS_BOOTSTRAP_DONE := b } =
        selected_delegate gr_sim_config gr_sim_g_sec2 :=
  ⟨by decide, by decide,
    C20_secure_load_single_delegate gr_sim_config (gr_sim_env 0 0 0 0) gr_sim_g_sec2
      gr_sim_falcon rfl (by decide)⟩

section ucode_segments

variable {σ : Type}

/-- The two register loads of `nvgpu_gr_falcon_load_ctxsw_ucode_segments`: the header,
then the boot entry, made exactly when none of the four checked additions traps. -/
theorem load_ucode_segments_eq (env : gr_env σ) (g : gr_gk20a σ) (addr_base : Nat)
    (segments : nvgpu_ctxsw_ucode_segments) (reg_offset : Nat) :
    nvgpu_gr_falcon_load_ctxsw_ucode_segments env g addr_base segments reg_offset =
      if addr_base + segments.code.offset < 18446744073709551616 ∧
          addr_base + segments.data.offset < 18446744073709551616 ∧
          addr_base + segments.boot.offset < 18446744073709551616 ∧
          segments.boot.size + 255 < 4294967296 then
        some
          { g with
            hw :=
              env.load_ctxsw_ucode_boot reg_offset segments.boot_entry
                (u64_lo32 ((addr_base + segments.boot.offset) >>> 8))
                (((segments.boot.size + 255) &&& (4294967295 - 255)) >>> 8)
                segments.boot_imem_offset
                (env.load_ctxsw_ucode_header reg_offset segments.boot_signature
                  (u64_lo32 ((addr_base + segments.code.offset) >>> 8))
                  (u64_lo32 ((addr_base + segments.data.offset) >>> 8)) segments.code.size
                  segments.data.size g.hw)
            trace :=
              g.trace ++
                [ucode_header_event addr_base segments reg_offset,
                  ucode_boot_event addr_base segments reg_offset] }
      else none := by
  unfold nvgpu_gr_falcon_load_ctxsw_ucode_segments nvgpu_gr_falcon_load_ctxsw_ucode_header
    nvgpu_gr_falcon_load_ctxsw_ucode_boot nvgpu_safe_add_u64 nvgpu_safe_add_u32
    ucode_header_event ucode_boot_event
  by_cases h1 : addr_base + segments.code.offset < 18446744073709551616
  · by_cases h2 : addr_base + segments.data.offset < 18446744073709551616
    · by_cases h3 : addr_base + segments.boot.offset < 18446744073709551616
      · by_cases h4 : segments.boot.size + 255 < 4294967296
        · simp [h1, h2, h3, h4, gr_gk20a.step]
        · simp [h1, h2, h3, h4]
      · simp [h1, h2, h3]
    · simp [h1, h2]
  · simp [h1]

/-- What `nvgpu_gr_falcon_load_gpccs_with_bootloader` adds to the trace when it
returns: the bind, then the GPCCS header and boot entry at the GPCCS register
offset. -/
theorem load_gpccs_with_bootloader_trace (env : gr_env σ) (g g1 : gr_gk20a σ)
    (falcon : nvgpu_gr_falcon)
    (h : nvgpu_gr_falcon_load_gpccs_with_bootloader env g falcon = some g1) :
    g1.trace =
        g.trace ++
          [.bind_instblk (env.nvgpu_inst_block_addr falcon.ctxsw_ucode_info.inst_blk_desc g.hw),
            ucode_header_event falcon.ctxsw_ucode_info.surface_desc.gpu_va
              falcon.ctxsw_ucode_info.gpccs env.get_gpccs_start_reg_offset,
            ucode_boot_event falcon.ctxsw_ucode_info.surface_desc.gpu_va
              falcon.ctxsw_ucode_info.gpccs env.get_gpccs_start_reg_offset] ∧
      g1.NVGPU_PMU_FECS_BOOTSTRAP_DONE = g.NVGPU_PMU_FECS_BOOTSTRAP_DONE := by
  unfold nvgpu_gr_falcon_load_gpccs_with_bootloader at h
  rw [load_ucode_segments_eq] at h
  split at h
  · cases h
    simp [nvgpu_gr_falcon_bind_instblk, gr_gk20a.step]
  · cases h

/-- `nvgpu_gr_falcon_load_gpccs_with_bootloader` returns exactly when none of the four
checked additions on the GPCCS segments traps. -/
theorem load_gpccs_with_bootloader_isSome (env : gr_env σ) (g : gr_gk20a σ)
    (falcon : nvgpu_gr_falcon)
    (hfit : falcon.ctxsw_ucode_info.surface_desc.gpu_va +
          falcon.ctxsw_ucode_info.gpccs.code.offset < 18446744073709551616 ∧
        falcon.ctxsw_ucode_info.surface_desc.gpu_va +
          falcon.ctxsw_ucode_info.gpccs.data.offset < 18446744073709551616 ∧
        falcon.ctxsw_ucode_info.surface_desc.gpu_va +
          falcon.ctxsw_ucode_info.gpccs.boot.offset < 18446744073709551616 ∧
        falcon.ctxsw_ucode_info.gpccs.boot.size + 255 < 4294967296) :
    ∃ g1, nvgpu_gr_falcon_load_gpccs_with_bootloader env g falcon = some g1 := by
  unfold nvgpu_gr_falcon_load_gpccs_with_bootloader
  rw [load_ucode_segments_eq, if_pos hfit]
  exact ⟨_, rfl⟩

end ucode_segments

section nonsecure_load

variable {σ : Type}

/-- The calls of one secure load when GPCCS is not secure, if the load returns:
`configure_fmodel` on the functional model, the flag write on cold boot, the bind and
the GPCCS header and boot entry, on recovery with the LS PMU built the FECS request
to the PMU loader, and the two start triggers exactly when the status is 0. -/
theorem load_secure_nonsecure_trace (c : gr_config) (env : gr_env σ) (g : gr_gk20a σ)
    (falcon : nvgpu_gr_falcon) (hsec : g.NVGPU_SEC_SECUREGPCCS = false)
    (r : Int × gr_gk20a σ)
    (hr : nvgpu_gr_falcon_load_secure_ctxsw_ucode c env g falcon = some r) :
    ∃ q0 p, (∀ e ∈ q0, e = GrEvent.configure_fmodel) ∧
      r.2.trace =
        g.trace ++ q0 ++
          (if g.NVGPU_PMU_FECS_BOOTSTRAP_DONE then []
            else [GrEvent.set_enabled_PMU_FECS_BOOTSTRAP_DONE true]) ++
          [.bind_instblk p,
            ucode_header_event falcon.ctxsw_ucode_info.surface_desc.gpu_va
              falcon.ctxsw_ucode_info.gpccs env.get_gpccs_start_reg_offset,
            ucode_boot_event falcon.ctxsw_ucode_info.surface_desc.gpu_va
              falcon.ctxsw_ucode_info.gpccs env.get_gpccs_start_reg_offset] ++
          (if g.NVGPU_PMU_FECS_BOOTSTRAP_DONE ∧ c.CONFIG_NVGPU_LS_PMU then
            [GrEvent.pmu_lsfm_bootstrap_ls_falcon (BIT32 c.FALCON_ID_FECS)]
            else []) ++
          (if r.1 = 0 then [.start_gpccs, .start_fecs] else []) := by
  obtain ⟨q0, hq0, hall⟩ := configure_fmodel_trace c env g
  have hx := configure_fmodel_extends (fun _ => true) rfl c env g
  have hd := configure_fmodel_bootstrap_done c env g
  obtain ⟨_, _, _, _, hsec0, _, _⟩ := hx
  rw [hsec] at hsec0
  unfold nvgpu_gr_falcon_load_secure_ctxsw_ucode at hr
  generalize gr_falcon_configure_fmodel c env g = g0 at hq0 hd hsec0 hr
  by_cases hdone : g.NVGPU_PMU_FECS_BOOTSTRAP_DONE = true
  · rw [hdone] at hd
    simp only [hd, hsec0, if_true, Bool.false_eq_true, not_false_eq_true] at hr
    cases hl : nvgpu_gr_falcon_load_gpccs_with_bootloader env g0 falcon with
    | none => rw [hl] at hr; cases hr
    | some g1 =>
      rw [hl] at hr
      obtain ⟨htr1, _⟩ := load_gpccs_with_bootloader_trace env g0 g1 falcon hl
      refine ⟨q0, env.nvgpu_inst_block_addr falcon.ctxsw_ucode_info.inst_blk_desc g0.hw, hall, ?_⟩
      by_cases hp : c.CONFIG_NVGPU_LS_PMU = true
      · obtain ⟨r1, hr1, htr, _⟩ := load_secure_tail env
          (call_pmu_lsfm_bootstrap_ls_falcon env g1 (BIT32 c.FALCON_ID_FECS))
        simp only [hp, if_true] at hr
        rw [hr1] at hr
        cases hr
        rw [htr]
        simp [hdone, hp, htr1, hq0, call_pmu_lsfm_bootstrap_ls_falcon]
      · have hp' : c.CONFIG_NVGPU_LS_PMU = false := by simpa using hp
        simp only [hp', Bool.false_eq_true, if_false, ne_eq, not_true_eq_false] at hr
        cases hr
        simp [hdone, hp', htr1, hq0, load_secure_start, gr_gk20a.step]
  · have hdone' : g.NVGPU_PMU_FECS_BOOTSTRAP_DONE = false := by simpa using hdone
    rw [hdone'] at hd
    simp only [hd, hsec0, if_false, Bool.false_eq_true, not_false_eq_true, if_true] at hr
    split at hr
    · cases hr
    · rename_i g1 hl
      obtain ⟨htr1, _⟩ := load_gpccs_with_bootloader_trace env _ g1 falcon hl
      refine ⟨q0, env.nvgpu_inst_block_addr falcon.ctxsw_ucode_info.inst_blk_desc g0.hw, hall, ?_⟩
      cases hr
      simp [hdone', htr1, hq0, load_secure_start, gr_gk20a.step]

/-- Every secure load that returns leaves `NVGPU_PMU_FECS_BOOTSTRAP_DONE` set. -/
theorem load_secure_sets_done (c : gr_config) (env : gr_env σ) (g : gr_gk20a σ)
    (falcon : nvgpu_gr_falcon) (r : Int × gr_gk20a σ)
    (hr : nvgpu_gr_falcon_load_secure_ctxsw_ucode c env g falcon = some r) :
    r.2.NVGPU_PMU_FECS_BOOTSTRAP_DONE = true := by
  have hd := configure_fmodel_bootstrap_done c env g
  unfold nvgpu_gr_falcon_load_secure_ctxsw_ucode at hr
  generalize gr_falcon_configure_fmodel c env g = g0 at hd hr
  have htail : ∀ (r0 : Int × gr_gk20a σ), r0.2.NVGPU_PMU_FECS_BOOTSTRAP_DONE = true →
      (if r0.1 ≠ 0 then some r0 else some (load_secure_start env r0.2)) = some r →
      r.2.NVGPU_PMU_FECS_BOOTSTRAP_DONE = true := by
    intro r0 h0 h
    split at h
    · cases h
      exact h0
    · cases h
      exact h0
  by_cases hdone : g0.NVGPU_PMU_FECS_BOOTSTRAP_DONE = true
  · simp only [hdone, if_true] at hr
    split at hr
    · cases hl : nvgpu_gr_falcon_load_gpccs_with_bootloader env g0 falcon with
      | none => rw [hl] at hr; cases hr
      | some g1 =>
        rw [hl] at hr
        have h1 := (load_gpccs_with_bootloader_trace env g0 g1 falcon hl).2
        refine htail _ ?_ hr
        split
        · exact h1.trans hdone
        · exact h1.trans hdone
    · refine htail _ ?_ hr
      split
      · exact hdone
      · split
        · exact hdone
        · exact hdone
  · simp only [hdone, if_false, Bool.false_eq_true] at hr
    split at hr
    · split at hr
      · cases hr
      · rename_i g1 hl
        have h1 := (load_gpccs_with_bootloader_trace env _ g1 falcon hl).2
        cases hr
        exact h1
    · refine htail _ ?_ hr
      split
      · rfl
      · split
        · rfl
        · rfl

end nonsecure_load

section bootloader_calls

variable {σ : Type}

theorem ucode_reg_offset_of_not_ucode_load (e : GrEvent) (h : e.is_ucode_load = false) :
    e.ucode_reg_offset = none := by
  cases e <;> simp [GrEvent.is_ucode_load, GrEvent.ucode_reg_offset] at h ⊢

theorem secure_delegate_requests_not_load (c : gr_config) (g : gr_gk20a σ) (mask : Nat)
    (e : GrEvent) (he : e ∈ secure_delegate_requests c g mask) :
    e.is_bind = false ∧ e.is_ucode_load = false := by
  have h := (secure_delegate_requests_selected c g mask e he).1
  cases e <;> simp [GrEvent.delegate] at h <;> exact ⟨rfl, rfl⟩

theorem start_tail_not_load (p : Prop) [Decidable p] (e : GrEvent)
    (he : e ∈ (if p then [GrEvent.start_gpccs, GrEvent.start_fecs] else [])) :
    e.is_bind = false ∧ e.is_ucode_load = false ∧ e.is_delegate = false := by
  split at he
  · simp only [List.mem_cons, List.mem_singleton, List.not_mem_nil, or_false] at he
    rcases he with rfl | rfl <;> exact ⟨rfl, rfl, rfl⟩
  · cases he

theorem cold_flag_not_load (b : Bool) (e : GrEvent)
    (he : e ∈ (if b then [] else [GrEvent.set_enabled_PMU_FECS_BOOTSTRAP_DONE true])) :
    e.is_bind = false ∧ e.is_ucode_load = false ∧ e.is_delegate = false := by
  split at he
  · cases he
  · simp only [List.mem_singleton] at he
    subst he
    exact ⟨rfl, rfl, rfl⟩

/-- With GPCCS not secure the load returns whenever no checked addition on the GPCCS
segments traps. -/
theorem load_secure_nonsecure_isSome (c : gr_config) (env : gr_env σ) (g : gr_gk20a σ)
    (falcon : nvgpu_gr_falcon) (hsec : g.NVGPU_SEC_SECUREGPCCS = false)
    (hfit : falcon.ctxsw_ucode_info.surface_desc.gpu_va +
          falcon.ctxsw_ucode_info.gpccs.code.offset < 18446744073709551616 ∧
        falcon.ctxsw_ucode_info.surface_desc.gpu_va +
          falcon.ctxsw_ucode_info.gpccs.data.offset < 18446744073709551616 ∧
        falcon.ctxsw_ucode_info.surface_desc.gpu_va +
          falcon.ctxsw_ucode_info.gpccs.boot.offset < 18446744073709551616 ∧
        falcon.ctxsw_ucode_info.gpccs.boot.size + 255 < 4294967296) :
    ∃ r, nvgpu_gr_falcon_load_secure_ctxsw_ucode c env g falcon = some r := by
  have hx := configure_fmodel_extends (fun _ => true) rfl c env g
  obtain ⟨_, _, _, _, hsec0, _, _⟩ := hx
  rw [hsec] at hsec0
  unfold nvgpu_gr_falcon_load_secure_ctxsw_ucode
  generalize gr_falcon_configure_fmodel c env g = g0 at hsec0
  simp only [hsec0, Bool.false_eq_true, not_false_eq_true, if_true]
  split
  · split
    · rename_i heq
      obtain ⟨g1, hg1⟩ := load_gpccs_with_bootloader_isSome env g0 falcon hfit
      rw [hg1] at heq
      cases heq
    · exact (load_secure_tail env _).imp (fun r h => h.1)
  · split
    · rename_i heq
      obtain ⟨g1, hg1⟩ := load_gpccs_with_bootloader_isSome env _ falcon hfit
      rw [hg1] at heq
      cases heq
    · exact ⟨_, rfl⟩

end bootloader_calls

/-- C21: in `nvgpu_gr_falcon_load_secure_ctxsw_ucode` with `NVGPU_SEC_SECUREGPCCS`
enabled (cold boot or recovery) the call returns and adds to the trace exactly one
instance-block bind, no header and no boot-entry load, and no bootstrap request
before the bind. With `NVGPU_SEC_SECUREGPCCS` not enabled the call returns unless a
checked addition on the GPCCS segments traps, and a call that returns adds exactly
one bind followed by the header and the boot-entry load of the GPCCS segments at the
GPCCS register offset, and no other bind, header or boot-entry load: none for
FECS. -/
theorem C21_secure_load_bind_and_ucode_loads {σ : Type} (c : gr_config) (env : gr_env σ)
    (g : gr_gk20a σ) (falcon : nvgpu_gr_falcon) :
    (g.NVGPU_SEC_SECUREGPCCS = true →
      ∃ r pre p post, nvgpu_gr_falcon_load_secure_ctxsw_ucode c env g falcon = some r ∧
        r.2.trace = g.trace ++ (pre ++ [.bind_instblk p] ++ post) ∧
        (∀ e ∈ pre, e.is_bind = false ∧ e.is_ucode_load = false ∧ e.is_delegate = false) ∧
        (∀ e ∈ post, e.is_bind = false ∧ e.is_ucode_load = false)) ∧
    (g.NVGPU_SEC_SECUREGPCCS = false →
      (falcon.ctxsw_ucode_info.surface_desc.gpu_va +
            falcon.ctxsw_ucode_info.gpccs.code.offset < 18446744073709551616 ∧
          falcon.ctxsw_ucode_info.surface_desc.gpu_va +
            falcon.ctxsw_ucode_info.gpccs.data.offset < 18446744073709551616 ∧
          falcon.ctxsw_ucode_info.surface_desc.gpu_va +
            falcon.ctxsw_ucode_info.gpccs.boot.offset < 18446744073709551616 ∧
          falcon.ctxsw_ucode_info.gpccs.boot.size + 255 < 4294967296 →
        ∃ r, nvgpu_gr_falcon_load_secure_ctxsw_ucode c env g falcon = some r) ∧
      ∀ r, nvgpu_gr_falcon_load_secure_ctxsw_ucode c env g falcon = some r →
        ∃ pre p post,
          r.2.trace =
            g.trace ++
              (pre ++
                [.bind_instblk p,
                  ucode_header_event falcon.ctxsw_ucode_info.surface_desc.gpu_va
                    falcon.ctxsw_ucode_info.gpccs env.get_gpccs_start_reg_offset,
                  ucode_boot_event falcon.ctxsw_ucode_info.surface_desc.gpu_va
                    falcon.ctxsw_ucode_info.gpccs env.get_gpccs_start_reg_offset] ++ post) ∧
          (∀ e ∈ pre, e.is_bind = false ∧ e.is_ucode_load = false ∧ e.is_delegate = false) ∧
          (∀ e ∈ post, e.is_bind = false ∧ e.is_ucode_load = false) ∧
          ∀ e ∈ pre ++
              [.bind_instblk p,
                ucode_header_event falcon.ctxsw_ucode_info.surface_desc.gpu_va
                  falcon.ctxsw_ucode_info.gpccs env.get_gpccs_start_reg_offset,
                ucode_boot_event falcon.ctxsw_ucode_info.surface_desc.gpu_va
                  falcon.ctxsw_ucode_info.gpccs env.get_gpccs_start_reg_offset] ++ post,
            e.is_ucode_load = true →
              e.ucode_reg_offset = some env.get_gpccs_start_reg_offset) := by
  constructor
  · intro hsec
    obtain ⟨r, q0, p, s, hr, hall, htr⟩ := load_secure_securegpccs_trace c env g falcon hsec
    refine ⟨r,
      q0 ++ (if g.NVGPU_PMU_FECS_BOOTSTRAP_DONE then []
        else [GrEvent.set_enabled_PMU_FECS_BOOTSTRAP_DONE true]),
      p,
      secure_delegate_requests c g (lazy_falcon_id_mask c env s) ++
        (if r.1 = 0 then [.start_gpccs, .start_fecs] else []), hr, ?_, ?_, ?_⟩
    · rw [htr]
      simp only [List.append_assoc]
    · intro e he
      rcases List.mem_append.1 he with h | h
      · rw [hall e h]
        exact ⟨rfl, rfl, rfl⟩
      · exact cold_flag_not_load _ e h
    · intro e he
      rcases List.mem_append.1 he with h | h
      · exact secure_delegate_requests_not_load c g _ e h
      · exact ⟨(start_tail_not_load _ e h).1, (start_tail_not_load _ e h).2.1⟩
  · intro hsec
    refine ⟨load_secure_nonsecure_isSome c env g falcon hsec, ?_⟩
    intro r hr
    obtain ⟨q0, p, hall, htr⟩ := load_secure_nonsecure_trace c env g falcon hsec r hr
    have hpre : ∀ e ∈ q0 ++ (if g.NVGPU_PMU_FECS_BOOTSTRAP_DONE then []
        else [GrEvent.set_enabled_PMU_FECS_BOOTSTRAP_DONE true]),
        e.is_bind = false ∧ e.is_ucode_load = false ∧ e.is_delegate = false := by
      intro e he
      rcases List.mem_append.1 he with h | h
      · rw [hall e h]
        exact ⟨rfl, rfl, rfl⟩
      · exact cold_flag_not_load _ e h
    have hpost : ∀ e ∈ (if g.NVGPU_PMU_FECS_BOOTSTRAP_DONE ∧ c.CONFIG_NVGPU_LS_PMU then
          [GrEvent.pmu_lsfm_bootstrap_ls_falcon (BIT32 c.FALCON_ID_FECS)]
          else []) ++ (if r.1 = 0 then [.start_gpccs, .start_fecs] else []),
        e.is_bind = false ∧ e.is_ucode_load = false := by
      intro e he
      rcases List.mem_append.1 he with h | h
      · split at h
        · simp only [List.mem_singleton] at h
          subst h
          exact ⟨rfl, rfl⟩
        · cases h
      · exact ⟨(start_tail_not_load _ e h).1, (start_tail_not_load _ e h).2.1⟩
    refine ⟨_, p, _, ?_, hpre, hpost, ?_⟩
    · rw [htr]
      simp only [List.append_assoc]
    · intro e he hload
      rcases List.mem_append.1 he with h | h
      · rcases List.mem_append.1 h with h | h
        · rw [(hpre e h).2.1] at hload
          cases hload
        · simp only [List.mem_cons, List.mem_singleton, List.not_mem_nil, or_false] at h
          rcases h with rfl | rfl | rfl
          · cases hload
          · rfl
          · rfl
      · rw [(hpost e h).2] at hload
        cases hload

/-- Witness for C21: the simulated device with secure GPCCS and the SEC2 RTOS on cold
boot, and the simulated device without secure GPCCS on recovery, where the load
returns 0 after the bind, the GPCCS header and boot entry at register offset 8192,
the FECS request to the PMU loader and the two start triggers. -/
theorem C21_secure_load_bind_and_ucode_loads_witness :
    gr_sim_g_sec2.NVGPU_SEC_SECUREGPCCS = true ∧
    (∃ r pre p post,
      nvgpu_gr_falcon_load_secure_ctxsw_ucode gr_sim_config (gr_sim_env 0 0 0 0) gr_sim_g_sec2
        gr_sim_falcon = some r ∧
      r.2.trace = gr_sim_g_sec2.trace ++ (pre ++ [.bind_instblk p] ++ post) ∧
      (∀ e ∈ pre, e.is_bind = false ∧ e.is_ucode_load = false ∧ e.is_delegate = false) ∧
      (∀ e ∈ post, e.is_bind = false ∧ e.is_ucode_load = false)) ∧
    gr_sim_g_recovery.NVGPU_SEC_SECUREGPCCS = false ∧
    (∃ r, nvgpu_gr_falcon_load_secure_ctxsw_ucode gr_sim_config (gr_sim_env 0 0 0 0)
      gr_sim_g_recovery gr_sim_falcon = some r) ∧
    (∃ g1, nvgpu_gr_falcon_load_secure_ctxsw_ucode gr_sim_config (gr_sim_env 0 0 0 0)
        gr_sim_g_recovery gr_sim_falcon = some (0, g1) ∧
      g1.trace =
        [.bind_instblk 4096, .load_ctxsw_ucode_header 8192 0 0 0 0 0,
          .load_ctxsw_ucode_boot 8192 0 0 0 0, .pmu_lsfm_bootstrap_ls_falcon 4, .start_gpccs,
          .start_fecs]) :=
  ⟨rfl,
    (C21_secure_load_bind_and_ucode_loads gr_sim_config (gr_sim_env 0 0 0 0) gr_sim_g_sec2
      gr_sim_falcon).1 rfl,
    rfl,
    ((C21_secure_load_bind_and_ucode_loads gr_sim_config (gr_sim_env 0 0 0 0) gr_sim_g_recovery
      gr_sim_falcon).2 rfl).1 (by decide),
    ⟨_, rfl, by decide⟩⟩

section cold_boot_flag

variable {σ : Type}

/-- The trace one secure load adds, around the flag write: only `configure_fmodel`
comes before it, and it is written on cold boot only. -/
theorem load_secure_trace_shape (c : gr_config) (env : gr_env σ) (g : gr_gk20a σ)
    (falcon : nvgpu_gr_falcon) (r : Int × gr_gk20a σ)
    (hr : nvgpu_gr_falcon_load_secure_ctxsw_ucode c env g falcon = some r) :
    ∃ q0 post, (∀ e ∈ q0, e = GrEvent.configure_fmodel) ∧
      r.2.trace =
        g.trace ++
          (q0 ++
            (if g.NVGPU_PMU_FECS_BOOTSTRAP_DONE then []
              else [GrEvent.set_enabled_PMU_FECS_BOOTSTRAP_DONE true]) ++ post) ∧
      (∀ e ∈ post, e.is_flag_write = false) := by
  by_cases hsec : g.NVGPU_SEC_SECUREGPCCS = true
  · obtain ⟨r1, q0, p, s, hr1, hall, htr⟩ := load_secure_securegpccs_trace c env g falcon hsec
    rw [hr] at hr1
    cases hr1
    refine ⟨q0,
      [.bind_instblk p] ++ secure_delegate_requests c g (lazy_falcon_id_mask c env s) ++
        (if r.1 = 0 then [.start_gpccs, .start_fecs] else []), hall, ?_, ?_⟩
    · rw [htr]
      simp only [List.append_assoc]
    · intro e he
      rcases List.mem_append.1 he with h | h
      · rcases List.mem_append.1 h with h | h
        · simp only [List.mem_singleton] at h
          subst h
          rfl
        · have hd := (secure_delegate_requests_selected c g _ e h).1
          cases e <;> simp [GrEvent.delegate] at hd <;> rfl
      · split at h
        · simp only [List.mem_cons, List.mem_singleton, List.not_mem_nil, or_false] at h
          rcases h with rfl | rfl <;> rfl
        · cases h
  · have hsec' : g.NVGPU_SEC_SECUREGPCCS = false := by simpa using hsec
    obtain ⟨q0, p, hall, htr⟩ := load_secure_nonsecure_trace c env g falcon hsec' r hr
    refine ⟨q0,
      [.bind_instblk p,
          ucode_header_event falcon.ctxsw_ucode_info.surface_desc.gpu_va
            falcon.ctxsw_ucode_info.gpccs env.get_gpccs_start_reg_offset,
          ucode_boot_event falcon.ctxsw_ucode_info.surface_desc.gpu_va
            falcon.ctxsw_ucode_info.gpccs env.get_gpccs_start_reg_offset] ++
        (if g.NVGPU_PMU_FECS_BOOTSTRAP_DONE ∧ c.CONFIG_NVGPU_LS_PMU then
          [GrEvent.pmu_lsfm_bootstrap_ls_falcon (BIT32 c.FALCON_ID_FECS)]
          else []) ++
        (if r.1 = 0 then [.start_gpccs, .start_fecs] else []), hall, ?_, ?_⟩
    · rw [htr]
      simp only [List.append_assoc]
    · intro e he
      simp only [List.mem_append, List.mem_cons, List.mem_singleton, List.not_mem_nil,
        or_false] at he
      rcases he with ((rfl | rfl | rfl) | h) | h
      · rfl
      · rfl
      · rfl
      · split at h
        · simp only [List.mem_singleton] at h
          subst h
          rfl
        · cases h
      · split at h
        · simp only [List.mem_cons, List.mem_singleton, List.not_mem_nil, or_false] at h
          rcases h with rfl | rfl <;> rfl
        · cases h

/-- The flag writes among the events one secure load adds. -/
theorem load_secure_flag_writes (c : gr_config) (env : gr_env σ) (g : gr_gk20a σ)
    (falcon : nvgpu_gr_falcon) (r : Int × gr_gk20a σ)
    (hr : nvgpu_gr_falcon_load_secure_ctxsw_ucode c env g falcon = some r) :
    ∃ q, r.2.trace = g.trace ++ q ∧
      q.filter GrEvent.is_flag_write =
        (if g.NVGPU_PMU_FECS_BOOTSTRAP_DONE then []
          else [GrEvent.set_enabled_PMU_FECS_BOOTSTRAP_DONE true]) := by
  obtain ⟨q0, post, hall, htr, hpost⟩ := load_secure_trace_shape c env g falcon r hr
  refine ⟨_, htr, ?_⟩
  have h1 : q0.filter GrEvent.is_flag_write = [] := by
    rw [List.filter_eq_nil_iff]
    intro e he
    rw [hall e he]
    simp [GrEvent.is_flag_write]
  have h2 : post.filter GrEvent.is_flag_write = [] := by
    rw [List.filter_eq_nil_iff]
    intro e he
    simp [hpost e he]
  rw [List.filter_append, List.filter_append, h1, h2]
  split <;> simp [GrEvent.is_flag_write]

/-- Once the flag is set, no sequence of further loads writes it again or clears
it. -/
theorem load_secure_repeat_recovery (c : gr_config) (env : gr_env σ)
    (falcon : nvgpu_gr_falcon) :
    ∀ (n : Nat) (g r : gr_gk20a σ), g.NVGPU_PMU_FECS_BOOTSTRAP_DONE = true →
      load_secure_repeat c env falcon n g = some r →
      r.NVGPU_PMU_FECS_BOOTSTRAP_DONE = true ∧
        ∃ q, r.trace = g.trace ++ q ∧ q.filter GrEvent.is_flag_write = [] := by
  intro n
  induction n with
  | zero =>
    intro g r hd h
    simp only [load_secure_repeat, Option.some.injEq] at h
    subst h
    exact ⟨hd, [], by simp, rfl⟩
  | succ n ih =>
    intro g r hd h
    rw [load_secure_repeat] at h
    split at h
    · cases h
    · rename_i r1 hr1
      obtain ⟨q1, hq1, hf1⟩ := load_secure_flag_writes c env g falcon r1 hr1
      rw [hd] at hf1
      obtain ⟨hd2, q2, hq2, hf2⟩ :=
        ih r1.2 r (load_secure_sets_done c env g falcon r1 hr1) h
      refine ⟨hd2, q1 ++ q2, ?_, ?_⟩
      · rw [hq2, hq1, List.append_assoc]
      · rw [List.filter_append, hf2]
        simpa using hf1

end cold_boot_flag

section secure_flags

variable {σ : Type}

/-- A secure load that returns leaves the configuration flags it reads as they
were. -/
theorem load_secure_keeps_flags (c : gr_config) (env : gr_env σ) (g : gr_gk20a σ)
    (falcon : nvgpu_gr_falcon) (r : Int × gr_gk20a σ)
    (hr : nvgpu_gr_falcon_load_secure_ctxsw_ucode c env g falcon = some r) :
    r.2.NVGPU_SEC_SECUREGPCCS = g.NVGPU_SEC_SECUREGPCCS ∧
      r.2.NVGPU_SUPPORT_SEC2_RTOS = g.NVGPU_SUPPORT_SEC2_RTOS ∧
      r.2.support_ls_pmu = g.support_ls_pmu := by
  obtain ⟨_, _, _, _, hs, ht, hp⟩ := configure_fmodel_extends (fun _ => true) rfl c env g
  unfold nvgpu_gr_falcon_load_secure_ctxsw_ucode at hr
  generalize gr_falcon_configure_fmodel c env g = g0 at hs ht hp hr
  rw [← hs, ← ht, ← hp]
  have htail : ∀ (r0 : Int × gr_gk20a σ),
      (r0.2.NVGPU_SEC_SECUREGPCCS = g0.NVGPU_SEC_SECUREGPCCS ∧
        r0.2.NVGPU_SUPPORT_SEC2_RTOS = g0.NVGPU_SUPPORT_SEC2_RTOS ∧
        r0.2.support_ls_pmu = g0.support_ls_pmu) →
      (if r0.1 ≠ 0 then some r0 else some (load_secure_start env r0.2)) = some r →
      r.2.NVGPU_SEC_SECUREGPCCS = g0.NVGPU_SEC_SECUREGPCCS ∧
        r.2.NVGPU_SUPPORT_SEC2_RTOS = g0.NVGPU_SUPPORT_SEC2_RTOS ∧
        r.2.support_ls_pmu = g0.support_ls_pmu := by
    intro r0 h0 h
    split at h
    · cases h
      exact h0
    · cases h
      exact h0
  by_cases hdone : g0.NVGPU_PMU_FECS_BOOTSTRAP_DONE = true
  · simp only [hdone, if_true] at hr
    by_cases hsec0 : g0.NVGPU_SEC_SECUREGPCCS = true
    · simp only [hsec0, not_true_eq_false, if_false] at hr
      refine htail _ ?_ hr
      split
      · exact ⟨rfl, rfl, rfl⟩
      · split
        · exact ⟨rfl, rfl, rfl⟩
        · exact ⟨rfl, rfl, rfl⟩
    · simp only [hsec0, not_false_eq_true, if_true] at hr
      cases hl : nvgpu_gr_falcon_load_gpccs_with_bootloader env g0 falcon with
      | none =>
        rw [hl] at hr
        cases hr
      | some g1 =>
        rw [hl] at hr
        obtain ⟨_, _, _, _, a, b, d⟩ := load_gpccs_with_bootloader_extends env g0 g1 falcon hl
        refine htail _ ?_ hr
        split
        · exact ⟨a, b, d⟩
        · exact ⟨a, b, d⟩
  · simp only [hdone, if_false, Bool.false_eq_true] at hr
    by_cases hsec0 : g0.NVGPU_SEC_SECUREGPCCS = true
    · simp only [hsec0, not_true_eq_false, if_false] at hr
      refine htail _ ?_ hr
      split
      · exact ⟨hsec0.symm, rfl, rfl⟩
      · split
        · exact ⟨hsec0.symm, rfl, rfl⟩
        · exact ⟨hsec0.symm, rfl, rfl⟩
    · have hsec1 : g0.NVGPU_SEC_SECUREGPCCS = false := by simpa using hsec0
      simp only [hsec1, if_false, Bool.false_eq_true, not_false_eq_true, if_true] at hr
      split at hr
      · cases hr
      · rename_i g1 hl
        obtain ⟨_, _, _, _, a, b, d⟩ := load_gpccs_with_bootloader_extends env _ g1 falcon hl
        cases hr
        exact ⟨a.trans hsec1.symm, b, d⟩

/-- With secure GPCCS every sequence of loads runs to its end. -/
theorem load_secure_repeat_total (c : gr_config) (env : gr_env σ) (falcon : nvgpu_gr_falcon) :
    ∀ (n : Nat) (g : gr_gk20a σ), g.NVGPU_SEC_SECUREGPCCS = true →
      ∃ r, load_secure_repeat c env falcon n g = some r := by
  intro n
  induction n with
  | zero => exact fun g _ => ⟨g, rfl⟩
  | succ n ih =>
    intro g hsec
    obtain ⟨r1, _, _, _, hr1, _⟩ := load_secure_securegpccs_trace c env g falcon hsec
    obtain ⟨r, hr⟩ :=
      ih r1.2 ((load_secure_keeps_flags c env g falcon r1 hr1).1.trans hsec)
    refine ⟨r, ?_⟩
    rw [load_secure_repeat, hr1]
    exact hr

end secure_flags

/-- C22: a call of `nvgpu_gr_falcon_load_secure_ctxsw_ucode` that returns writes
`NVGPU_PMU_FECS_BOOTSTRAP_DONE` (the first statement of the cold-boot branch) exactly
when the flag is clear on entry; the write sets the flag, only `configure_fmodel` can
come before it, so it precedes the bind and every bootstrap request; and the flag is
set on return whatever the status. Over any sequence of one or more calls on one
device the flag is written exactly once if it was clear at the start and never if it
was set, so only the first call can take the cold-boot branch, and the flag is set
after the sequence. With secure GPCCS every such sequence runs to its end. -/
theorem C22_cold_boot_flag_one_shot {σ : Type} (c : gr_config) (env : gr_env σ)
    (g : gr_gk20a σ) (falcon : nvgpu_gr_falcon) :
    (∀ r, nvgpu_gr_falcon_load_secure_ctxsw_ucode c env g falcon = some r →
      r.2.NVGPU_PMU_FECS_BOOTSTRAP_DONE = true ∧
        ∃ q0 post, (∀ e ∈ q0, e = GrEvent.configure_fmodel) ∧
          r.2.trace =
            g.trace ++
              (q0 ++
                (if g.NVGPU_PMU_FECS_BOOTSTRAP_DONE then []
                  else [GrEvent.set_enabled_PMU_FECS_BOOTSTRAP_DONE true]) ++ post) ∧
          (∀ e ∈ post, e.is_flag_write = false)) ∧
    (∀ n r, load_secure_repeat c env falcon (n + 1) g = some r →
      r.NVGPU_PMU_FECS_BOOTSTRAP_DONE = true ∧
        ∃ q, r.trace = g.trace ++ q ∧
          q.filter GrEvent.is_flag_write =
            (if g.NVGPU_PMU_FECS_BOOTSTRAP_DONE then []
              else [GrEvent.set_enabled_PMU_FECS_BOOTSTRAP_DONE true])) ∧
    (g.NVGPU_SEC_SECUREGPCCS = true →
      ∀ n, ∃ r, load_secure_repeat c env falcon n g = some r) := by
  refine ⟨fun r hr => ⟨load_secure_sets_done c env g falcon r hr,
    load_secure_trace_shape c env g falcon r hr⟩, ?_,
    fun hsec n => load_secure_repeat_total c env falcon n g hsec⟩
  intro n r h
  rw [load_secure_repeat] at h
  split at h
  · cases h
  · rename_i r1 hr1
    obtain ⟨q1, hq1, hf1⟩ := load_secure_flag_writes c env g falcon r1 hr1
    obtain ⟨hd2, q2, hq2, hf2⟩ := load_secure_repeat_recovery c env falcon n r1.2 r
      (load_secure_sets_done c env g falcon r1 hr1) h
    refine ⟨hd2, q1 ++ q2, ?_, ?_⟩
    · rw [hq2, hq1, List.append_assoc]
    · rw [List.filter_append, hf2, List.append_nil]
      exact hf1

/-- Witness for C22: three successive loads on the simulated device with the SEC2 RTOS,
each of which fails with status -5 from the GPCCS request: the flag is written once,
by the first call, calls two and three take the recovery branch, and the flag is set
afterwards. -/
theorem C22_cold_boot_flag_one_shot_witness :
    gr_sim_g_sec2.NVGPU_PMU_FECS_BOOTSTRAP_DONE = false ∧
    (∃ g1, nvgpu_gr_falcon_load_secure_ctxsw_ucode gr_sim_config (gr_sim_env 0 (-5) 0 0)
      gr_sim_g_sec2 gr_sim_falcon = some (-5, g1)) ∧
    ∃ r, load_secure_repeat gr_sim_config (gr_sim_env 0 (-5) 0 0) gr_sim_falcon 3
        gr_sim_g_sec2 = some r ∧
      r.trace =
        [.set_enabled_PMU_FECS_BOOTSTRAP_DONE true, .bind_instblk 4096,
          .sec2_bootstrap_ls_falcons 2, .sec2_bootstrap_ls_falcons 3, .bind_instblk 4096,
          .sec2_bootstrap_ls_falcons 2, .sec2_bootstrap_ls_falcons 3, .bind_instblk 4096,
          .sec2_bootstrap_ls_falcons 2, .sec2_bootstrap_ls_falcons 3] ∧
      r.NVGPU_PMU_FECS_BOOTSTRAP_DONE = true ∧
      ∃ q, r.trace = gr_sim_g_sec2.trace ++ q ∧
        q.filter GrEvent.is_flag_write =
          (if gr_sim_g_sec2.NVGPU_PMU_FECS_BOOTSTRAP_DONE then []
            else [GrEvent.set_enabled_PMU_FECS_BOOTSTRAP_DONE true]) :=
  ⟨rfl, ⟨_, rfl⟩,
    { gr_sim_g_sec2 with
      hw := 9
      NVGPU_PMU_FECS_BOOTSTRAP_DONE := true
      trace :=
        [.set_enabled_PMU_FECS_BOOTSTRAP_DONE true, .bind_instblk 4096,
          .sec2_bootstrap_ls_falcons 2, .sec2_bootstrap_ls_falcons 3, .bind_instblk 4096,
          .sec2_bootstrap_ls_falcons 2, .sec2_bootstrap_ls_falcons 3, .bind_instblk 4096,
          .sec2_bootstrap_ls_falcons 2, .sec2_bootstrap_ls_falcons 3] },
    by decide, rfl,
    (C22_cold_boot_flag_one_shot gr_sim_config (gr_sim_env 0 (-5) 0 0) gr_sim_g_sec2
      gr_sim_falcon).2.1 2 _ (by decide)⟩

section bl_bootstrap

variable {σ : Type}

/-- With a bootloader larger than IMEM, `nvgpu_falcon_bl_bootstrap` returns the status
of the size query, 0, after that query alone. -/
theorem bl_bootstrap_oversize (ops : gops_falcon σ) (flcn : nvgpu_falcon σ)
    (bl_info : nvgpu_falcon_bl_info) (w : World σ) (hs : flcn.is_falcon_supported = true)
    (hbig : bl_info.bl_size > ops.get_mem_size .MEM_IMEM w.hw) :
    nvgpu_falcon_bl_bootstrap ops (some flcn) bl_info w =
      (0, w.emit (.get_mem_size .MEM_IMEM)) := by
  simp [nvgpu_falcon_bl_bootstrap, nvgpu_falcon_get_mem_size, is_falcon_valid, hs, hbig]

end bl_bootstrap

/-- C23 (code defect): on the simulated falcon with a 16-byte IMEM, a bootloader of 32
bytes makes `nvgpu_falcon_bl_bootstrap` return 0 although nothing was copied and the
bootstrap trigger was not invoked: the only call made is the IMEM size query, and the
hardware state is unchanged. -/
theorem C23_oversize_bootloader_returns_zero :
    (sim_ops 1).get_mem_size .MEM_IMEM sim_world.hw = 16 ∧
    sim_bl_info_oversize.bl_size = 32 ∧
    nvgpu_falcon_bl_bootstrap (sim_ops 1) (some sim_flcn) sim_bl_info_oversize sim_world =
      (0, { hw := sim_world.hw, trace := [.get_mem_size .MEM_IMEM] }) ∧
    (nvgpu_falcon_bl_bootstrap (sim_ops 1) (some sim_flcn) sim_bl_info_oversize
      sim_world).2.trace.filter (fun e => e.is_copy || e.is_bootstrap) = [] := by
  decide

section bl_bootstrap_steps

variable {σ : Type}

/-- A DMEM write through the wrapper adds no bootstrap trigger to the trace. -/
theorem copy_to_dmem_no_bootstrap (ops : gops_falcon σ) (flcn : nvgpu_falcon σ)
    (dst : Nat) (src : List Nat) (size port : Nat) (w : World σ)
    (hs : flcn.is_falcon_supported = true) :
    ∃ q, (nvgpu_falcon_copy_to_dmem ops (some flcn) dst src size port w).2.trace = w.trace ++ q ∧
      q.filter Event.is_bootstrap = [] := by
  obtain ⟨_, q, hq, _, hall⟩ := params_check_world ops flcn dst size .MEM_DMEM port w
  have hqf : q.filter Event.is_bootstrap = [] := by
    rw [List.filter_eq_nil_iff]
    intro e he
    rcases hall e he with h | h <;> simp [h, Event.is_bootstrap]
  by_cases hc : (falcon_memcpy_params_check ops flcn dst size .MEM_DMEM port w).1 = 0
  · rw [((copy_accepted ops flcn dst size port src false 0 w hs).1 hc).1]
    refine ⟨q ++ [.mutex_acquire .dmem_lock, .copy_to_dmem dst src size port,
      .mutex_release .dmem_lock], ?_, ?_⟩
    · simp only [hq, List.append_assoc]
    · rw [List.filter_append, hqf]
      rfl
  · rw [((copy_rejected ops flcn dst size port src false 0 w hs).1 hc).1]
    exact ⟨q, hq, hqf⟩

/-- An IMEM write through the wrapper adds no bootstrap trigger to the trace, and if it
returns 0 the backend copy was invoked with the caller's arguments. -/
theorem copy_to_imem_no_bootstrap (ops : gops_falcon σ) (flcn : nvgpu_falcon σ)
    (dst : Nat) (src : List Nat) (size port : Nat) (sec : Bool) (tag : Nat) (w : World σ)
    (hs : flcn.is_falcon_supported = true) :
    ∃ q, (nvgpu_falcon_copy_to_imem ops (some flcn) dst src size port sec tag w).2.trace =
        w.trace ++ q ∧
      q.filter Event.is_bootstrap = [] ∧
      ((nvgpu_falcon_copy_to_imem ops (some flcn) dst src size port sec tag w).1 = 0 →
        Event.copy_to_imem dst src size port sec tag ∈ q) := by
  obtain ⟨_, q, hq, _, hall⟩ := params_check_world ops flcn dst size .MEM_IMEM port w
  have hqf : q.filter Event.is_bootstrap = [] := by
    rw [List.filter_eq_nil_iff]
    intro e he
    rcases hall e he with h | h <;> simp [h, Event.is_bootstrap]
  by_cases hc : (falcon_memcpy_params_check ops flcn dst size .MEM_IMEM port w).1 = 0
  · rw [((copy_accepted ops flcn dst size port src sec tag w hs).2 hc).1]
    refine ⟨q ++ [.mutex_acquire .imem_lock, .copy_to_imem dst src size port sec tag,
      .mutex_release .imem_lock], ?_, ?_, ?_⟩
    · simp only [hq, List.append_assoc]
    · rw [List.filter_append, hqf]
      rfl
    · intro _
      simp
  · rw [((copy_rejected ops flcn dst size port src sec tag w hs).2 hc).1]
    refine ⟨q, hq, hqf, ?_⟩
    intro h
    simp [EINVAL] at h

end bl_bootstrap_steps

/-- C27: on a supported instance whose IMEM size fits in 32 bits, when the bootloader
is not larger than IMEM and the descriptor copy to DMEM returned 0,
`nvgpu_falcon_bl_bootstrap` calls the IMEM copy with destination
`dst = imem_size - bl_size`, which does not underflow, so that
`dst + bl_size = imem_size`; a failing IMEM copy is the result as it is; and when the
IMEM copy returns 0 too, the backend copy to `dst` is in the trace, the bootstrap
trigger is invoked exactly once in the whole call, with boot vector
`(bl_start_tag << 8) mod 2^32`, and its status is the result. -/
theorem C27_bootloader_at_top_of_imem {σ : Type} (ops : gops_falcon σ) (flcn : nvgpu_falcon σ)
    (bl_info : nvgpu_falcon_bl_info) (w : World σ) (hs : flcn.is_falcon_supported = true)
    (hsz : ops.get_mem_size .MEM_IMEM w.hw < 4294967296)
    (hfit : bl_info.bl_size ≤ ops.get_mem_size .MEM_IMEM w.hw)
    (hd : (bl_bootstrap_dmem_step ops flcn bl_info w).1 = 0) :
    u32_sub (ops.get_mem_size .MEM_IMEM w.hw) bl_info.bl_size =
        ops.get_mem_size .MEM_IMEM w.hw - bl_info.bl_size ∧
    u32_sub (ops.get_mem_size .MEM_IMEM w.hw) bl_info.bl_size + bl_info.bl_size =
        ops.get_mem_size .MEM_IMEM w.hw ∧
    ((bl_bootstrap_imem_step ops flcn bl_info w).1 ≠ 0 →
      nvgpu_falcon_bl_bootstrap ops (some flcn) bl_info w =
        bl_bootstrap_imem_step ops flcn bl_info w) ∧
    ((bl_bootstrap_imem_step ops flcn bl_info w).1 = 0 →
      (nvgpu_falcon_bl_bootstrap ops (some flcn) bl_info w).1 =
          (ops.bootstrap (bl_info.bl_start_tag * 256 % 4294967296)
            (bl_bootstrap_imem_step ops flcn bl_info w).2.hw).1 ∧
        ∃ q, (nvgpu_falcon_bl_bootstrap ops (some flcn) bl_info w).2.trace = w.trace ++ q ∧
          Event.copy_to_imem (ops.get_mem_size .MEM_IMEM w.hw - bl_info.bl_size) bl_info.bl_src
            bl_info.bl_size 0 false bl_info.bl_start_tag ∈ q ∧
          q.filter Event.is_bootstrap =
            [.bootstrap (bl_info.bl_start_tag * 256 % 4294967296)]) := by
  have hsub : u32_sub (ops.get_mem_size .MEM_IMEM w.hw) bl_info.bl_size =
      ops.get_mem_size .MEM_IMEM w.hw - bl_info.bl_size := by
    unfold u32_sub
    rw [show ops.get_mem_size .MEM_IMEM w.hw + 4294967296 - bl_info.bl_size =
      (ops.get_mem_size .MEM_IMEM w.hw - bl_info.bl_size) + 4294967296 by omega,
      Nat.add_mod_right]
    exact Nat.mod_eq_of_lt (by omega)
  have hnot : ¬ bl_info.bl_size > ops.get_mem_size .MEM_IMEM w.hw := by omega
  have hshift : u32 (bl_info.bl_start_tag <<< 8) = bl_info.bl_start_tag * 256 % 4294967296 := by
    rw [u32, Nat.shiftLeft_eq]
  have hm : nvgpu_falcon_get_mem_size ops (some flcn) .MEM_IMEM 0 w =
      (0, ops.get_mem_size .MEM_IMEM w.hw, w.emit (.get_mem_size .MEM_IMEM)) := by
    simp [nvgpu_falcon_get_mem_size, is_falcon_valid, hs]
  refine ⟨hsub, by rw [hsub]; omega, ?_, ?_⟩
  · intro hi
    unfold bl_bootstrap_imem_step at hi ⊢
    unfold bl_bootstrap_dmem_step at hd hi ⊢
    rw [hm] at hd hi ⊢
    simp [nvgpu_falcon_bl_bootstrap, hm, is_falcon_valid, hs, hnot, hd, hi]
  · intro hi
    obtain ⟨q1, hq1, hf1⟩ := copy_to_dmem_no_bootstrap ops flcn 0 bl_info.bl_desc
      bl_info.bl_desc_size 0 (nvgpu_falcon_get_mem_size ops (some flcn) .MEM_IMEM 0 w).2.2 hs
    obtain ⟨q2, hq2, hf2, hev⟩ := copy_to_imem_no_bootstrap ops flcn
      (u32_sub (ops.get_mem_size .MEM_IMEM w.hw) bl_info.bl_size) bl_info.bl_src bl_info.bl_size 0
      false bl_info.bl_start_tag (bl_bootstrap_dmem_step ops flcn bl_info w).2 hs
    have hev2 := hev hi
    rw [hsub] at hev2
    have hres : nvgpu_falcon_bl_bootstrap ops (some flcn) bl_info w =
        nvgpu_falcon_bootstrap ops (some flcn) (bl_info.bl_start_tag * 256 % 4294967296)
          (bl_bootstrap_imem_step ops flcn bl_info w).2 := by
      rw [← hshift]
      unfold bl_bootstrap_imem_step at hi ⊢
      unfold bl_bootstrap_dmem_step at hd hi ⊢
      rw [hm] at hd hi ⊢
      simp [nvgpu_falcon_bl_bootstrap, hm, is_falcon_valid, hs, hnot, hd, hi]
    rw [hres]
    refine ⟨by simp [nvgpu_falcon_bootstrap, is_falcon_valid, hs], ?_⟩
    refine ⟨[.get_mem_size .MEM_IMEM] ++ q1 ++ q2 ++
      [.bootstrap (bl_info.bl_start_tag * 256 % 4294967296)], ?_, ?_, ?_⟩
    · have h2 : (bl_bootstrap_imem_step ops flcn bl_info w).2.trace =
          (bl_bootstrap_dmem_step ops flcn bl_info w).2.trace ++ q2 := hq2
      have h1 : (bl_bootstrap_dmem_step ops flcn bl_info w).2.trace =
          (nvgpu_falcon_get_mem_size ops (some flcn) .MEM_IMEM 0 w).2.2.trace ++ q1 := hq1
      simp [nvgpu_falcon_bootstrap, is_falcon_valid, hs, h2, h1, hm, World.emit]
    · simp [hev2]
    · simp only [List.filter_append, hf1, hf2]
      rfl

/-- Witness for C27: on the simulated falcon with a 16-byte IMEM the 8-byte bootloader
with start tag 3 is copied to IMEM offset 8 and the bootstrap trigger is invoked once
with boot vector 768. -/
theorem C27_bootloader_at_top_of_imem_witness :
    (sim_flcn.is_falcon_supported = true ∧
      (sim_ops 1).get_mem_size .MEM_IMEM sim_world.hw < 4294967296 ∧
      sim_bl_info.bl_size ≤ (sim_ops 1).get_mem_size .MEM_IMEM sim_world.hw ∧
      (bl_bootstrap_dmem_step (sim_ops 1) sim_flcn sim_bl_info sim_world).1 = 0 ∧
      (bl_bootstrap_imem_step (sim_ops 1) sim_flcn sim_bl_info sim_world).1 = 0) ∧
    (nvgpu_falcon_bl_bootstrap (sim_ops 1) (some sim_flcn) sim_bl_info sim_world).2.hw =
      { sim_world.hw with
        imem := [0, 0, 0, 0, 0, 0, 0, 0, 1, 2, 3, 4, 5, 6, 7, 8]
        dmem := [9, 9, 9, 9, 0, 0, 0, 0, 0, 0, 0, 0, 0, 0, 0, 0]
        boot_vector := some 768 } ∧
    ∃ q, (nvgpu_falcon_bl_bootstrap (sim_ops 1) (some sim_flcn) sim_bl_info sim_world).2.trace =
        sim_world.trace ++ q ∧
      Event.copy_to_imem ((sim_ops 1).get_mem_size .MEM_IMEM sim_world.hw - sim_bl_info.bl_size)
        sim_bl_info.bl_src sim_bl_info.bl_size 0 false sim_bl_info.bl_start_tag ∈ q ∧
      q.filter Event.is_bootstrap =
        [.bootstrap (sim_bl_info.bl_start_tag * 256 % 4294967296)] :=
  ⟨by decide, by decide,
    ((C27_bootloader_at_top_of_imem (sim_ops 1) sim_flcn sim_bl_info sim_world rfl (by decide)
      (by decide) (by decide)).2.2.2 (by decide)).2⟩

/-- C25: `falcon_memcpy_params_check` tests zero size, then offset alignment, then the
port, then the region bound. A zero-size request and a non-zero request with a
misaligned offset are rejected with `-EINVAL` and no query at all; an aligned
non-zero request with `port >= get_ports_count` is rejected after the port-count
query alone; on a supported instance a request passing these three tests makes the
port-count query and then the region-size query. Whatever the request, the region
size is queried at most once (through `get_mem_size`), and only when the first three
tests passed. -/
theorem C25_params_check_order {σ : Type} (ops : gops_falcon σ) (flcn : nvgpu_falcon σ)
    (offset size : Nat) (t : falcon_mem_type) (port : Nat) (w : World σ) :
    (size = 0 → falcon_memcpy_params_check ops flcn offset size t port w = (-EINVAL, w)) ∧
    (size ≠ 0 → offset % 4 ≠ 0 →
      falcon_memcpy_params_check ops flcn offset size t port w = (-EINVAL, w)) ∧
    (size ≠ 0 → offset % 4 = 0 → port ≥ ops.get_ports_count t w.hw →
      falcon_memcpy_params_check ops flcn offset size t port w =
        (-EINVAL, { hw := w.hw, trace := w.trace ++ [.get_ports_count t] })) ∧
    (size ≠ 0 → offset % 4 = 0 → port < ops.get_ports_count t w.hw →
      flcn.is_falcon_supported = true →
      (falcon_memcpy_params_check ops flcn offset size t port w).2 =
        { hw := w.hw, trace := w.trace ++ [.get_ports_count t, .get_mem_size t] }) ∧
    (∃ q, (falcon_memcpy_params_check ops flcn offset size t port w).2.trace = w.trace ++ q ∧
      q.count (.get_mem_size t) ≤ 1 ∧
      (Event.get_mem_size t ∈ q →
        size ≠ 0 ∧ offset % 4 = 0 ∧ port < ops.get_ports_count t w.hw)) := by
  refine ⟨?_, ?_, ?_, ?_, ?_⟩
  · intro h
    simp [falcon_memcpy_params_check, h]
  · intro h1 h2
    simp [falcon_memcpy_params_check, h1, h2, and_three_eq_mod]
  · intro h1 h2 h3
    simp [falcon_memcpy_params_check, h1, h2, h3, and_three_eq_mod, World.emit]
  · intro h1 h2 h3 hs
    unfold falcon_memcpy_params_check nvgpu_falcon_get_mem_size
    simp only [h1, h2, Nat.not_le.mpr h3, and_three_eq_mod, World.emit, is_falcon_valid, hs]
    split_ifs <;> simp_all
  · by_cases h1 : size = 0
    · exact ⟨[], by simp [falcon_memcpy_params_check, h1], by simp, by simp⟩
    · by_cases h2 : offset % 4 = 0
      · by_cases h3 : port < ops.get_ports_count t w.hw
        · by_cases hs : flcn.is_falcon_supported = true
          · refine ⟨[.get_ports_count t, .get_mem_size t], ?_, by simp, fun _ => ⟨h1, h2, h3⟩⟩
            unfold falcon_memcpy_params_check nvgpu_falcon_get_mem_size
            simp only [h1, h2, Nat.not_le.mpr h3, and_three_eq_mod, World.emit, is_falcon_valid,
              hs]
            split_ifs <;> simp_all
          · refine ⟨[.get_ports_count t], ?_, by simp, fun _ => ⟨h1, h2, h3⟩⟩
            unfold falcon_memcpy_params_check nvgpu_falcon_get_mem_size
            simp only [h1, h2, Nat.not_le.mpr h3, and_three_eq_mod, World.emit, is_falcon_valid,
              hs]
            split_ifs <;> simp_all [EINVAL]
        · refine ⟨[.get_ports_count t], ?_, by simp, by simp⟩
          simp [falcon_memcpy_params_check, h1, h2, Nat.not_lt.mp h3, and_three_eq_mod,
            World.emit]
      · exact ⟨[], by simp [falcon_memcpy_params_check, h1, h2, and_three_eq_mod], by simp,
          by simp⟩

/-- Witness for C25: on the simulated falcon with one port, a zero-size request and a
misaligned request make no query, a request on port 1 makes the port-count query
only, and the request offset 4, size 8, port 0 makes both queries, in order. -/
theorem C25_params_check_order_witness :
    falcon_memcpy_params_check (sim_ops 1) sim_flcn 4 0 .MEM_DMEM 0 sim_world =
      (-EINVAL, sim_world) ∧
    falcon_memcpy_params_check (sim_ops 1) sim_flcn 5 8 .MEM_DMEM 0 sim_world =
      (-EINVAL, sim_world) ∧
    falcon_memcpy_params_check (sim_ops 1) sim_flcn 4 8 .MEM_DMEM 1 sim_world =
      (-EINVAL,
        { hw := sim_world.hw, trace := sim_world.trace ++ [.get_ports_count .MEM_DMEM] }) ∧
    (falcon_memcpy_params_check (sim_ops 1) sim_flcn 4 8 .MEM_DMEM 0 sim_world).2 =
      { hw := sim_world.hw,
        trace := sim_world.trace ++ [.get_ports_count .MEM_DMEM, .get_mem_size .MEM_DMEM] } :=
  ⟨(C25_params_check_order (sim_ops 1) sim_flcn 4 0 .MEM_DMEM 0 sim_world).1 rfl,
    (C25_params_check_order (sim_ops 1) sim_flcn 5 8 .MEM_DMEM 0 sim_world).2.1 (by decide)
      (by decide),
    (C25_params_check_order (sim_ops 1) sim_flcn 4 8 .MEM_DMEM 1 sim_world).2.2.1 (by decide)
      (by decide) (by decide),
    (C25_params_check_order (sim_ops 1) sim_flcn 4 8 .MEM_DMEM 0 sim_world).2.2.2.1 (by decide)
      (by decide) (by decide) rfl⟩

section print_mem

variable {σ : Type}

theorem spec_print_mem_blocks_small (src size : Nat) (hsrc : src < 4294967296)
    (h : size / 256 = 0) :
    spec_print_mem_blocks src size = if size = 0 then [] else [(src, size)] := by
  have h1 : size < 256 := by omega
  unfold spec_print_mem_blocks
  rw [h, Nat.mod_eq_of_lt h1]
  simp [u32, Nat.mod_eq_of_lt hsrc]

theorem spec_print_mem_blocks_succ (src size n : Nat) (hsrc : src < 4294967296)
    (h : size / 256 = n + 1) :
    spec_print_mem_blocks src size =
      (src, 256) :: spec_print_mem_blocks (u32 (src + 256)) (size - 256) := by
  have h1 : (size - 256) / 256 = n := by omega
  have h2 : (size - 256) % 256 = size % 256 := by omega
  have h3 : ∀ k, u32 (u32 (src + 256) + 256 * k) = u32 (src + 256 * (k + 1)) := by
    intro k
    unfold u32
    omega
  have e1 : List.range (n + 1) = 0 :: (List.range n).map Nat.succ := List.range_succ_eq_map n
  have h4 : u32 (src + 256 * 0) = src := by
    rw [Nat.mul_zero, Nat.add_zero]
    exact Nat.mod_eq_of_lt hsrc
  have hmap : (List.range n).map ((fun k => (u32 (src + 256 * k), 256)) ∘ Nat.succ) =
      (List.range n).map (fun k => (u32 (u32 (src + 256) + 256 * k), 256)) :=
    List.map_congr_left (fun k _ => by simp only [Function.comp, h3, Nat.succ_eq_add_one])
  unfold spec_print_mem_blocks
  rw [h, h1, h2, e1]
  rw [List.map_cons, List.map_map, List.cons_append, h4, hmap, h3]

/-- The loop of `falcon_print_mem` reads the blocks of the spec in order and stops at
the first block whose copy fails. -/
theorem print_mem_loop_eq_blocks (ops : gops_falcon σ) (flcn : nvgpu_falcon σ)
    (t : falcon_mem_type) :
    ∀ (n src size : Nat) (buff : List Nat) (w : World σ), src < 4294967296 →
      size < 4294967296 → size / 256 = n →
      falcon_print_mem_loop ops flcn t n src size buff w =
        spec_copy_blocks ops flcn t (spec_print_mem_blocks src size) buff w := by
  intro n
  induction n with
  | zero =>
    intro src size buff w hsrc _ h
    rw [spec_print_mem_blocks_small src size hsrc h, falcon_print_mem_loop]
    by_cases h0 : size = 0
    · simp [h0, spec_copy_blocks]
    · simp only [h0, if_false, spec_copy_blocks]
      split <;> simp
  | succ n ih =>
    intro src size buff w hsrc hsize h
    have hsub : u32_sub size 256 = size - 256 := by
      unfold u32_sub
      omega
    rw [spec_print_mem_blocks_succ src size n hsrc h, falcon_print_mem_loop, spec_copy_blocks]
    have hih := fun (buff : List Nat) (w : World σ) =>
      ih (u32 (src + 256)) (size - 256) buff w (Nat.mod_lt _ (by decide)) (by omega) (by omega)
    simp only [hsub, hih]

theorem spec_print_mem_blocks_sum (src size : Nat) :
    ((spec_print_mem_blocks src size).map Prod.snd).sum = size := by
  unfold spec_print_mem_blocks
  rw [List.map_append, List.sum_append, List.map_map]
  have h1 : ((List.range (size / 256)).map
      (Prod.snd ∘ fun k => (u32 (src + 256 * k), 256))).sum = 256 * (size / 256) := by
    have : (Prod.snd ∘ fun k => (u32 (src + 256 * k), 256)) = fun (_ : Nat) => 256 := rfl
    rw [this]
    simp [Nat.mul_comm]
  rw [h1]
  split
  · simp only [List.map_nil, List.sum_nil]
    omega
  · simp only [List.map_cons, List.map_nil, List.sum_cons, List.sum_nil]
    omega

/-- Where `src + size` does not wrap in 32 bits, the block offsets are `src`,
`src + 256`, `src + 512`, ... as plain integers. -/
theorem spec_print_mem_blocks_no_wrap (src size : Nat) (h : src + size ≤ 4294967296) :
    spec_print_mem_blocks src size =
      (List.range (size / 256)).map (fun k => (src + 256 * k, 256)) ++
        (if size % 256 = 0 then [] else [(src + 256 * (size / 256), size % 256)]) := by
  unfold spec_print_mem_blocks
  congr 1
  · apply List.map_congr_left
    intro k hk
    have hk' := List.mem_range.1 hk
    simp only [u32, Prod.mk.injEq, and_true]
    exact Nat.mod_eq_of_lt (by omega)
  · split
    · rfl
    · simp only [u32, List.cons.injEq, Prod.mk.injEq, and_true]
      exact Nat.mod_eq_of_lt (by omega)

end print_mem

/-- C24: on a supported instance, for 32-bit `src` and `size`: when the parameter check
accepts `(src, size)` on port 0, `falcon_print_mem` makes the copy calls of the spec:
one `nvgpu_falcon_copy_from_dmem` or `nvgpu_falcon_copy_from_imem` call on port 0 per
block, in order, the blocks being `size / 256` blocks of 256 bytes at `src`,
`src + 256`, ... and a last block of `size % 256` bytes when that is not zero; the
block lengths sum to `size`; a block whose copy fails ends the dump, with no further
call. When the check rejects `(src, size)` nothing is copied: the hardware state is
unchanged and no copy is in the trace. `nvgpu_falcon_print_dmem` and
`nvgpu_falcon_print_imem` are `falcon_print_mem` on the respective region. -/
theorem C24_print_mem_in_blocks {σ : Type} (ops : gops_falcon σ) (flcn : nvgpu_falcon σ)
    (src size : Nat) (t : falcon_mem_type) (w : World σ)
    (hs : flcn.is_falcon_supported = true) (hsrc : src < 4294967296)
    (hsize : size < 4294967296) :
    ((falcon_memcpy_params_check ops flcn src size t 0 w).1 = 0 →
      falcon_print_mem ops flcn src size t w =
        spec_copy_blocks ops flcn t (spec_print_mem_blocks src size) (List.replicate 256 0)
          (falcon_memcpy_params_check ops flcn src size t 0 w).2) ∧
    ((falcon_memcpy_params_check ops flcn src size t 0 w).1 ≠ 0 →
      (falcon_print_mem ops flcn src size t w).hw = w.hw ∧
        ∃ q, (falcon_print_mem ops flcn src size t w).trace = w.trace ++ q ∧
          q.filter Event.is_copy = []) ∧
    ((spec_print_mem_blocks src size).map Prod.snd).sum = size ∧
    (src + size ≤ 4294967296 →
      spec_print_mem_blocks src size =
        (List.range (size / 256)).map (fun k => (src + 256 * k, 256)) ++
          (if size % 256 = 0 then [] else [(src + 256 * (size / 256), size % 256)])) ∧
    (∀ (b : Nat × Nat) (rest : List (Nat × Nat)) (buff : List Nat) (w1 : World σ),
      (if t = .MEM_DMEM then nvgpu_falcon_copy_from_dmem ops (some flcn) b.1 buff b.2 0 w1
          else nvgpu_falcon_copy_from_imem ops (some flcn) b.1 buff b.2 0 w1).1 ≠ 0 →
        spec_copy_blocks ops flcn t (b :: rest) buff w1 =
          (if t = .MEM_DMEM then nvgpu_falcon_copy_from_dmem ops (some flcn) b.1 buff b.2 0 w1
            else nvgpu_falcon_copy_from_imem ops (some flcn) b.1 buff b.2 0 w1).2.2) ∧
    nvgpu_falcon_print_dmem ops (some flcn) src size w =
      falcon_print_mem ops flcn src size .MEM_DMEM w ∧
    nvgpu_falcon_print_imem ops (some flcn) src size w =
      falcon_print_mem ops flcn src size .MEM_IMEM w := by
  refine ⟨?_, ?_, spec_print_mem_blocks_sum src size, spec_print_mem_blocks_no_wrap src size,
    ?_, ?_, ?_⟩
  · intro h
    unfold falcon_print_mem
    simp only [h, ne_eq, not_true_eq_false, if_false]
    exact print_mem_loop_eq_blocks ops flcn t _ src size _ _ hsrc hsize
      (by rw [Nat.shiftRight_eq_div_pow])
  · intro h
    obtain ⟨hhw, q, hq, _, hall⟩ := params_check_world ops flcn src size t 0 w
    have hres : falcon_print_mem ops flcn src size t w =
        (falcon_memcpy_params_check ops flcn src size t 0 w).2 := by
      unfold falcon_print_mem
      simp only [h, ne_eq, not_false_eq_true, if_true]
    rw [hres]
    refine ⟨hhw, q, hq, ?_⟩
    rw [List.filter_eq_nil_iff]
    intro e he
    rcases hall e he with h1 | h1 <;> simp [h1, Event.is_copy]
  · intro b rest buff w1 h
    rw [spec_copy_blocks]
    simp only [h, ne_eq, not_false_eq_true, if_true]
  · simp [nvgpu_falcon_print_dmem, is_falcon_valid, hs]
  · simp [nvgpu_falcon_print_imem, is_falcon_valid, hs]

set_option maxRecDepth 100000 in
/-- Witness for C24: a dump of 520 bytes of the 520-byte data memory of the simulated
falcon reads the blocks (0, 256), (256, 256) and (512, 8) on port 0. -/
theorem C24_print_mem_in_blocks_witness :
    (sim_flcn.is_falcon_supported = true ∧
      (falcon_memcpy_params_check (sim_ops 1) sim_flcn 0 520 .MEM_DMEM 0 sim_world_520).1 = 0) ∧
    spec_print_mem_blocks 0 520 = [(0, 256), (256, 256), (512, 8)] ∧
    falcon_print_mem (sim_ops 1) sim_flcn 0 520 .MEM_DMEM sim_world_520 =
      spec_copy_blocks (sim_ops 1) sim_flcn .MEM_DMEM (spec_print_mem_blocks 0 520)
        (List.replicate 256 0)
        (falcon_memcpy_params_check (sim_ops 1) sim_flcn 0 520 .MEM_DMEM 0 sim_world_520).2 ∧
    (falcon_print_mem (sim_ops 1) sim_flcn 0 520 .MEM_DMEM sim_world_520).trace.filter
        Event.is_copy =
      [.copy_from_dmem 0 256 0, .copy_from_dmem 256 256 0, .copy_from_dmem 512 8 0] :=
  ⟨⟨rfl, by decide⟩, by decide,
    (C24_print_mem_in_blocks (sim_ops 1) sim_flcn 0 520 .MEM_DMEM sim_world_520 rfl (by decide)
      (by decide)).1 (by decide),
    by decide⟩

section ucode_addresses

variable {σ : Type}

/-- The block count of the boot-entry load: the boot size rounded up to whole 256-byte
blocks. -/
theorem boot_blocks_eq (size : Nat) (h : size + 255 < 4294967296) :
    ((size + 255) &&& (4294967295 - 255)) >>> 8 = (size + 255) / 256 := by
  have h1 := and_not_mask_eq (size + 255) 8 (by decide) h
  rw [show (2 : Nat) ^ 8 = 256 from rfl] at h1
  rw [show (4294967295 - 255 : Nat) = 4294967295 - (256 - 1) from rfl, h1,
    Nat.shiftRight_eq_div_pow, show (2 : Nat) ^ 8 = 256 from rfl,
    Nat.mul_div_cancel _ (by decide)]

/-- The calls of `nvgpu_gr_falcon_load_with_bootloader` when no checked addition
traps: the bind, then header and boot entry for FECS at register offset 0, then for
GPCCS at the GPCCS register offset. -/
theorem load_with_bootloader_trace (env : gr_env σ) (g : gr_gk20a σ) (falcon : nvgpu_gr_falcon)
    (hf : falcon.ctxsw_ucode_info.surface_desc.gpu_va +
          falcon.ctxsw_ucode_info.fecs.code.offset < 18446744073709551616 ∧
        falcon.ctxsw_ucode_info.surface_desc.gpu_va +
          falcon.ctxsw_ucode_info.fecs.data.offset < 18446744073709551616 ∧
        falcon.ctxsw_ucode_info.surface_desc.gpu_va +
          falcon.ctxsw_ucode_info.fecs.boot.offset < 18446744073709551616 ∧
        falcon.ctxsw_ucode_info.fecs.boot.size + 255 < 4294967296)
    (hg : falcon.ctxsw_ucode_info.surface_desc.gpu_va +
          falcon.ctxsw_ucode_info.gpccs.code.offset < 18446744073709551616 ∧
        falcon.ctxsw_ucode_info.surface_desc.gpu_va +
          falcon.ctxsw_ucode_info.gpccs.data.offset < 18446744073709551616 ∧
        falcon.ctxsw_ucode_info.surface_desc.gpu_va +
          falcon.ctxsw_ucode_info.gpccs.boot.offset < 18446744073709551616 ∧
        falcon.ctxsw_ucode_info.gpccs.boot.size + 255 < 4294967296) :
    ∃ g1, nvgpu_gr_falcon_load_with_bootloader env g falcon = some g1 ∧
      g1.trace =
        g.trace ++
          [.bind_instblk (env.nvgpu_inst_block_addr falcon.ctxsw_ucode_info.inst_blk_desc g.hw),
            ucode_header_event falcon.ctxsw_ucode_info.surface_desc.gpu_va
              falcon.ctxsw_ucode_info.fecs 0,
            ucode_boot_event falcon.ctxsw_ucode_info.surface_desc.gpu_va
              falcon.ctxsw_ucode_info.fecs 0,
            ucode_header_event falcon.ctxsw_ucode_info.surface_desc.gpu_va
              falcon.ctxsw_ucode_info.gpccs env.get_gpccs_start_reg_offset,
            ucode_boot_event falcon.ctxsw_ucode_info.surface_desc.gpu_va
              falcon.ctxsw_ucode_info.gpccs env.get_gpccs_start_reg_offset] := by
  unfold nvgpu_gr_falcon_load_with_bootloader
  simp only [load_ucode_segments_eq, if_pos hf, if_pos hg]
  exact ⟨_, rfl, by simp [nvgpu_gr_falcon_bind_instblk, gr_gk20a.step]⟩

end ucode_addresses

/-- C26: `nvgpu_gr_falcon_load_ctxsw_ucode_header` makes its chip call exactly when the
two checked 64-bit additions do not trap, and passes the boot signature, the low 32
bits of `(addr_base + code.offset) >> 8` and of `(addr_base + data.offset) >> 8`, and
the code and data sizes; `nvgpu_gr_falcon_load_ctxsw_ucode_boot` makes its chip call
exactly when its two checked additions do not trap, and passes `boot_entry`, the low
32 bits of `(addr_base + boot.offset) >> 8`, the block count
`(boot.size + 255) / 256` and the destination `boot_imem_offset`. For multiples of
256 with `addr_base + off < 2^40` each 32-bit address passed, shifted left by 8, is
`addr_base + off`; the block count `b` passed satisfies `boot.size <= b * 256` and,
for a non-zero boot size, `(b - 1) * 256 < boot.size`. When nothing traps,
`nvgpu_gr_falcon_load_with_bootloader` binds the instance block, then writes header
and boot entry for FECS at register offset 0, then for GPCCS at the GPCCS register
offset. -/
theorem C26_ucode_header_and_boot_arguments {σ : Type} (env : gr_env σ) (g : gr_gk20a σ)
    (addr_base : Nat) (segments : nvgpu_ctxsw_ucode_segments) (reg_offset : Nat)
    (falcon : nvgpu_gr_falcon) :
    nvgpu_gr_falcon_load_ctxsw_ucode_header env g addr_base segments reg_offset =
      (if addr_base + segments.code.offset < 18446744073709551616 ∧
          addr_base + segments.data.offset < 18446744073709551616 then
        some
          (g.step
            (env.load_ctxsw_ucode_header reg_offset segments.boot_signature
              ((addr_base + segments.code.offset) / 256 % 4294967296)
              ((addr_base + segments.data.offset) / 256 % 4294967296) segments.code.size
              segments.data.size)
            (.load_ctxsw_ucode_header reg_offset segments.boot_signature
              ((addr_base + segments.code.offset) / 256 % 4294967296)
              ((addr_base + segments.data.offset) / 256 % 4294967296) segments.code.size
              segments.data.size))
        else none) ∧
    nvgpu_gr_falcon_load_ctxsw_ucode_boot env g addr_base segments reg_offset =
      (if addr_base + segments.boot.offset < 18446744073709551616 ∧
          segments.boot.size + 255 < 4294967296 then
        some
          (g.step
            (env.load_ctxsw_ucode_boot reg_offset segments.boot_entry
              ((addr_base + segments.boot.offset) / 256 % 4294967296)
              ((segments.boot.size + 255) / 256) segments.boot_imem_offset)
            (.load_ctxsw_ucode_boot reg_offset segments.boot_entry
              ((addr_base + segments.boot.offset) / 256 % 4294967296)
              ((segments.boot.size + 255) / 256) segments.boot_imem_offset))
        else none) ∧
    (∀ g1, nvgpu_gr_falcon_load_ctxsw_ucode_header env g addr_base segments reg_offset =
        some g1 →
      ∃ addr_code32 addr_data32,
        g1.trace =
          g.trace ++
            [.load_ctxsw_ucode_header reg_offset segments.boot_signature addr_code32 addr_data32
              segments.code.size segments.data.size] ∧
        (addr_base % 256 = 0 → segments.code.offset % 256 = 0 →
          addr_base + segments.code.offset < 1099511627776 →
          addr_code32 <<< 8 = addr_base + segments.code.offset) ∧
        (addr_base % 256 = 0 → segments.data.offset % 256 = 0 →
          addr_base + segments.data.offset < 1099511627776 →
          addr_data32 <<< 8 = addr_base + segments.data.offset)) ∧
    (∀ g1, nvgpu_gr_falcon_load_ctxsw_ucode_boot env g addr_base segments reg_offset = some g1 →
      ∃ addr_load32 blocks,
        g1.trace =
          g.trace ++
            [.load_ctxsw_ucode_boot reg_offset segments.boot_entry addr_load32 blocks
              segments.boot_imem_offset] ∧
        (addr_base % 256 = 0 → segments.boot.offset % 256 = 0 →
          addr_base + segments.boot.offset < 1099511627776 →
          addr_load32 <<< 8 = addr_base + segments.boot.offset) ∧
        segments.boot.size ≤ blocks * 256 ∧
        (0 < segments.boot.size → (blocks - 1) * 256 < segments.boot.size)) ∧
    ((falcon.ctxsw_ucode_info.surface_desc.gpu_va +
            falcon.ctxsw_ucode_info.fecs.code.offset < 18446744073709551616 ∧
          falcon.ctxsw_ucode_info.surface_desc.gpu_va +
            falcon.ctxsw_ucode_info.fecs.data.offset < 18446744073709551616 ∧
          falcon.ctxsw_ucode_info.surface_desc.gpu_va +
            falcon.ctxsw_ucode_info.fecs.boot.offset < 18446744073709551616 ∧
          falcon.ctxsw_ucode_info.fecs.boot.size + 255 < 4294967296) →
      (falcon.ctxsw_ucode_info.surface_desc.gpu_va +
            falcon.ctxsw_ucode_info.gpccs.code.offset < 18446744073709551616 ∧
          falcon.ctxsw_ucode_info.surface_desc.gpu_va +
            falcon.ctxsw_ucode_info.gpccs.data.offset < 18446744073709551616 ∧
          falcon.ctxsw_ucode_info.surface_desc.gpu_va +
            falcon.ctxsw_ucode_info.gpccs.boot.offset < 18446744073709551616 ∧
          falcon.ctxsw_ucode_info.gpccs.boot.size + 255 < 4294967296) →
      ∃ g1, nvgpu_gr_falcon_load_with_bootloader env g falcon = some g1 ∧
        g1.trace =
          g.trace ++
            [.bind_instblk
                (env.nvgpu_inst_block_addr falcon.ctxsw_ucode_info.inst_blk_desc g.hw),
              ucode_header_event falcon.ctxsw_ucode_info.surface_desc.gpu_va
                falcon.ctxsw_ucode_info.fecs 0,
              ucode_boot_event falcon.ctxsw_ucode_info.surface_desc.gpu_va
                falcon.ctxsw_ucode_info.fecs 0,
              ucode_header_event falcon.ctxsw_ucode_info.surface_desc.gpu_va
                falcon.ctxsw_ucode_info.gpccs env.get_gpccs_start_reg_offset,
              ucode_boot_event falcon.ctxsw_ucode_info.surface_desc.gpu_va
                falcon.ctxsw_ucode_info.gpccs env.get_gpccs_start_reg_offset]) := by
  have hshift : ∀ x, addr_base % 256 = 0 → x % 256 = 0 → addr_base + x < 1099511627776 →
      ((addr_base + x) / 256 % 4294967296) <<< 8 = addr_base + x := by
    intro x ha hx hlt
    rw [Nat.shiftLeft_eq, show (2 : Nat) ^ 8 = 256 from rfl]
    omega
  have hheader : nvgpu_gr_falcon_load_ctxsw_ucode_header env g addr_base segments reg_offset =
      (if addr_base + segments.code.offset < 18446744073709551616 ∧
          addr_base + segments.data.offset < 18446744073709551616 then
        some
          (g.step
            (env.load_ctxsw_ucode_header reg_offset segments.boot_signature
              ((addr_base + segments.code.offset) / 256 % 4294967296)
              ((addr_base + segments.data.offset) / 256 % 4294967296) segments.code.size
              segments.data.size)
            (.load_ctxsw_ucode_header reg_offset segments.boot_signature
              ((addr_base + segments.code.offset) / 256 % 4294967296)
              ((addr_base + segments.data.offset) / 256 % 4294967296) segments.code.size
              segments.data.size))
        else none) := by
    unfold nvgpu_gr_falcon_load_ctxsw_ucode_header nvgpu_safe_add_u64 u64_lo32
    by_cases h1 : addr_base + segments.code.offset < 18446744073709551616
    · by_cases h2 : addr_base + segments.data.offset < 18446744073709551616
      · simp [h1, h2, Nat.shiftRight_eq_div_pow]
      · simp [h1, h2]
    · simp [h1]
  have hboot : nvgpu_gr_falcon_load_ctxsw_ucode_boot env g addr_base segments reg_offset =
      (if addr_base + segments.boot.offset < 18446744073709551616 ∧
          segments.boot.size + 255 < 4294967296 then
        some
          (g.step
            (env.load_ctxsw_ucode_boot reg_offset segments.boot_entry
              ((addr_base + segments.boot.offset) / 256 % 4294967296)
              ((segments.boot.size + 255) / 256) segments.boot_imem_offset)
            (.load_ctxsw_ucode_boot reg_offset segments.boot_entry
              ((addr_base + segments.boot.offset) / 256 % 4294967296)
              ((segments.boot.size + 255) / 256) segments.boot_imem_offset))
        else none) := by
    unfold nvgpu_gr_falcon_load_ctxsw_ucode_boot nvgpu_safe_add_u64 nvgpu_safe_add_u32 u64_lo32
    by_cases h1 : addr_base + segments.boot.offset < 18446744073709551616
    · by_cases h2 : segments.boot.size + 255 < 4294967296
      · have hb := boot_blocks_eq segments.boot.size h2
        simp only [h1, h2, if_true, and_self]
        rw [hb]
        simp [Nat.shiftRight_eq_div_pow]
      · simp [h1, h2]
    · simp [h1]
  refine ⟨hheader, hboot, ?_, ?_, fun hf hg => load_with_bootloader_trace env g falcon hf hg⟩
  · intro g1 h1
    rw [hheader] at h1
    split at h1
    · cases h1
      exact ⟨_, _, rfl, hshift _, hshift _⟩
    · cases h1
  · intro g1 h1
    rw [hboot] at h1
    split at h1
    · cases h1
      refine ⟨_, _, rfl, hshift _, ?_, ?_⟩
      · omega
      · intro hpos
        omega
    · cases h1

/-- Witness for C26: on the simulated device with the surface at 0x100000 the loader
binds the instance block, writes the FECS header (code address 4097, data address
4101) and boot entry (load address 4096, one block, destination 5) at register offset
0, then the GPCCS header and boot entry at register offset 8192. -/
theorem C26_ucode_header_and_boot_arguments_witness :
    ((gr_sim_falcon_loaded.ctxsw_ucode_info.surface_desc.gpu_va +
          gr_sim_falcon_loaded.ctxsw_ucode_info.fecs.code.offset < 18446744073709551616 ∧
        gr_sim_falcon_loaded.ctxsw_ucode_info.surface_desc.gpu_va +
          gr_sim_falcon_loaded.ctxsw_ucode_info.fecs.data.offset < 18446744073709551616 ∧
        gr_sim_falcon_loaded.ctxsw_ucode_info.surface_desc.gpu_va +
          gr_sim_falcon_loaded.ctxsw_ucode_info.fecs.boot.offset < 18446744073709551616 ∧
        gr_sim_falcon_loaded.ctxsw_ucode_info.fecs.boot.size + 255 < 4294967296) ∧
      (gr_sim_falcon_loaded.ctxsw_ucode_info.surface_desc.gpu_va +
          gr_sim_falcon_loaded.ctxsw_ucode_info.gpccs.code.offset < 18446744073709551616 ∧
        gr_sim_falcon_loaded.ctxsw_ucode_info.surface_desc.gpu_va +
          gr_sim_falcon_loaded.ctxsw_ucode_info.gpccs.data.offset < 18446744073709551616 ∧
        gr_sim_falcon_loaded.ctxsw_ucode_info.surface_desc.gpu_va +
          gr_sim_falcon_loaded.ctxsw_ucode_info.gpccs.boot.offset < 18446744073709551616 ∧
        gr_sim_falcon_loaded.ctxsw_ucode_info.gpccs.boot.size + 255 < 4294967296)) ∧
    (∃ g1, nvgpu_gr_falcon_load_with_bootloader (gr_sim_env 0 0 0 0) gr_sim_g_bootloader
        gr_sim_falcon_loaded = some g1 ∧
      g1.trace =
        gr_sim_g_bootloader.trace ++
          [.bind_instblk
              ((gr_sim_env 0 0 0 0).nvgpu_inst_block_addr
                gr_sim_falcon_loaded.ctxsw_ucode_info.inst_blk_desc gr_sim_g_bootloader.hw),
            ucode_header_event gr_sim_falcon_loaded.ctxsw_ucode_info.surface_desc.gpu_va
              gr_sim_falcon_loaded.ctxsw_ucode_info.fecs 0,
            ucode_boot_event gr_sim_falcon_loaded.ctxsw_ucode_info.surface_desc.gpu_va
              gr_sim_falcon_loaded.ctxsw_ucode_info.fecs 0,
            ucode_header_event gr_sim_falcon_loaded.ctxsw_ucode_info.surface_desc.gpu_va
              gr_sim_falcon_loaded.ctxsw_ucode_info.gpccs
              (gr_sim_env 0 0 0 0).get_gpccs_start_reg_offset,
            ucode_boot_event gr_sim_falcon_loaded.ctxsw_ucode_info.surface_desc.gpu_va
              gr_sim_falcon_loaded.ctxsw_ucode_info.gpccs
              (gr_sim_env 0 0 0 0).get_gpccs_start_reg_offset]) ∧
    (∃ g1, nvgpu_gr_falcon_load_with_bootloader (gr_sim_env 0 0 0 0) gr_sim_g_bootloader
        gr_sim_falcon_loaded = some g1 ∧
      g1.trace =
        [.bind_instblk 4096, .load_ctxsw_ucode_header 0 6 4097 4101 1024 300,
          .load_ctxsw_ucode_boot 0 7 4096 1 5, .load_ctxsw_ucode_header 8192 9 4104 4105 8 4,
          .load_ctxsw_ucode_boot 8192 9 4103 1 6]) :=
  ⟨by decide,
    (C26_ucode_header_and_boot_arguments (gr_sim_env 0 0 0 0) gr_sim_g_bootloader 1048576
      gr_sim_falcon_loaded.ctxsw_ucode_info.fecs 0 gr_sim_falcon_loaded).2.2.2.2 (by decide)
      (by decide),
    ⟨_, rfl, by decide⟩⟩

section priv_cmdbuf

theorem priv_cmd_q_size_bounds (q : priv_cmd_queue) (k : Nat) (hk : q.size = 2 ^ k)
    (hk31 : k ≤ 31) : 0 < q.size ∧ q.size ≤ 2147483648 := by
  rw [hk]
  exact ⟨Nat.two_pow_pos k, Nat.pow_le_pow_right (by decide) hk31⟩

/-- The free word count of a well-formed queue: the words not between get and put,
less one. -/
theorem priv_cmd_q_free_count_eq (q : priv_cmd_queue) (k : Nat) (hk : q.size = 2 ^ k)
    (hk31 : k ≤ 31) (hput : q.put < q.size) (hget : q.get ≤ q.size) :
    priv_cmd_q_free_count q =
      if q.get ≤ q.put then q.size - (q.put - q.get) - 1 else q.get - q.put - 1 := by
  obtain ⟨hpos, hle⟩ := priv_cmd_q_size_bounds q k hk hk31
  unfold priv_cmd_q_free_count
  split
  · have hX : u32_sub (u32_sub q.size (u32_sub q.put q.get)) 1 =
        q.size - (q.put - q.get) - 1 := by
      unfold u32_sub
      omega
    rw [hX]
    exact Nat.mod_eq_of_lt (by omega)
  · have hX : u32_sub (u32_sub q.size (u32_sub q.put q.get)) 1 =
        q.size + (q.get - q.put - 1) := by
      unfold u32_sub
      omega
    rw [hX, Nat.add_mod_left]
    exact Nat.mod_eq_of_lt (by omega)

/-- The result of `nvgpu_channel_alloc_priv_cmdbuf` on a well-formed queue for a
request of at most `size` words, with the 32-bit operations resolved. -/
theorem alloc_priv_cmdbuf_eq (q : priv_cmd_queue) (orig_size : Nat) (e0 : priv_cmd_entry)
    (k : Nat) (hk : q.size = 2 ^ k) (hk31 : k ≤ 31) (hput : q.put < q.size)
    (ho2 : orig_size ≤ q.size) :
    nvgpu_channel_alloc_priv_cmdbuf q orig_size (some e0) =
      if (if q.put + orig_size > q.size then orig_size + (q.size - q.put) else orig_size) >
          priv_cmd_q_free_count q then
        some (-EAGAIN, q, some e0)
      else if q.put + orig_size > q.size then
        some (0, { q with put := orig_size },
          some { valid := true, mem := some q.mem, off := 0, gva := q.mem.gpu_va,
                 size := orig_size, fill_off := 0 })
      else
        some (0, { q with put := (q.put + orig_size) % q.size },
          some { valid := true, mem := some q.mem, off := q.put,
                 gva := (q.mem.gpu_va + q.put * 4) % 18446744073709551616, size := orig_size,
                 fill_off := 0 }) := by
  obtain ⟨hpos, hle⟩ := priv_cmd_q_size_bounds q k hk hk31
  have h1 : u32 (q.put + orig_size) = q.put + orig_size := Nat.mod_eq_of_lt (by omega)
  have h2 : u32_sub q.size q.put = q.size - q.put := by
    unfold u32_sub
    omega
  have h4 : u32_sub q.size 1 = 2 ^ k - 1 := by
    rw [← hk]
    unfold u32_sub
    omega
  have h5 : (q.put + orig_size) &&& (2 ^ k - 1) = (q.put + orig_size) % q.size := by
    rw [Nat.and_pow_two_sub_one_eq_mod, hk]
  have h6 : (q.put + orig_size) % q.size ≤ q.size := Nat.le_of_lt (Nat.mod_lt _ hpos)
  unfold nvgpu_channel_alloc_priv_cmdbuf
  simp only [h1, h2, h4, h5]
  by_cases hc : q.put + orig_size > q.size
  · have h3 : u32 (orig_size + (q.size - q.put)) = orig_size + (q.size - q.put) :=
      Nat.mod_eq_of_lt (by omega)
    have hne : orig_size + (q.size - q.put) ≠ orig_size := by omega
    simp only [hc, if_true, h3]
    split
    · rfl
    · simp [hne, Nat.not_lt.mpr ho2]
  · simp only [hc, if_false]
    split
    · rfl
    · simp [Nat.not_lt.mpr h6]

theorem ite_none_some_eq {α : Type} (c : Prop) [Decidable c] (x r : α)
    (h : (if c then none else some x) = some r) : r = x := by
  split at h
  · cases h
  · cases h
    rfl

/-- A request that is not granted leaves the queue and the entry as they were; the
status is then `-EINVAL` for a `NULL` entry and `-EAGAIN` otherwise. -/
theorem alloc_priv_cmdbuf_failure (q : priv_cmd_queue) (orig_size : Nat)
    (e : Option priv_cmd_entry) (r : Int × priv_cmd_queue × Option priv_cmd_entry)
    (hr : nvgpu_channel_alloc_priv_cmdbuf q orig_size e = some r) (hne : r.1 ≠ 0) :
    r.2.1 = q ∧ r.2.2 = e ∧ (r.1 = -EINVAL ∨ r.1 = -EAGAIN) := by
  unfold nvgpu_channel_alloc_priv_cmdbuf at hr
  cases e with
  | none =>
    cases hr
    exact ⟨rfl, rfl, Or.inl rfl⟩
  | some e0 =>
    simp only at hr
    by_cases hf : (if u32 (q.put + orig_size) > q.size then
        u32 (orig_size + u32_sub q.size q.put) else orig_size) > priv_cmd_q_free_count q
    · rw [if_pos hf] at hr
      cases hr
      exact ⟨rfl, rfl, Or.inr rfl⟩
    · rw [if_neg hf] at hr
      have h := ite_none_some_eq _ _ _ hr
      subst h
      exact absurd rfl hne

/-- Where `orig_size + (size - put)` does not wrap in 32 bits, the assertion
`BUG_ON(q->put > q->size)` does not fire and the put position stays within the
queue. -/
theorem alloc_priv_cmdbuf_no_bug (q : priv_cmd_queue) (orig_size : Nat)
    (e : Option priv_cmd_entry) (k : Nat) (hk : q.size = 2 ^ k) (hk31 : k ≤ 31)
    (hput : q.put ≤ q.size) (hno : orig_size + (q.size - q.put) < 4294967296) :
    ∃ r, nvgpu_channel_alloc_priv_cmdbuf q orig_size e = some r ∧ r.2.1.put ≤ r.2.1.size := by
  obtain ⟨hpos, hle⟩ := priv_cmd_q_size_bounds q k hk hk31
  have hfree : priv_cmd_q_free_count q < q.size := Nat.mod_lt _ hpos
  have h2 : u32_sub q.size q.put = q.size - q.put := by
    unfold u32_sub
    omega
  have h3 : u32 (orig_size + (q.size - q.put)) = orig_size + (q.size - q.put) :=
    Nat.mod_eq_of_lt hno
  have h4 : u32_sub q.size 1 = 2 ^ k - 1 := by
    rw [← hk]
    unfold u32_sub
    omega
  have h6 : ∀ x, x &&& (2 ^ k - 1) ≤ q.size := by
    intro x
    rw [Nat.and_pow_two_sub_one_eq_mod, ← hk]
    exact Nat.le_of_lt (Nat.mod_lt _ hpos)
  cases e with
  | none => exact ⟨_, rfl, hput⟩
  | some e0 =>
    by_cases hf : (if u32 (q.put + orig_size) > q.size then
        u32 (orig_size + u32_sub q.size q.put) else orig_size) > priv_cmd_q_free_count q
    · refine ⟨(-EAGAIN, q, some e0), ?_, hput⟩
      unfold nvgpu_channel_alloc_priv_cmdbuf
      simp only [if_pos hf]
    · by_cases hne : (if u32 (q.put + orig_size) > q.size then
          u32 (orig_size + u32_sub q.size q.put) else orig_size) ≠ orig_size
      · have hc : u32 (q.put + orig_size) > q.size := by
          by_contra hc
          rw [if_neg hc] at hne
          exact hne rfl
        rw [if_pos hc, h2, h3] at hf
        have hle2 : ¬ orig_size > q.size := by omega
        refine ⟨(0, { q with put := orig_size },
          some { valid := true, mem := some q.mem, off := 0, gva := q.mem.gpu_va,
                 size := orig_size, fill_off := 0 }), ?_, by simp only; omega⟩
        unfold nvgpu_channel_alloc_priv_cmdbuf
        rw [if_pos hc, h2, h3] at hne
        simp only [if_pos hc, h2, h3, if_neg hf, if_pos hne, if_neg hle2]
      · have hle2 : ¬ u32 (q.put + orig_size) &&& (2 ^ k - 1) > q.size :=
          Nat.not_lt.mpr (h6 _)
        refine ⟨(0, { q with put := u32 (q.put + orig_size) &&& (2 ^ k - 1) },
          some { valid := true, mem := some q.mem, off := q.put,
                 gva := (q.mem.gpu_va + q.put * 4) % 18446744073709551616,
                 size := orig_size, fill_off := 0 }), ?_, h6 _⟩
        unfold nvgpu_channel_alloc_priv_cmdbuf
        simp only [if_neg hf, if_neg hne, h4, if_neg hle2]

end priv_cmdbuf

/-- C28 (code defect): the 16-word queue with put = get = 4 is a power of two in size
with put and get within the queue, and 0xFFFFFFF4 is a 32-bit request size; the padded
size `orig_size + (size - put)` wraps to 0 in 32 bits, the request passes the
free-space test, put is set to 0xFFFFFFF4 and `BUG_ON(q->put > q->size)` fires. -/
theorem C28_alloc_priv_cmdbuf_bug_on_fires :
    sim_priv_cmd_q.size = 2 ^ 4 ∧ sim_priv_cmd_q.put ≤ sim_priv_cmd_q.size ∧
    sim_priv_cmd_q.get ≤ sim_priv_cmd_q.size ∧
    u32 (4294967284 + u32_sub sim_priv_cmd_q.size sim_priv_cmd_q.put) = 0 ∧
    priv_cmd_q_free_count sim_priv_cmd_q = 15 ∧
    nvgpu_channel_alloc_priv_cmdbuf sim_priv_cmd_q 4294967284 (some sim_priv_cmd_entry) =
      none := by
  decide

/-- C29: on a queue whose size is a power of two (at most 2^31 words, a 32-bit value)
with `put < size` and `get <= size`, a request of `0 < orig_size <= size` words never
trips the assertion and returns 0 or `-EAGAIN`. When it returns 0 the entry is valid
and `orig_size` words long, the range `[e.off, e.off + orig_size)` lies within
`[0, size)`, no word of it is outstanding (between get and the old put, circularly),
the new put is `(e.off + orig_size) mod size`, and get and size are unchanged. If the
request fits before the end of the buffer the entry starts at the old put and the free
count drops by `orig_size`; otherwise the entry starts at word 0 and the free count
drops by `orig_size` plus the skipped `size - put` tail words. -/
theorem C29_alloc_priv_cmdbuf_range (q : priv_cmd_queue) (orig_size : Nat)
    (e0 : priv_cmd_entry) (k : Nat) (hk : q.size = 2 ^ k) (hk31 : k ≤ 31)
    (hput : q.put < q.size) (hget : q.get ≤ q.size) (ho1 : 0 < orig_size)
    (ho2 : orig_size ≤ q.size) :
    ∃ r, nvgpu_channel_alloc_priv_cmdbuf q orig_size (some e0) = some r ∧
      (r.1 = 0 ∨ r.1 = -EAGAIN) ∧
      (r.1 = 0 →
        ∃ e1, r.2.2 = some e1 ∧ e1.valid = true ∧ e1.size = orig_size ∧
          e1.off + orig_size ≤ q.size ∧
          (∀ w, e1.off ≤ w → w < e1.off + orig_size → ¬ priv_cmd_q_outstanding q w) ∧
          r.2.1.put = (e1.off + orig_size) % q.size ∧ r.2.1.get = q.get ∧
          r.2.1.size = q.size ∧
          (q.put + orig_size ≤ q.size →
            e1.off = q.put ∧
              priv_cmd_q_free_count r.2.1 + orig_size = priv_cmd_q_free_count q) ∧
          (q.put + orig_size > q.size →
            e1.off = 0 ∧
              priv_cmd_q_free_count r.2.1 + (orig_size + (q.size - q.put)) =
                priv_cmd_q_free_count q)) := by
  obtain ⟨hpos, hle⟩ := priv_cmd_q_size_bounds q k hk hk31
  have hfree := priv_cmd_q_free_count_eq q k hk hk31 hput hget
  rw [alloc_priv_cmdbuf_eq q orig_size e0 k hk hk31 hput ho2]
  by_cases hc : q.put + orig_size > q.size
  · simp only [hc, if_true]
    by_cases hf : orig_size + (q.size - q.put) > priv_cmd_q_free_count q
    · rw [if_pos hf]
      refine ⟨_, rfl, Or.inr rfl, ?_⟩
      intro h
      simp [EAGAIN] at h
    · rw [if_neg hf]
      have hlt : orig_size < q.get ∧ q.get ≤ q.put := by
        rw [hfree] at hf
        split at hf <;> omega
      have hfree1 := priv_cmd_q_free_count_eq { q with put := orig_size } k hk hk31
        (by simp only; omega) hget
      simp only at hfree1
      rw [if_neg (by omega)] at hfree1
      refine ⟨_, rfl, Or.inl rfl, ?_⟩
      intro _
      refine ⟨_, rfl, rfl, rfl, by simp only; omega, ?_, ?_, rfl, rfl, ?_, ?_⟩
      · intro w _ hw
        simp only [Nat.zero_add] at hw
        unfold priv_cmd_q_outstanding
        rw [if_pos hlt.2]
        omega
      · simp only [Nat.zero_add]
        exact (Nat.mod_eq_of_lt (by omega)).symm
      · intro hcon
        omega
      · intro _
        refine ⟨rfl, ?_⟩
        simp only
        rw [hfree1, hfree, if_pos hlt.2]
        omega
  · simp only [hc, if_false]
    by_cases hf : orig_size > priv_cmd_q_free_count q
    · rw [if_pos hf]
      refine ⟨_, rfl, Or.inr rfl, ?_⟩
      intro h
      simp [EAGAIN] at h
    · rw [if_neg hf]
      have hp : (q.put + orig_size) % q.size =
          if q.put + orig_size = q.size then 0 else q.put + orig_size := by
        split
        · rename_i heq
          rw [heq, Nat.mod_self]
        · exact Nat.mod_eq_of_lt (by omega)
      have hfree1 := priv_cmd_q_free_count_eq { q with put := (q.put + orig_size) % q.size } k hk
        hk31 (Nat.mod_lt _ hpos) hget
      simp only at hfree1
      refine ⟨_, rfl, Or.inl rfl, ?_⟩
      intro _
      refine ⟨_, rfl, rfl, rfl, by simp only; omega, ?_, rfl, rfl, rfl, ?_, ?_⟩
      · intro w hw1 hw2
        simp only at hw1 hw2
        unfold priv_cmd_q_outstanding
        rw [hfree] at hf
        split
        · omega
        · rw [if_neg (by assumption)] at hf
          omega
      · intro _
        refine ⟨rfl, ?_⟩
        simp only
        rw [hfree1, hfree, hp]
        rw [hfree] at hf
        split at hf <;> split <;> split <;> omega
      · intro hcon
        exact hcon.elim

/-- Witness for C29: on the 16-word queue with put = 12 and get = 8 a request of 6
words does not fit before the end of the buffer; it is granted at word 0, the new put
is 6, and the free count drops from 11 to 1, by the 6 words and the 4 skipped tail
words. -/
theorem C29_alloc_priv_cmdbuf_range_witness :
    sim_priv_cmd_q_tail.size = 2 ^ 4 ∧
    (nvgpu_channel_alloc_priv_cmdbuf sim_priv_cmd_q_tail 6
        (some sim_priv_cmd_entry) =
      some (0, { sim_priv_cmd_q with put := 6, get := 8 },
        some { valid := true, mem := some sim_priv_cmd_q.mem, off := 0, gva := 65536, size := 6,
               fill_off := 0 })) ∧
    priv_cmd_q_free_count sim_priv_cmd_q_tail = 11 ∧
    priv_cmd_q_free_count { sim_priv_cmd_q with put := 6, get := 8 } = 1 ∧
    ∃ r, nvgpu_channel_alloc_priv_cmdbuf sim_priv_cmd_q_tail 6
        (some sim_priv_cmd_entry) = some r ∧
      (r.1 = 0 ∨ r.1 = -EAGAIN) ∧
      (r.1 = 0 →
        ∃ e1, r.2.2 = some e1 ∧ e1.valid = true ∧ e1.size = 6 ∧
          e1.off + 6 ≤ sim_priv_cmd_q_tail.size ∧
          (∀ w, e1.off ≤ w → w < e1.off + 6 →
            ¬ priv_cmd_q_outstanding sim_priv_cmd_q_tail w) ∧
          r.2.1.put =
            (e1.off + 6) % sim_priv_cmd_q_tail.size ∧
          r.2.1.get = sim_priv_cmd_q_tail.get ∧
          r.2.1.size = sim_priv_cmd_q_tail.size ∧
          (sim_priv_cmd_q_tail.put + 6 ≤
              sim_priv_cmd_q_tail.size →
            e1.off = sim_priv_cmd_q_tail.put ∧
              priv_cmd_q_free_count r.2.1 + 6 =
                priv_cmd_q_free_count sim_priv_cmd_q_tail) ∧
          (sim_priv_cmd_q_tail.put + 6 >
              sim_priv_cmd_q_tail.size →
            e1.off = 0 ∧
              priv_cmd_q_free_count r.2.1 +
                  (6 + (sim_priv_cmd_q_tail.size -
                    sim_priv_cmd_q_tail.put)) =
                priv_cmd_q_free_count sim_priv_cmd_q_tail)) :=
  ⟨rfl, by decide, by decide, by decide,
    C29_alloc_priv_cmdbuf_range sim_priv_cmd_q_tail 6 sim_priv_cmd_entry
      4 rfl (by decide) (by decide) (by decide) (by decide) (by decide)⟩

section profile_stats

/-- For durations less than 2^31 apart, `__profile_cmp` has the sign of the unsigned
comparison. -/
theorem profile_cmp_sign_of_close (a b : Nat) (hab : a < b + 2147483648)
    (hba : b < a + 2147483648) :
    (a < b → __profile_cmp a b < 0) ∧ (a = b → __profile_cmp a b = 0) ∧
      (a > b → 0 < __profile_cmp a b) := by
  unfold __profile_cmp u64_to_int
  refine ⟨?_, ?_, ?_⟩
  · intro h
    split <;> omega
  · intro h
    split <;> omega
  · intro h
    split <;> omega

/-- For `PERCENTILE_RANGES <= nelem` with `100 * nelem` below 2^32, every percentile
index read lies within the `nelem` sorted elements. -/
theorem percentile_index_lt (index nelem : Nat) (hi : index < PERCENTILE_RANGES)
    (hn : PERCENTILE_RANGES ≤ nelem) (hsmall : 100 * nelem < 4294967296) :
    percentile_index index nelem < nelem ∧
      percentile_index index nelem = PERCENTILE_WIDTH * (index + 1) * nelem / 100 - 1 := by
  have hr : PERCENTILE_RANGES = 20 := rfl
  have hw : PERCENTILE_WIDTH = 5 := rfl
  rw [hr] at hi hn
  unfold percentile_index u32 u32_sub
  rw [hw]
  have h1 : (index + 1) % 4294967296 = index + 1 := Nat.mod_eq_of_lt (by omega)
  have h2 : 5 * (index + 1) % 4294967296 = 5 * (index + 1) := Nat.mod_eq_of_lt (by omega)
  have h3 : 5 * (index + 1) * nelem ≤ 100 * nelem := Nat.mul_le_mul_right _ (by omega)
  have h4 : 5 * (index + 1) * nelem % 4294967296 = 5 * (index + 1) * nelem :=
    Nat.mod_eq_of_lt (by omega)
  have h5 : 5 * nelem ≤ 5 * (index + 1) * nelem := by
    calc 5 * nelem = 5 * 1 * nelem := by ring
      _ ≤ 5 * (index + 1) * nelem := Nat.mul_le_mul_right _ (by omega)
  rw [h1, h2, h4]
  generalize 5 * (index + 1) * nelem = x at h3 h5
  omega

end profile_stats

/-- C30 (code defect): for the 64-bit durations a = 2^31 and b = 0, where a > b,
`__profile_cmp a b` is negative, as is `__profile_cmp b a`, so the comparator orders
the two both ways; and for a = 2^32 and b = 0, which differ, `__profile_cmp a b` is
0. -/
theorem C30_profile_cmp_truncates :
    __profile_cmp 2147483648 0 = -2147483648 ∧ __profile_cmp 0 2147483648 = -2147483648 ∧
    ¬ (0 < __profile_cmp 2147483648 0) ∧ __profile_cmp 4294967296 0 = 0 := by
  decide

end Nvgpu
